import Mathlib

/-!
# Driver layer of the SSNES frontend (`driver.c`)

A shallow embedding of backend resolution (`find_audio_driver`,
`find_video_driver`, `find_input_driver`), of the audio pipeline bring-up and
teardown (`init_audio`, `uninit_audio`), of the image filter and the shader
directory (`init_filter`, `deinit_filter`, `init_shader_dir`,
`deinit_shader_dir`) and of the video and input bring-up and teardown
(`init_video_input`, `uninit_video_input`).

* C strings are lists of bytes; the end of the list, or an embedded zero
  byte, is the terminating NUL.
* Pointers to opaque instances and buffers are natural numbers, `0` being
  `NULL`.
* Calls that leave `driver.c` (backend entry points, the resampler, the
  allocator, the dynamic loader, the directory listing, `stderr`) are
  appended to a trace carried by the state.
* Arithmetic in `unsigned` and in `size_t` is modulo `2 ^ N` for the width
  `N` of the type, which is a parameter.
* A function either returns, leaves through `exit`, fails an `assert`, or
  reads outside a table.
-/

namespace Driver

/-! ## C strings and `strcasecmp` -/

/-- A C string: its bytes; the list end or a zero byte terminates it. -/
abbrev CStr := List Nat

/-- An opaque pointer value; `0` is `NULL`. -/
abbrev Ptr := Nat

/-- Bytes of a string literal. -/
def lit (s : String) : CStr := s.toList.map Char.toNat

/-- The bytes in front of the terminating NUL. -/
def c_str : CStr → CStr
  | [] => []
  | c :: cs => if c = 0 then [] else c :: c_str cs

/-- The libc function `tolower` in the C locale, on byte values. -/
def tolower (c : Nat) : Nat := if 65 ≤ c ∧ c ≤ 90 then c + 32 else c

/-- The libc function `strlen`. -/
def strlen (s : CStr) : Nat := (c_str s).length

/-- The libc function `strcasecmp`: walk both strings, compare the lowered bytes, stop
at the first difference or at the NUL. -/
def strcasecmp : CStr → CStr → Int
  | [], [] => 0
  | [], b :: _ => 0 - (tolower b : Int)
  | a :: _, [] => (tolower a : Int) - 0
  | a :: as, b :: bs =>
    if tolower a ≠ tolower b then (tolower a : Int) - (tolower b : Int)
    else if a = 0 then 0
    else strcasecmp as bs

/-- Two strings are equal ignoring ASCII letter case. -/
def eq_ignore_case (a b : CStr) : Prop :=
  (c_str a).map tolower = (c_str b).map tolower

instance (a b : CStr) : Decidable (eq_ignore_case a b) := by
  unfold eq_ignore_case; infer_instance

/-! ## Backend descriptors (`driver.h`) -/

/-- The `audio_driver_t` capability set.  `init` gives the instance the
backend returns for a device (`none` is the `NULL` device), a rate and a
latency; `use_float` may be a null function pointer; `write`,
`set_nonblock_state` and `free` only act on the backend and appear in the
trace. -/
structure audio_driver_t where
  ident : CStr
  init : Option CStr → Nat → Nat → Ptr
  use_float : Option (Ptr → Bool)

/-- The `input_driver_t` descriptor.  `init` is the instance the backend's
`init()` returns (it takes no argument); `poll`, the key queries and `free`
only act on the backend, and `free` appears in the trace. -/
structure input_driver_t where
  ident : CStr
  init : Ptr

/-- The `video_info_t` block handed to a video backend's `init`. -/
structure video_info_t where
  width : Nat
  height : Nat
  fullscreen : Bool
  vsync : Bool
  force_aspect : Bool
  smooth : Bool
  input_scale : Nat
  rgb32 : Bool
deriving DecidableEq, Repr

/-- The `video_driver_t` descriptor.  `init video input input_data` gives,
for the block `video` and the values `*input` and `*input_data` hold at the
call, the instance the backend returns together with the values it leaves in
`*input` and `*input_data`; `free` only acts on the backend and appears in
the trace. -/
structure video_driver_t where
  ident : CStr
  init : video_info_t → Option input_driver_t → Ptr → Ptr × Option input_driver_t × Ptr

/-- The global `driver` of type `driver_t`. -/
structure driver_t where
  audio : Option audio_driver_t
  video : Option video_driver_t
  input : Option input_driver_t
  audio_data : Ptr
  video_data : Ptr
  input_data : Ptr

/-! ## Settings and global state (`general.h`) -/

/-- The `g_settings.audio` block, declared in `general.h`.  The fields
`out_rate`, `in_rate` and `latency` are C `unsigned` values; their width is
`Platform.uint_bits`. -/
structure audio_settings_t where
  driver : CStr
  enable : Bool
  out_rate : Nat
  in_rate : Nat
  device : CStr
  latency : Nat
  sync : Bool

/-- The `g_settings.video` block (the part read here).  The window size of
line 340 and 341 is float arithmetic on `xscale`, `yscale` and
`aspect_ratio`; `windowed_width` and `windowed_height` stand for the values
of `224 * xscale * aspect_ratio` and `224 * yscale` once converted to
`unsigned`. -/
structure video_settings_t where
  driver : CStr
  fullscreen : Bool
  fullscreen_x : Nat
  fullscreen_y : Nat
  windowed_width : Nat
  windowed_height : Nat
  vsync : Bool
  force_aspect : Bool
  smooth : Bool
  filter_path : CStr
  shader_dir : CStr

/-- The `g_settings.input` block (the part read here). -/
structure input_settings_t where
  driver : CStr

/-- The global `g_settings`. -/
structure settings_t where
  audio : audio_settings_t
  video : video_settings_t
  input : input_settings_t

/-- The `g_extern.audio_data` block. -/
structure audio_data_t where
  source : Ptr
  data : Ptr
  data_ptr : Nat
  outsamples : Ptr
  conv_outsamples : Ptr
  chunk_size : Nat
  nonblock_chunk_size : Nat
  block_chunk_size : Nat
  use_float : Bool
deriving DecidableEq, Repr

/-- The `g_extern.filter` block.  The function pointers `psize` and
`prender` are kept as addresses; `colormap_mem` is the contents of the block
`colormap` points to, one entry per `uint32_t`. -/
structure filter_t where
  active : Bool
  lib : Ptr
  psize : Ptr
  prender : Ptr
  scale : Nat
  buffer : Ptr
  pitch : Nat
  colormap : Ptr
  colormap_mem : List Nat
deriving DecidableEq, Repr

/-- The `g_extern.shader_dir` block; `elems` is `none` for `NULL` and
otherwise the strings in front of the terminating `NULL` entry. -/
structure shader_dir_t where
  elems : Option (List CStr)
  size : Nat
  ptr : Nat
deriving DecidableEq, Repr

/-- The global `g_extern` (the part touched by `driver.c`). -/
structure global_t where
  audio_active : Bool
  audio_data : audio_data_t
  filter : filter_t
  shader_dir : shader_dir_t
deriving DecidableEq, Repr

/-! ## Calls leaving `driver.c` -/

/-- One call that leaves `driver.c`. -/
inductive Event where
  | ssnes_err (fmt : String) (arg : CStr)
  | fprintf_stderr (fmt : String) (arg : Option CStr)
  | audio_init (ident : CStr) (device : Option CStr) (rate latency : Nat)
  | audio_use_float (ident : CStr) (data : Ptr)
  | audio_set_nonblock_state (ident : CStr) (data : Ptr) (state : Bool)
  | audio_free (ident : CStr) (data : Ptr)
  | hermite_new (channels : Nat)
  | hermite_free (source : Ptr)
  | malloc (size : Nat)
  | free (p : Ptr)
  | ssnes_err_plain (fmt : String)
  | ssnes_log (fmt : String) (arg : CStr)
  | dylib_load (path : CStr)
  | dylib_proc (lib : Ptr) (symbol : String)
  | dylib_close (lib : Ptr)
  | filter_psize (psize : Ptr) (width height : Nat)
  | dir_list_new (dir : CStr) (ext : String)
  | dir_list_free (elems : Option (List CStr))
  | video_init (ident : CStr) (video : video_info_t)
  | video_free (ident : CStr) (data : Ptr)
  | input_init (ident : CStr)
  | input_free (ident : CStr) (data : Ptr)
deriving DecidableEq, Repr

/-- The mutable globals together with the calls made so far; the field
`g_ext` is the global `g_extern`. -/
structure State where
  driver : driver_t
  g_ext : global_t
  trace : List Event

/-- The assertions of `init_audio` and of `init_filter`, in source order. -/
inductive Assertion where
  | rate_ratio
  | data
  | outsamples
  | conv_outsamples
  | filter_buffer
  | filter_colormap
deriving DecidableEq, Repr

/-- How a call ends: it returns, the process leaves through `exit`, an
`assert` fails, or the behaviour is undefined (a table read past its end, a
call through a null descriptor). -/
inductive Outcome where
  | ret (s : State)
  | exit (status : Nat) (s : State)
  | assert_fail (a : Assertion) (s : State)
  | undefined (s : State)

/-- What `driver.c` takes from the platform: the width in bits of `unsigned`
(arithmetic in that type is modulo `2 ^ uint_bits`), the pointer
`hermite_new` returns for a channel count, and the pointer `malloc` returns
for a byte count (`0` when the allocation fails). -/
structure Platform where
  uint_bits : Nat
  hermite_new : Nat → Ptr
  malloc : Nat → Ptr

/-- What the filter and shader code takes from the host besides `malloc`: the
width in bits of `size_t`, the handle `dylib_load` returns for a path (`0`
when the module cannot be opened), the address `dylib_proc` returns for a
handle and a symbol name (`0` when the symbol is missing), what a call
through the address `psize` leaves in `*width` and `*height` given their
values at the call, and the listing `dir_list_new` returns for a directory
and an extension. -/
structure Host where
  size_t_bits : Nat
  dylib_load : CStr → Ptr
  dylib_proc : Ptr → String → Ptr
  psize : Ptr → Nat → Nat → Nat × Nat
  dir_list_new : CStr → String → Option (List CStr)

/-- Append calls to the trace. -/
def State.emit (s : State) (es : List Event) : State :=
  { s with trace := s.trace ++ es }

/-- The entries `tbl[i]` for the indices `i` of a loop, in order; `none` as
soon as one index lies past the end of the table. -/
def read_each {α : Type} (tbl : List α) : List Nat → Option (List α)
  | [] => some []
  | i :: is =>
    match tbl[i]?, read_each tbl is with
    | some x, some xs => some (x :: xs)
    | _, _ => none

/-! ## Backend resolution -/

/-- The function `find_audio_driver`: scan `audio_drivers` in order, keep the first entry
whose ident compares equal to `g_settings.audio.driver`; without one, print
the diagnostics and `exit(1)`. -/
def find_audio_driver (audio_drivers : List audio_driver_t) (g_settings : settings_t)
    (s : State) : Outcome :=
  match audio_drivers.find? (fun d => strcasecmp g_settings.audio.driver d.ident = 0) with
  | some d => .ret { s with driver.audio := some d }
  | none =>
    .exit 1 (s.emit
      ([.ssnes_err "Couldn't find any audio driver named \"%s\"\n" g_settings.audio.driver,
        .fprintf_stderr "Available audio drivers are:\n" none]
        ++ audio_drivers.map (fun d => .fprintf_stderr "\t%s\n" (some d.ident))))

/-- The function `find_video_driver`: as `find_audio_driver`, over `video_drivers`
and `g_settings.video.driver`. -/
def find_video_driver (video_drivers : List video_driver_t) (g_settings : settings_t)
    (s : State) : Outcome :=
  match video_drivers.find? (fun d => strcasecmp g_settings.video.driver d.ident = 0) with
  | some d => .ret { s with driver.video := some d }
  | none =>
    .exit 1 (s.emit
      ([.ssnes_err "Couldn't find any video driver named \"%s\"\n" g_settings.video.driver,
        .fprintf_stderr "Available video drivers are:\n" none]
        ++ video_drivers.map (fun d => .fprintf_stderr "\t%s\n" (some d.ident))))

/-- The function `find_input_driver`: the scan runs over `input_drivers`; the listing
loop counts up to the length of `input_drivers` and reads
`video_drivers[i]->ident`. -/
def find_input_driver (input_drivers : List input_driver_t)
    (video_drivers : List video_driver_t) (g_settings : settings_t) (s : State) : Outcome :=
  match input_drivers.find? (fun d => strcasecmp g_settings.input.driver d.ident = 0) with
  | some d => .ret { s with driver.input := some d }
  | none =>
    let s := s.emit
      [.ssnes_err "Couldn't find any input driver named \"%s\"\n" g_settings.input.driver,
       .fprintf_stderr "Available input drivers are:\n" none]
    match read_each video_drivers (List.range input_drivers.length) with
    | some ds => .exit 1 (s.emit (ds.map (fun d => .fprintf_stderr "\t%s\n" (some d.ident))))
    | none => .undefined s

/-! ## Audio pipeline -/

/-- The constant `AUDIO_CHUNK_SIZE_BLOCKING`. -/
def AUDIO_CHUNK_SIZE_BLOCKING : Nat := 64

/-- The constant `AUDIO_CHUNK_SIZE_NONBLOCKING`. -/
def AUDIO_CHUNK_SIZE_NONBLOCKING : Nat := 2048

/-- The constant `AUDIO_MAX_RATIO`. -/
def AUDIO_MAX_RATIO : Nat := 16

/-- The value of `sizeof(float)`. -/
def sizeof_float : Nat := 4

/-- The value of `sizeof(int16_t)`. -/
def sizeof_int16_t : Nat := 2

/-- The condition of the first `assert` of `init_audio`:
`out_rate < in_rate * AUDIO_MAX_RATIO`, the product formed in `unsigned`. -/
def rate_ratio_ok (p : Platform) (g_settings : settings_t) : Bool :=
  decide (g_settings.audio.out_rate
    < (g_settings.audio.in_rate * AUDIO_MAX_RATIO) % 2 ^ p.uint_bits)

/-- Lines 159 and 160 of `init_audio`: the two chunk-size constants. -/
def init_audio.chunk_constants (s : State) : State :=
  let s := { s with g_ext.audio_data.block_chunk_size := AUDIO_CHUNK_SIZE_BLOCKING }
  { s with g_ext.audio_data.nonblock_chunk_size := AUDIO_CHUNK_SIZE_NONBLOCKING }

/-- The device argument of line 162: `NULL` for an empty device string. -/
def init_audio.device (g_settings : settings_t) : Option CStr :=
  if strlen g_settings.audio.device ≠ 0 then some g_settings.audio.device else none

/-- The instance the backend's `init` returns at line 162. -/
def init_audio.backend_instance (g_settings : settings_t) (audio : audio_driver_t) : Ptr :=
  audio.init (init_audio.device g_settings) g_settings.audio.out_rate g_settings.audio.latency

/-- Lines 162 to 164 of `init_audio`: call the backend's `init`, keep the
instance, and switch audio off when there is none. -/
def init_audio.backend_init (g_settings : settings_t) (audio : audio_driver_t)
    (s : State) : State :=
  let s := s.emit [.audio_init audio.ident (init_audio.device g_settings)
    g_settings.audio.out_rate g_settings.audio.latency]
  let s := { s with driver.audio_data := init_audio.backend_instance g_settings audio }
  if s.driver.audio_data = 0 then { s with g_ext.audio_active := false } else s

/-- Lines 166 and 167 of `init_audio`: with audio active and a `use_float`
entry present, ask the backend and mark the stream float on a yes. -/
def init_audio.query_use_float (audio : audio_driver_t) (s : State) : State :=
  if s.g_ext.audio_active then
    match audio.use_float with
    | some use_float =>
      let s := s.emit [.audio_use_float audio.ident s.driver.audio_data]
      if use_float s.driver.audio_data then { s with g_ext.audio_data.use_float := true }
      else s
    | none => s
  else s

/-- Lines 169 to 175 of `init_audio`: pick the active chunk size. -/
def init_audio.select_chunk_size (g_settings : settings_t) (audio : audio_driver_t)
    (s : State) : State :=
  if !g_settings.audio.sync && s.g_ext.audio_active then
    let s := s.emit [.audio_set_nonblock_state audio.ident s.driver.audio_data true]
    { s with g_ext.audio_data.chunk_size := s.g_ext.audio_data.nonblock_chunk_size }
  else
    { s with g_ext.audio_data.chunk_size := s.g_ext.audio_data.block_chunk_size }

/-- Lines 183 to 185 of `init_audio`: create the resampler, switch audio off
when there is none. -/
def init_audio.resampler_new (p : Platform) (s : State) : State :=
  let s := s.emit [.hermite_new 2]
  let s := { s with g_ext.audio_data.source := p.hermite_new 2 }
  if s.g_ext.audio_data.source = 0 then { s with g_ext.audio_active := false } else s

/-- Lines 188 and 189 of `init_audio`: the larger of the two chunk sizes. -/
def init_audio.max_bufsamples (s : State) : Nat :=
  if s.g_ext.audio_data.block_chunk_size > s.g_ext.audio_data.nonblock_chunk_size
  then s.g_ext.audio_data.block_chunk_size
  else s.g_ext.audio_data.nonblock_chunk_size

/-- The `malloc` inside the assertion of line 192. -/
def init_audio.alloc_data (p : Platform) (max_bufsamples : Nat) (s : State) : State :=
  let s := s.emit [.malloc (max_bufsamples * sizeof_float)]
  { s with g_ext.audio_data.data := p.malloc (max_bufsamples * sizeof_float) }

/-- The `malloc` inside the assertion of line 194. -/
def init_audio.alloc_outsamples (p : Platform) (max_bufsamples : Nat) (s : State) : State :=
  let s := s.emit [.malloc (max_bufsamples * sizeof_float * AUDIO_MAX_RATIO)]
  let outsamples := p.malloc (max_bufsamples * sizeof_float * AUDIO_MAX_RATIO)
  { s with g_ext.audio_data.outsamples := outsamples }

/-- The `malloc` inside the assertion of line 195. -/
def init_audio.alloc_conv_outsamples (p : Platform) (max_bufsamples : Nat)
    (s : State) : State :=
  let s := s.emit [.malloc (max_bufsamples * sizeof_int16_t * AUDIO_MAX_RATIO)]
  let conv_outsamples := p.malloc (max_bufsamples * sizeof_int16_t * AUDIO_MAX_RATIO)
  { s with g_ext.audio_data.conv_outsamples := conv_outsamples }

/-- Lines 188 to 195 of `init_audio`: the four assertions, the three
allocations and the reset of the write cursor. -/
def init_audio.allocate (p : Platform) (g_settings : settings_t) (s : State) : Outcome :=
  let max_bufsamples := init_audio.max_bufsamples s
  if !rate_ratio_ok p g_settings then .assert_fail .rate_ratio s
  else
    let s := init_audio.alloc_data p max_bufsamples s
    if s.g_ext.audio_data.data = 0 then .assert_fail .data s
    else
      let s := { s with g_ext.audio_data.data_ptr := 0 }
      let s := init_audio.alloc_outsamples p max_bufsamples s
      if s.g_ext.audio_data.outsamples = 0 then .assert_fail .outsamples s
      else
        let s := init_audio.alloc_conv_outsamples p max_bufsamples s
        if s.g_ext.audio_data.conv_outsamples = 0 then .assert_fail .conv_outsamples s
        else .ret s

/-- Lines 159 to 185 of `init_audio` in one piece: the state in which the
assertions of lines 191 to 195 run, for the resolved descriptor `audio`. -/
def init_audio.before_allocate (p : Platform) (g_settings : settings_t)
    (audio : audio_driver_t) (s : State) : State :=
  init_audio.resampler_new p
    (init_audio.select_chunk_size g_settings audio
      (init_audio.query_use_float audio
        (init_audio.backend_init g_settings audio (init_audio.chunk_constants s))))

/-- The function `init_audio`, the build without `HAVE_SRC` (the other build differs only
in the name of the resampler constructor). -/
def init_audio (p : Platform) (audio_drivers : List audio_driver_t)
    (g_settings : settings_t) (s : State) : Outcome :=
  if !g_settings.audio.enable then
    .ret { s with g_ext.audio_active := false }
  else
    match find_audio_driver audio_drivers g_settings s with
    | .ret s =>
      let s := init_audio.chunk_constants s
      match s.driver.audio with
      | none => .undefined s
      | some audio =>
        let s := init_audio.backend_init g_settings audio s
        let s := init_audio.query_use_float audio s
        let s := init_audio.select_chunk_size g_settings audio s
        let s := init_audio.resampler_new p s
        init_audio.allocate p g_settings s
    | o => o

/-- Lines 206 and 207 of `uninit_audio`: the backend's `free`. -/
def uninit_audio.free_backend (s : State) : State :=
  match s.driver.audio with
  | some audio =>
    if s.driver.audio_data ≠ 0 then s.emit [.audio_free audio.ident s.driver.audio_data]
    else s
  | none => s

/-- Lines 209 to 216 of `uninit_audio`: the resampler's release. -/
def uninit_audio.free_resampler (s : State) : State :=
  if s.g_ext.audio_data.source ≠ 0 then s.emit [.hermite_free s.g_ext.audio_data.source]
  else s

/-- Lines 218 to 220 of `uninit_audio`: free and null the three buffers. -/
def uninit_audio.free_buffers (s : State) : State :=
  let s := s.emit [.free s.g_ext.audio_data.data]
  let s := { s with g_ext.audio_data.data := 0 }
  let s := s.emit [.free s.g_ext.audio_data.outsamples]
  let s := { s with g_ext.audio_data.outsamples := 0 }
  let s := s.emit [.free s.g_ext.audio_data.conv_outsamples]
  { s with g_ext.audio_data.conv_outsamples := 0 }

/-- The function `uninit_audio`, the build without `HAVE_SRC` (the other build differs
only in the name of the resampler destructor). -/
def uninit_audio (g_settings : settings_t) (s : State) : State :=
  if !g_settings.audio.enable then
    { s with g_ext.audio_active := false }
  else
    let s := uninit_audio.free_backend s
    let s := uninit_audio.free_resampler s
    uninit_audio.free_buffers s

/-! ## The registries (`driver.c`, lines 31 to 78) -/

/-- The build flags that select the registry entries, and the descriptors
the entries point to (they are defined in the backend sources). -/
structure Build where
  HAVE_ALSA : Bool
  HAVE_OSS : Bool
  HAVE_RSOUND : Bool
  HAVE_AL : Bool
  HAVE_ROAR : Bool
  HAVE_JACK : Bool
  HAVE_SDL : Bool
  HAVE_XAUDIO : Bool
  HAVE_PULSE : Bool
  HAVE_XVIDEO : Bool
  HAVE_FILTER : Bool
  HAVE_XML : Bool
  audio_alsa : audio_driver_t
  audio_oss : audio_driver_t
  audio_rsound : audio_driver_t
  audio_openal : audio_driver_t
  audio_roar : audio_driver_t
  audio_jack : audio_driver_t
  audio_sdl : audio_driver_t
  audio_xa : audio_driver_t
  audio_pulse : audio_driver_t
  video_gl : video_driver_t
  video_sdl : video_driver_t
  video_xvideo : video_driver_t
  input_sdl : input_driver_t

/-- The table `audio_drivers`. -/
def audio_drivers (b : Build) : List audio_driver_t :=
  (if b.HAVE_ALSA then [b.audio_alsa] else [])
  ++ (if b.HAVE_OSS then [b.audio_oss] else [])
  ++ (if b.HAVE_RSOUND then [b.audio_rsound] else [])
  ++ (if b.HAVE_AL then [b.audio_openal] else [])
  ++ (if b.HAVE_ROAR then [b.audio_roar] else [])
  ++ (if b.HAVE_JACK then [b.audio_jack] else [])
  ++ (if b.HAVE_SDL then [b.audio_sdl] else [])
  ++ (if b.HAVE_XAUDIO then [b.audio_xa] else [])
  ++ (if b.HAVE_PULSE then [b.audio_pulse] else [])

/-- The table `video_drivers`. -/
def video_drivers (b : Build) : List video_driver_t :=
  (if b.HAVE_SDL then [b.video_gl, b.video_sdl] else [])
  ++ (if b.HAVE_XVIDEO then [b.video_xvideo] else [])

/-- The table `input_drivers` (the `input_x` entry is commented out). -/
def input_drivers (b : Build) : List input_driver_t :=
  if b.HAVE_SDL then [b.input_sdl] else []

/-! ## Image filter (`driver.c`, lines 223 to 292) -/

/-- The value of `sizeof(uint32_t)`. -/
def sizeof_uint32_t : Nat := 4

/-- The doubling loop behind `next_pow2`: starting from the power of two
`c`, double until `n` is reached, at most `fuel` times. -/
def next_pow2.from (n : Nat) : Nat → Nat → Nat
  | 0, c => c
  | fuel + 1, c => if n ≤ c then c else next_pow2.from n fuel (2 * c)

/-- Modelled from the spec: the helper `next_pow2`, which `init_filter` calls
and `driver.c` does not define.  The spec has it round a dimension "up to the
next power of two": the result is the least power of two that is not below
`n`. -/
def next_pow2 (n : Nat) : Nat := next_pow2.from n n 1

/-- Lines 231 and 232 of `init_filter`: log, open the module, keep the handle. -/
def init_filter.load (h : Host) (g_settings : settings_t) (s : State) : State :=
  let s := s.emit [.ssnes_log "Loading bSNES filter from \"%s\"\n" g_settings.video.filter_path,
    .dylib_load g_settings.video.filter_path]
  { s with g_ext.filter.lib := h.dylib_load g_settings.video.filter_path }

/-- Lines 239 and 240 of `init_filter`: look up the two entry points. -/
def init_filter.resolve (h : Host) (s : State) : State :=
  let s := s.emit [.dylib_proc s.g_ext.filter.lib "filter_size",
    .dylib_proc s.g_ext.filter.lib "filter_render"]
  let s := { s with g_ext.filter.psize := h.dylib_proc s.g_ext.filter.lib "filter_size" }
  { s with g_ext.filter.prender := h.dylib_proc s.g_ext.filter.lib "filter_render" }

/-- Lines 243 to 245 of `init_filter`: report, close the module, null the
handle. -/
def init_filter.unload (s : State) : State :=
  let s := s.emit [.ssnes_err_plain "Failed to find functions in filter...\n",
    .dylib_close s.g_ext.filter.lib]
  { s with g_ext.filter.lib := 0 }

/-- Lines 255 to 258 of `init_filter`: the scale for a reported size.  The
two `ceil` calls act on values of type `unsigned` and leave them as they
are; `pow2_x`, `pow2_y` and `maxsize` are `unsigned`. -/
def init_filter.scale_of (p : Platform) (width height : Nat) : Nat :=
  let pow2_x := next_pow2 width % 2 ^ p.uint_bits
  let pow2_y := next_pow2 height % 2 ^ p.uint_bits
  let maxsize := if pow2_x > pow2_y then pow2_x else pow2_y
  maxsize / 256

/-- The size the filter reports at line 253, from the hint 512 by 512. -/
def init_filter.reported (h : Host) (s : State) : Nat × Nat :=
  h.psize s.g_ext.filter.psize 512 512

/-- Lines 249 to 258 of `init_filter`: mark the filter active, ask it for its
size, derive the scale. -/
def init_filter.geometry (p : Platform) (h : Host) (s : State) : State :=
  let s := { s with g_ext.filter.active := true }
  let s := s.emit [.filter_psize s.g_ext.filter.psize 512 512]
  let scale := init_filter.scale_of p (init_filter.reported h s).1 (init_filter.reported h s).2
  { s with g_ext.filter.scale := scale }

/-- The byte count of line 260, `256 * 256 * scale * scale * sizeof(uint32_t)`:
the products with `scale` are formed in `unsigned`, the last one in `size_t`. -/
def init_filter.buffer_bytes (p : Platform) (h : Host) (scale : Nat) : Nat :=
  ((256 * 256 * scale % 2 ^ p.uint_bits * scale % 2 ^ p.uint_bits) * sizeof_uint32_t)
    % 2 ^ h.size_t_bits

/-- The pitch of line 261, `256 * scale * sizeof(uint32_t)`, stored in the
`unsigned` field `pitch`. -/
def init_filter.pitch_of (p : Platform) (h : Host) (scale : Nat) : Nat :=
  ((256 * scale % 2 ^ p.uint_bits) * sizeof_uint32_t) % 2 ^ h.size_t_bits % 2 ^ p.uint_bits

/-- Lines 260 and 261 of `init_filter`: allocate the pixel buffer, set the
pitch. -/
def init_filter.alloc_buffer (p : Platform) (h : Host) (s : State) : State :=
  let s := s.emit [.malloc (init_filter.buffer_bytes p h s.g_ext.filter.scale)]
  let buffer := p.malloc (init_filter.buffer_bytes p h s.g_ext.filter.scale)
  let s := { s with g_ext.filter.buffer := buffer }
  { s with g_ext.filter.pitch := init_filter.pitch_of p h s.g_ext.filter.scale }

/-- Line 264 of `init_filter`: allocate the colormap. -/
def init_filter.alloc_colormap (p : Platform) (s : State) : State :=
  let s := s.emit [.malloc (32768 * sizeof_uint32_t)]
  { s with g_ext.filter.colormap := p.malloc (32768 * sizeof_uint32_t) }

/-- Lines 270 to 277 of `init_filter`: the colormap entry for index `i`. -/
def init_filter.colormap_entry (i : Nat) : Nat :=
  let r := (i >>> 10) &&& 31
  let g := (i >>> 5) &&& 31
  let b := (i >>> 0) &&& 31
  let r := (r <<< 3) ||| (r >>> 2)
  let g := (g <<< 3) ||| (g >>> 2)
  let b := (b <<< 3) ||| (b >>> 2)
  (r <<< 24) ||| (g <<< 16) ||| (b <<< 8)

/-- The entries the loop of lines 268 to 278 writes, for `i` from 0 up to
32767. -/
def init_filter.colormap_table : List Nat :=
  (List.range 32768).map init_filter.colormap_entry

/-- Lines 268 to 278 of `init_filter`: the loop that fills the colormap. -/
def init_filter.fill_colormap (s : State) : State :=
  { s with g_ext.filter.colormap_mem := init_filter.colormap_table }

/-- The function `init_filter` (compiled under `HAVE_FILTER`). -/
def init_filter (p : Platform) (h : Host) (g_settings : settings_t) (s : State) : Outcome :=
  if s.g_ext.filter.active then .ret s
  else if g_settings.video.filter_path.headD 0 = 0 then .ret s
  else
    let s := init_filter.load h g_settings s
    if s.g_ext.filter.lib = 0 then
      .ret (s.emit [.ssnes_err "Failed to load filter \"%s\"\n" g_settings.video.filter_path])
    else
      let s := init_filter.resolve h s
      if s.g_ext.filter.psize = 0 ∨ s.g_ext.filter.prender = 0 then
        .ret (init_filter.unload s)
      else
        let s := init_filter.geometry p h s
        let s := init_filter.alloc_buffer p h s
        if s.g_ext.filter.buffer = 0 then .assert_fail .filter_buffer s
        else
          let s := init_filter.alloc_colormap p s
          if s.g_ext.filter.colormap = 0 then .assert_fail .filter_colormap s
          else .ret (init_filter.fill_colormap s)

/-- The function `deinit_filter`. -/
def deinit_filter (s : State) : State :=
  if s.g_ext.filter.active then
    let s := { s with g_ext.filter.active := false }
    let s := s.emit [.dylib_close s.g_ext.filter.lib]
    let s := { s with g_ext.filter.lib := 0 }
    s.emit [.free s.g_ext.filter.buffer, .free s.g_ext.filter.colormap]
  else s

/-! ## Shader directory (`driver.c`, lines 294 to 318) -/

/-- The function `init_shader_dir` (compiled under `HAVE_XML`): list the
directory, reset the counters, then log and count the entries in front of the
terminating `NULL`. -/
def init_shader_dir (h : Host) (g_settings : settings_t) (s : State) : State :=
  if g_settings.video.shader_dir.headD 0 = 0 then s
  else
    let s := s.emit [.dir_list_new g_settings.video.shader_dir ".shader"]
    let elems := h.dir_list_new g_settings.video.shader_dir ".shader"
    let s := { s with g_ext.shader_dir := { elems := elems, size := 0, ptr := 0 } }
    match elems with
    | some found =>
      let s := s.emit (found.map (fun e => .ssnes_log "Found shader \"%s\"\n" e))
      { s with g_ext.shader_dir.size := found.length }
    | none => s

/-- The function `deinit_shader_dir` (compiled under `HAVE_XML`). -/
def deinit_shader_dir (s : State) : State :=
  s.emit [.dir_list_free s.g_ext.shader_dir.elems]

/-! ## Video and input (`driver.c`, lines 320 to 393) -/

/-- Lines 322 to 328 of `init_video_input`: the filter and the shader
directory, each only when compiled in. -/
def init_video_input.prepare (b : Build) (p : Platform) (h : Host) (g_settings : settings_t)
    (s : State) : Outcome :=
  match (if b.HAVE_FILTER then init_filter p h g_settings s else .ret s) with
  | .ret s => .ret (if b.HAVE_XML then init_shader_dir h g_settings s else s)
  | o => o

/-- Lines 331 to 348 of `init_video_input`: the block handed to the video
backend. -/
def init_video_input.video_info (g_settings : settings_t) (s : State) : video_info_t :=
  { width := if g_settings.video.fullscreen then g_settings.video.fullscreen_x
             else g_settings.video.windowed_width
    height := if g_settings.video.fullscreen then g_settings.video.fullscreen_y
              else g_settings.video.windowed_height
    fullscreen := g_settings.video.fullscreen
    vsync := g_settings.video.vsync
    force_aspect := g_settings.video.force_aspect
    smooth := g_settings.video.smooth
    input_scale := if s.g_ext.filter.active then s.g_ext.filter.scale else 2
    rgb32 := s.g_ext.filter.active }

/-- What the video backend's `init` gives at line 351. -/
def init_video_input.video_result (g_settings : settings_t) (video : video_driver_t)
    (s : State) : Ptr × Option input_driver_t × Ptr :=
  video.init (init_video_input.video_info g_settings s) s.driver.input s.driver.input_data

/-- Line 351 of `init_video_input`: call the video backend's `init`, which
returns the instance and writes `driver.input` and `driver.input_data`. -/
def init_video_input.open_video (g_settings : settings_t) (video : video_driver_t)
    (s : State) : State :=
  let r := init_video_input.video_result g_settings video s
  let s := s.emit [.video_init video.ident (init_video_input.video_info g_settings s)]
  let s := { s with driver.video_data := r.1 }
  let s := { s with driver.input := r.2.1 }
  { s with driver.input_data := r.2.2 }

/-- Lines 360 to 377 of `init_video_input`: when the video backend left no
input backend, fall back to the configured one saved in `tmp`. -/
def init_video_input.fallback_input (tmp : Option input_driver_t) (s : State) : Outcome :=
  match s.driver.input with
  | some _ => .ret s
  | none =>
    let s := { s with driver.input := tmp }
    match s.driver.input with
    | some input =>
      let s := s.emit [.input_init input.ident]
      let s := { s with driver.input_data := input.init }
      if s.driver.input_data = 0 then
        .exit 1 (s.emit [.ssnes_err_plain "Cannot init input driver. Exiting ...\n"])
      else .ret s
    | none => .exit 1 (s.emit [.ssnes_err_plain "Cannot find input driver. Exiting ...\n"])

/-- Lines 350 to 377 of `init_video_input`, for the resolved video
descriptor: save the configured input backend, open the video backend, leave
when it gave no instance, else settle the input backend. -/
def init_video_input.open (g_settings : settings_t) (video : video_driver_t)
    (s : State) : Outcome :=
  let tmp := s.driver.input
  let s := init_video_input.open_video g_settings video s
  if s.driver.video_data = 0 then
    .exit 1 (s.emit [.ssnes_err_plain "Cannot open video driver... Exiting ...\n"])
  else init_video_input.fallback_input tmp s

/-- The function `init_video_input`. -/
def init_video_input (b : Build) (p : Platform) (h : Host) (g_settings : settings_t)
    (s : State) : Outcome :=
  match init_video_input.prepare b p h g_settings s with
  | .ret s =>
    match find_video_driver (video_drivers b) g_settings s with
    | .ret s =>
      match find_input_driver (input_drivers b) (video_drivers b) g_settings s with
      | .ret s =>
        match s.driver.video with
        | some video => init_video_input.open g_settings video s
        | none => .undefined s
      | o => o
    | o => o
  | o => o

/-- Lines 382 and 383 of `uninit_video_input`: the video backend's `free`. -/
def uninit_video_input.free_video (s : State) : State :=
  match s.driver.video with
  | some video =>
    if s.driver.video_data ≠ 0 then s.emit [.video_free video.ident s.driver.video_data]
    else s
  | none => s

/-- Lines 385 and 386 of `uninit_video_input`: the input backend's `free`. -/
def uninit_video_input.free_input (s : State) : State :=
  match s.driver.input with
  | some input =>
    if s.driver.input_data ≠ s.driver.video_data then
      s.emit [.input_free input.ident s.driver.input_data]
    else s
  | none => s

/-- The function `uninit_video_input`. -/
def uninit_video_input (b : Build) (s : State) : State :=
  let s := uninit_video_input.free_video s
  let s := uninit_video_input.free_input s
  let s := deinit_filter s
  if b.HAVE_XML then deinit_shader_dir s else s

/-! ## Observations on outcomes and traces -/

/-- The call came back to its caller. -/
def Outcome.returns : Outcome → Prop
  | .ret _ => True
  | _ => False

/-- The state a call ended in. -/
def Outcome.state : Outcome → State
  | .ret s => s
  | .exit _ s => s
  | .assert_fail _ s => s
  | .undefined s => s

/-- The strings printed through the format with one `%s` argument, in order. -/
def printed_idents (t : List Event) : List CStr :=
  t.filterMap (fun e =>
    match e with
    | .fprintf_stderr _ (some x) => some x
    | _ => none)

/-- The number of `free` calls made on backend `ident` for instance `data`. -/
def count_audio_free (ident : CStr) (data : Ptr) (t : List Event) : Nat :=
  t.count (.audio_free ident data)

/-- The number of calls to any backend's `free`. -/
def count_any_audio_free (t : List Event) : Nat :=
  t.countP (fun e =>
    match e with
    | .audio_free _ _ => true
    | _ => false)

/-- The number of calls to `hermite_free`. -/
def count_hermite_free (t : List Event) : Nat :=
  t.countP (fun e =>
    match e with
    | .hermite_free _ => true
    | _ => false)

/-! ## Concrete data for the worked cases -/

/-- An audio descriptor whose `init` always gives `inst` and whose
`use_float`, when present, always answers `uf`. -/
def mk_audio (ident : CStr) (inst : Ptr) (uf : Option Bool) : audio_driver_t :=
  { ident := ident, init := fun _ _ _ => inst, use_float := uf.map (fun b _ => b) }

/-- A video descriptor with the given ident whose `init` returns the
instance `0x3000` and leaves `NULL` in `*input` and `*input_data`. -/
def mk_video (ident : CStr) : video_driver_t :=
  { ident := ident, init := fun _ _ _ => (0x3000, none, 0) }

/-- An input descriptor with the given ident whose `init` returns `0x4000`. -/
def mk_input (ident : CStr) : input_driver_t := { ident := ident, init := 0x4000 }

/-- A build with `HAVE_SDL` only. -/
def sdl_build : Build :=
  { HAVE_ALSA := false, HAVE_OSS := false, HAVE_RSOUND := false, HAVE_AL := false,
    HAVE_ROAR := false, HAVE_JACK := false, HAVE_SDL := true, HAVE_XAUDIO := false,
    HAVE_PULSE := false, HAVE_XVIDEO := false, HAVE_FILTER := false, HAVE_XML := false,
    audio_alsa := mk_audio (lit "alsa") 0x1000 none,
    audio_oss := mk_audio (lit "oss") 0x1000 none,
    audio_rsound := mk_audio (lit "rsound") 0x1000 none,
    audio_openal := mk_audio (lit "openal") 0x1000 none,
    audio_roar := mk_audio (lit "roar") 0x1000 none,
    audio_jack := mk_audio (lit "jack") 0x1000 none,
    audio_sdl := mk_audio (lit "sdl") 0x1000 none,
    audio_xa := mk_audio (lit "xaudio") 0x1000 none,
    audio_pulse := mk_audio (lit "pulse") 0x1000 none,
    video_gl := mk_video (lit "gl"),
    video_sdl := mk_video (lit "sdl"),
    video_xvideo := mk_video (lit "xvideo"),
    input_sdl := mk_input (lit "sdl") }

/-- Settings with audio on, sync on, 48000 Hz out of 31950 Hz in, the default
device, all three backends named `name`. -/
def settings_named (name : CStr) : settings_t :=
  { audio := { driver := name, enable := true, out_rate := 48000, in_rate := 31950,
               device := [], latency := 64, sync := true },
    video := { driver := name, fullscreen := false, fullscreen_x := 1280,
               fullscreen_y := 720, windowed_width := 597, windowed_height := 448,
               vsync := true, force_aspect := true, smooth := true,
               filter_path := [], shader_dir := [] },
    input := { driver := name } }

/-- The globals before anything ran, audio marked active, nothing traced. -/
def state0 : State :=
  { driver := { audio := none, video := none, input := none,
                audio_data := 0, video_data := 0, input_data := 0 },
    g_ext := { audio_active := true,
                  audio_data := { source := 0, data := 0, data_ptr := 0, outsamples := 0,
                                  conv_outsamples := 0, chunk_size := 0,
                                  nonblock_chunk_size := 0, block_chunk_size := 0,
                                  use_float := false },
               filter := { active := false, lib := 0, psize := 0, prender := 0, scale := 0,
                           buffer := 0, pitch := 0, colormap := 0, colormap_mem := [] },
               shader_dir := { elems := none, size := 0, ptr := 0 } },
    trace := [] }

/-- A platform with 32-bit `unsigned` on which every allocation succeeds. -/
def platform32 : Platform :=
  { uint_bits := 32, hermite_new := fun _ => 0x2000, malloc := fun n => 0x10000 + n }

/-- An audio registry with two entries matching `"sdl"`. -/
def dup_audio : List audio_driver_t :=
  [mk_audio (lit "oss") 0x1100 none, mk_audio (lit "SDL") 0x1200 none,
   mk_audio (lit "sdl") 0x1300 none]

/-- A video registry with two entries matching `"sdl"`. -/
def dup_video : List video_driver_t :=
  [mk_video (lit "gl"), mk_video (lit "Sdl"), mk_video (lit "sdl")]

/-- An input registry with two entries matching `"sdl"`. -/
def dup_input : List input_driver_t :=
  [mk_input (lit "x"), mk_input (lit "sDL"), mk_input (lit "sdl")]

/-- Settings whose input rate makes `in_rate * 16` leave the range of a
32-bit `unsigned`: `268435456 * 16 = 2 ^ 32`. -/
def overflow_settings : settings_t :=
  { settings_named (lit "sdl") with audio.out_rate := 48000, audio.in_rate := 268435456 }

/-- Settings with audio sync switched off. -/
def nosync_settings : settings_t :=
  { settings_named (lit "sdl") with audio.sync := false }

/-- A registry whose only backend `"sdl"` returns no instance from `init`. -/
def null_audio : List audio_driver_t := [mk_audio (lit "sdl") 0 none]

/-- A platform with 32-bit `unsigned` on which `malloc` always gives `NULL`. -/
def platform_oom : Platform :=
  { uint_bits := 32, hermite_new := fun _ => 0x2000, malloc := fun _ => 0 }

/-- The state `init_audio` returns on the SDL-only build with every external
call succeeding. -/
def buffered_state : State :=
  (init_audio platform32 (audio_drivers sdl_build) (settings_named (lit "sdl")) state0).state

/-- A 64-bit host whose filter module loads, exports both entry points and
reports the size 300 by 200, and whose shader directory holds one file. -/
def host64 : Host :=
  { size_t_bits := 64, dylib_load := fun _ => 0x5000, dylib_proc := fun _ _ => 0x6000,
    psize := fun _ _ _ => (300, 200), dir_list_new := fun _ _ => some [lit "a.shader"] }

/-- The SDL-only build with the filter and the shader directory compiled in. -/
def filter_build : Build :=
  { sdl_build with HAVE_FILTER := true, HAVE_XML := true }

/-- Settings that name a filter module and a shader directory. -/
def filter_settings : settings_t :=
  { settings_named (lit "sdl") with
    video.filter_path := lit "filter.so", video.shader_dir := lit "shaders" }

/-- The byte counts passed to `malloc`, in call order. -/
def malloc_sizes (t : List Event) : List Nat :=
  t.filterMap (fun e =>
    match e with
    | .malloc n => some n
    | _ => none)

/-- The calls to a backend's `set_nonblock_state`, in call order. -/
def set_nonblock_calls (t : List Event) : List Event :=
  t.filter (fun e =>
    match e with
    | .audio_set_nonblock_state _ _ _ => true
    | _ => false)

/-- The state before anything ran, with the stream already marked float. -/
def float_state : State :=
  { state0 with g_ext.audio_data.use_float := true }

/-- The state before anything ran, with audio marked inactive. -/
def inactive_state : State :=
  { state0 with g_ext.audio_active := false }

/-- Settings with audio configured off. -/
def audio_off_settings : settings_t :=
  { settings_named (lit "sdl") with audio.enable := false }

/-- Lines 231 to 261 of `init_filter` in one piece, for a module that loads
and exports both entry points: the state in which the assertion on the pixel
buffer runs. -/
def init_filter.sized (p : Platform) (h : Host) (g_settings : settings_t) (s : State) : State :=
  init_filter.alloc_buffer p h
    (init_filter.geometry p h (init_filter.resolve h (init_filter.load h g_settings s)))

/-- The size the filter module named in the settings reports at line 253. -/
def init_filter.reported_size (h : Host) (g_settings : settings_t) : Nat × Nat :=
  h.psize (h.dylib_proc (h.dylib_load g_settings.video.filter_path) "filter_size") 512 512

/-- The scale `init_filter` derives for the module named in the settings. -/
def init_filter.scale (p : Platform) (h : Host) (g_settings : settings_t) : Nat :=
  init_filter.scale_of p (init_filter.reported_size h g_settings).1
    (init_filter.reported_size h g_settings).2

/-- The module named in the settings can be activated: the path is not
empty, the module loads and exports `filter_size` and `filter_render`. -/
def init_filter.loadable (h : Host) (g_settings : settings_t) : Prop :=
  g_settings.video.filter_path.headD 0 ≠ 0
  ∧ h.dylib_load g_settings.video.filter_path ≠ 0
  ∧ h.dylib_proc (h.dylib_load g_settings.video.filter_path) "filter_size" ≠ 0
  ∧ h.dylib_proc (h.dylib_load g_settings.video.filter_path) "filter_render" ≠ 0

instance (h : Host) (g_settings : settings_t) : Decidable (init_filter.loadable h g_settings) := by
  unfold init_filter.loadable; infer_instance

/-- A 64-bit host whose filter module reports the size 65536 by 65536. -/
def host_huge : Host :=
  { host64 with psize := fun _ _ _ => (65536, 65536) }

/-- The channel expansion as the specification words it: `value << 3 | value >> 2`. -/
def spec_rep (v : Nat) : Nat := (v <<< 3) ||| (v >>> 2)

/-- The colormap entry as the specification words it: the three 5-bit
channels of the 15-bit colour `i`, each expanded by bit replication, placed
at bits 24, 16 and 8. -/
def spec_colormap_entry (i : Nat) : Nat :=
  (spec_rep ((i >>> 10) &&& 31) <<< 24) ||| (spec_rep ((i >>> 5) &&& 31) <<< 16)
    ||| (spec_rep (i &&& 31) <<< 8)

/-- The calls to an input backend's `init`, in call order. -/
def input_init_calls (t : List Event) : List Event :=
  t.filter (fun e =>
    match e with
    | .input_init _ => true
    | _ => false)

/-- Between `s` and `t` the driver facade is the same and the trace only grew,
by calls none of which is an input backend's `init`. -/
def quiet_step (s t : State) : Prop :=
  t.driver = s.driver ∧ ∃ ev, t.trace = s.trace ++ ev ∧ input_init_calls ev = []

/-- An input descriptor a video backend brings along. -/
def own_input : input_driver_t := mk_input (lit "gl-input")

/-- The SDL-only build whose `"sdl"` video backend supplies `own_input` and
shares its instance `0x3000` with it. -/
def supplying_build : Build :=
  { sdl_build with
    video_sdl := { ident := lit "sdl", init := fun _ _ _ => (0x3000, some own_input, 0x3000) } }

/-- The SDL-only build whose `"sdl"` video backend returns no instance. -/
def no_video_build : Build :=
  { sdl_build with video_sdl := { ident := lit "sdl", init := fun _ _ _ => (0, none, 0) } }

/-! ## Sample quantization -/

/-- Modelled from the spec: the quantization of a normalized sample to a
16-bit signed integer, done by the streaming call, which is not part of
`driver.c`.  The spec has it "round to nearest and clamp to
`[-32768, 32767]`"; the sample is scaled by the 16-bit full scale `32768`,
the unit of the tolerance `1/32768` the spec gives for the round trip.  A
sample is a rational number: scaling a binary floating-point value by a power
of two is exact. -/
def quantize (v : ℚ) : Int :=
  max (-32768) (min 32767 (round (v * 32768)))

/-- Modelled from the spec: the conversion of a 16-bit sample back to a
normalized sample, the inverse scaling of `quantize`. -/
def dequantize (q : Int) : ℚ := (q : ℚ) / 32768

/-- The calls to an audio backend's `init`, in call order. -/
def audio_init_calls (t : List Event) : List Event :=
  t.filter (fun e =>
    match e with
    | .audio_init _ _ _ _ => true
    | _ => false)

/-- The calls to a video backend's `init`, in call order. -/
def video_init_calls (t : List Event) : List Event :=
  t.filter (fun e =>
    match e with
    | .video_init _ _ => true
    | _ => false)

/-- The calls to `dylib_close`, in call order. -/
def dylib_close_calls (t : List Event) : List Event :=
  t.filter (fun e =>
    match e with
    | .dylib_close _ => true
    | _ => false)

/-- Settings that name the audio device `"hw:0"`. -/
def device_settings : settings_t :=
  { settings_named (lit "sdl") with audio.device := lit "hw:0" }

/-- A 64-bit host on which no module can be opened. -/
def host_unopenable : Host :=
  { host64 with dylib_load := fun _ => 0 }

/-- A 64-bit host whose filter module exports `filter_size` and lacks
`filter_render`. -/
def host_no_render : Host :=
  { host64 with dylib_proc := fun _ symbol => if symbol = "filter_render" then 0 else 0x6000 }

/-- A 64-bit host whose filter module reports the size 100 by 128. -/
def host_small : Host :=
  { host64 with psize := fun _ _ _ => (100, 128) }

/-- A 64-bit host whose filter module reports the size 2147483649 by 1; the
width is `2 ^ 31 + 1`, a value of a 32-bit `unsigned`. -/
def host_wide : Host :=
  { host64 with psize := fun _ _ _ => (2147483649, 1) }

/-- Settings whose input backend name `"x11"` is in no registry, the audio and
video names being `"sdl"`. -/
def unknown_input_settings : settings_t :=
  { settings_named (lit "sdl") with input.driver := lit "x11" }

/-- The report of line 374 of `init_video_input`. -/
def cannot_find_input : Event :=
  .ssnes_err_plain "Cannot find input driver. Exiting ...\n"

/-- A call that is neither a video backend's `init`, nor an input backend's
`init`, nor the report of line 374. -/
def plain_event (e : Event) : Bool :=
  match e with
  | .video_init _ _ => false
  | .input_init _ => false
  | .ssnes_err_plain fmt => fmt != "Cannot find input driver. Exiting ...\n"
  | _ => true

/-- Between `s` and `t` the trace only grew, by calls that are all plain. -/
def plain_step (s t : State) : Prop :=
  ∃ ev, t.trace = s.trace ++ ev ∧ ev.all plain_event = true

/-- A 64-bit host whose filter module reports the size 1000 by 600. -/
def host_large : Host :=
  { host64 with psize := fun _ _ _ => (1000, 600) }

/-! ## Facts about strings -/

theorem tolower_eq_zero (c : Nat) : tolower c = 0 ↔ c = 0 := by
  unfold tolower
  split <;> omega

theorem strcasecmp_eq_zero_iff (a b : CStr) : strcasecmp a b = 0 ↔ eq_ignore_case a b := by
  unfold eq_ignore_case
  induction a generalizing b with
  | nil =>
    cases b with
    | nil => simp [strcasecmp, c_str]
    | cons b bs =>
      have hb := tolower_eq_zero b
      by_cases h0 : b = 0
      · simp [strcasecmp, c_str, h0, tolower]
      · have : tolower b ≠ 0 := fun h => h0 (hb.mp h)
        simp [strcasecmp, c_str, h0]
        omega
  | cons a as ih =>
    cases b with
    | nil =>
      have ha := tolower_eq_zero a
      by_cases h0 : a = 0
      · simp [strcasecmp, c_str, h0, tolower]
      · have : tolower a ≠ 0 := fun h => h0 (ha.mp h)
        simp [strcasecmp, c_str, h0]
        omega
    | cons b bs =>
      have ha := tolower_eq_zero a
      have hb := tolower_eq_zero b
      by_cases hab : tolower a = tolower b
      · by_cases h0 : a = 0
        · have hb0 : b = 0 := hb.mp (by rw [← hab]; exact ha.mpr h0)
          simp [strcasecmp, c_str, h0, hb0]
        · have hb0 : b ≠ 0 := fun h => h0 (ha.mp (by rw [hab]; exact hb.mpr h))
          simp [strcasecmp, c_str, h0, hb0, hab, ih bs]
      · have hne : (tolower a : Int) - (tolower b : Int) ≠ 0 := by omega
        have hl : strcasecmp (a :: as) (b :: bs) ≠ 0 := by
          simp only [strcasecmp, ne_eq, hab, not_false_eq_true, if_true]
          exact hne
        have hr : List.map tolower (c_str (a :: as)) ≠ List.map tolower (c_str (b :: bs)) := by
          by_cases h0 : a = 0
          · have hb0 : b ≠ 0 := fun h => hab (by rw [ha.mpr h0, hb.mpr h])
            simp [c_str, h0, hb0]
          · by_cases hb0 : b = 0
            · simp [c_str, h0, hb0]
            · simp [c_str, h0, hb0, hab]
        exact ⟨fun h => absurd h hl, fun h => absurd h hr⟩

theorem c_str_map_tolower (a b : CStr) (h : a.map tolower = b.map tolower) :
    (c_str a).map tolower = (c_str b).map tolower := by
  induction a generalizing b with
  | nil =>
    cases b with
    | nil => rfl
    | cons b bs => simp at h
  | cons a as ih =>
    cases b with
    | nil => simp at h
    | cons b bs =>
      simp only [List.map_cons, List.cons.injEq] at h
      have ha := tolower_eq_zero a
      have hb := tolower_eq_zero b
      by_cases h0 : a = 0
      · have hb0 : b = 0 := hb.mp (by rw [← h.1]; exact ha.mpr h0)
        simp [c_str, h0, hb0]
      · have hb0 : b ≠ 0 := fun hz => h0 (ha.mp (by rw [h.1]; exact hb.mpr hz))
        simp [c_str, h0, hb0, h.1, ih bs h.2]

theorem eq_ignore_case_congr (a b x : CStr) (h : a.map tolower = b.map tolower) :
    eq_ignore_case a x ↔ eq_ignore_case b x := by
  unfold eq_ignore_case
  rw [c_str_map_tolower a b h]

theorem strcasecmp_congr (a b x : CStr) (h : a.map tolower = b.map tolower) :
    (strcasecmp a x = 0) ↔ (strcasecmp b x = 0) := by
  rw [strcasecmp_eq_zero_iff, strcasecmp_eq_zero_iff]
  exact eq_ignore_case_congr a b x h

/-! ## Facts about the scan and the listing -/

theorem read_each_append {α : Type} (tbl : List α) (is : List Nat) (i : Nat) (xs : List α)
    (x : α) (h1 : read_each tbl is = some xs) (h2 : tbl[i]? = some x) :
    read_each tbl (is ++ [i]) = some (xs ++ [x]) := by
  induction is generalizing xs with
  | nil =>
    simp only [read_each, Option.some.injEq] at h1
    subst h1
    simp [read_each, h2]
  | cons j js ih =>
    simp only [read_each, List.cons_append] at h1 ⊢
    cases hj : tbl[j]? with
    | none => simp [hj] at h1
    | some y =>
      cases hjs : read_each tbl js with
      | none => simp [hj, hjs] at h1
      | some ys =>
        simp only [hj, hjs, Option.some.injEq] at h1
        subst h1
        simp [ih ys hjs]

theorem read_each_range {α : Type} (tbl : List α) (n : Nat) (h : n ≤ tbl.length) :
    read_each tbl (List.range n) = some (tbl.take n) := by
  induction n with
  | zero => simp [read_each]
  | succ n ih =>
    have hn : n < tbl.length := by omega
    rw [List.range_succ, List.take_succ, List.getElem?_eq_getElem hn]
    exact read_each_append tbl (List.range n) n (tbl.take n) tbl[n] (ih (by omega))
      (List.getElem?_eq_getElem hn)

theorem find?_least_index {α : Type} (p : α → Bool) (l : List α) (d : α)
    (h : l.find? p = some d) :
    ∃ i, ∃ hi : i < l.length, l[i] = d ∧ p d = true ∧
      ∀ j, ∀ hj : j < l.length, j < i → p l[j] = false := by
  obtain ⟨hp, as, bs, hl, has⟩ := List.find?_eq_some.mp h
  subst hl
  refine ⟨as.length, by simp, List.getElem_of_append rfl rfl, hp, ?_⟩
  intro j hj hlt
  have hmem : (as ++ d :: bs)[j] ∈ as := by
    rw [List.getElem_append_left hlt]
    exact List.getElem_mem hlt
  simpa using has _ hmem

theorem scan_congr {α : Type} (ident : α → CStr) (a b : CStr)
    (h : a.map tolower = b.map tolower) (l : List α) :
    l.find? (fun d => decide (strcasecmp a (ident d) = 0))
      = l.find? (fun d => decide (strcasecmp b (ident d) = 0)) := by
  congr 1
  funext d
  exact decide_eq_decide.mpr (strcasecmp_congr a b (ident d) h)

theorem scan_none_iff {α : Type} (ident : α → CStr) (name : CStr) (l : List α) :
    l.find? (fun d => decide (strcasecmp name (ident d) = 0)) = none
      ↔ ∀ d ∈ l, ¬ eq_ignore_case name (ident d) := by
  simp [List.find?_eq_none, strcasecmp_eq_zero_iff]

theorem scan_some_mem {α : Type} (ident : α → CStr) (name : CStr) (l : List α) (d : α)
    (h : l.find? (fun d => decide (strcasecmp name (ident d) = 0)) = some d) :
    d ∈ l ∧ eq_ignore_case name (ident d) := by
  refine ⟨List.mem_of_find?_eq_some h, ?_⟩
  have := List.find?_some h
  simpa [strcasecmp_eq_zero_iff] using this

theorem scan_some_of_resolvable (A : List audio_driver_t) (name : CStr)
    (h : ∃ d ∈ A, eq_ignore_case name d.ident) :
    ∃ d, A.find? (fun d => decide (strcasecmp name d.ident = 0)) = some d := by
  cases hf : A.find? (fun d => decide (strcasecmp name d.ident = 0)) with
  | some d => exact ⟨d, rfl⟩
  | none =>
    obtain ⟨d, hd, he⟩ := h
    exact absurd he ((scan_none_iff (fun d : audio_driver_t => d.ident) name A).mp hf d hd)

theorem printed_idents_listing {α : Type} (fmt : String) (ident : α → CStr) (l : List α) :
    printed_idents (l.map (fun d => .fprintf_stderr fmt (some (ident d)))) = l.map ident := by
  induction l with
  | nil => rfl
  | cons d ds ih =>
    simp only [printed_idents, List.map_cons, List.filterMap_cons] at ih ⊢
    rw [ih]

theorem printed_idents_append (t u : List Event) :
    printed_idents (t ++ u) = printed_idents t ++ printed_idents u := by
  simp [printed_idents, List.filterMap_append]

theorem input_drivers_length_le (b : Build) :
    (input_drivers b).length ≤ (video_drivers b).length := by
  unfold input_drivers video_drivers
  cases b.HAVE_SDL <;> cases b.HAVE_XVIDEO <;> simp

/-! ## The steps of `init_audio` -/

section steps
variable (p : Platform) (g : settings_t) (audio : audio_driver_t) (s : State)

theorem chunk_constants_spec :
    (init_audio.chunk_constants s).driver = s.driver
    ∧ (init_audio.chunk_constants s).trace = s.trace
    ∧ (init_audio.chunk_constants s).g_ext.audio_active = s.g_ext.audio_active
    ∧ (init_audio.chunk_constants s).g_ext.audio_data
      = { s.g_ext.audio_data with block_chunk_size := 64, nonblock_chunk_size := 2048 } :=
  ⟨rfl, rfl, rfl, rfl⟩

theorem backend_init_spec :
    (init_audio.backend_init g audio s).driver
      = { s.driver with audio_data := init_audio.backend_instance g audio }
    ∧ (init_audio.backend_init g audio s).trace
      = s.trace ++ [.audio_init audio.ident (init_audio.device g) g.audio.out_rate
          g.audio.latency]
    ∧ (init_audio.backend_init g audio s).g_ext.audio_active
      = (s.g_ext.audio_active && decide (init_audio.backend_instance g audio ≠ 0))
    ∧ (init_audio.backend_init g audio s).g_ext.audio_data = s.g_ext.audio_data := by
  unfold init_audio.backend_init
  by_cases h : init_audio.backend_instance g audio = 0
  · simp [State.emit, h]
  · simp [State.emit, h]

theorem query_use_float_spec :
    (init_audio.query_use_float audio s).driver = s.driver
    ∧ (init_audio.query_use_float audio s).trace
      = s.trace ++ (if s.g_ext.audio_active = true ∧ audio.use_float.isSome = true
          then [.audio_use_float audio.ident s.driver.audio_data] else [])
    ∧ (init_audio.query_use_float audio s).g_ext.audio_active = s.g_ext.audio_active
    ∧ (init_audio.query_use_float audio s).g_ext.audio_data
      = { s.g_ext.audio_data with use_float :=
            (s.g_ext.audio_data.use_float
              || (s.g_ext.audio_active
                  && (audio.use_float.map (fun f => f s.driver.audio_data)).getD false)) } := by
  unfold init_audio.query_use_float
  by_cases ha : s.g_ext.audio_active = true
  · cases hu : audio.use_float with
    | none => simp [ha]
    | some f => by_cases hf : f s.driver.audio_data = true <;> simp [State.emit, hf, ha]
  · simp [ha]

theorem select_chunk_size_spec :
    (init_audio.select_chunk_size g audio s).driver = s.driver
    ∧ (init_audio.select_chunk_size g audio s).trace
      = s.trace ++ (if g.audio.sync = false ∧ s.g_ext.audio_active = true
          then [.audio_set_nonblock_state audio.ident s.driver.audio_data true] else [])
    ∧ (init_audio.select_chunk_size g audio s).g_ext.audio_active = s.g_ext.audio_active
    ∧ (init_audio.select_chunk_size g audio s).g_ext.audio_data
      = { s.g_ext.audio_data with chunk_size :=
            if g.audio.sync = false ∧ s.g_ext.audio_active = true
            then s.g_ext.audio_data.nonblock_chunk_size
            else s.g_ext.audio_data.block_chunk_size } := by
  unfold init_audio.select_chunk_size
  by_cases hs : g.audio.sync = true <;> by_cases ha : s.g_ext.audio_active = true <;>
    simp [State.emit, hs, ha]

theorem resampler_new_spec :
    (init_audio.resampler_new p s).driver = s.driver
    ∧ (init_audio.resampler_new p s).trace = s.trace ++ [.hermite_new 2]
    ∧ (init_audio.resampler_new p s).g_ext.audio_active
      = (s.g_ext.audio_active && decide (p.hermite_new 2 ≠ 0))
    ∧ (init_audio.resampler_new p s).g_ext.audio_data
      = { s.g_ext.audio_data with source := p.hermite_new 2 } := by
  unfold init_audio.resampler_new
  by_cases h : p.hermite_new 2 = 0
  · simp [State.emit, h]
  · simp [State.emit, h]

end steps

/-! ## The shape of `init_audio` -/

theorem before_allocate_spec (p : Platform) (g : settings_t) (audio : audio_driver_t)
    (s : State) :
    (init_audio.before_allocate p g audio s).driver
      = { s.driver with audio_data := init_audio.backend_instance g audio }
    ∧ (init_audio.before_allocate p g audio s).g_ext.audio_active
      = (s.g_ext.audio_active && decide (init_audio.backend_instance g audio ≠ 0)
          && decide (p.hermite_new 2 ≠ 0))
    ∧ (init_audio.before_allocate p g audio s).g_ext.audio_data
      = { s.g_ext.audio_data with
          block_chunk_size := 64
          nonblock_chunk_size := 2048
          use_float :=
            (s.g_ext.audio_data.use_float
              || ((s.g_ext.audio_active
                    && decide (init_audio.backend_instance g audio ≠ 0))
                  && (audio.use_float.map
                        (fun f => f (init_audio.backend_instance g audio))).getD false))
          chunk_size :=
            if g.audio.sync = false ∧ (s.g_ext.audio_active = true
                ∧ init_audio.backend_instance g audio ≠ 0)
            then 2048 else 64
          source := p.hermite_new 2 }
    ∧ (init_audio.before_allocate p g audio s).trace
      = s.trace
        ++ [.audio_init audio.ident (init_audio.device g) g.audio.out_rate g.audio.latency]
        ++ (if (s.g_ext.audio_active = true ∧ init_audio.backend_instance g audio ≠ 0)
              ∧ audio.use_float.isSome = true
            then [.audio_use_float audio.ident (init_audio.backend_instance g audio)] else [])
        ++ (if g.audio.sync = false ∧ (s.g_ext.audio_active = true
                ∧ init_audio.backend_instance g audio ≠ 0)
            then [.audio_set_nonblock_state audio.ident (init_audio.backend_instance g audio)
                    true]
            else [])
        ++ [.hermite_new 2] := by
  unfold init_audio.before_allocate
  refine ⟨?_, ?_, ?_, ?_⟩
  · simp only [resampler_new_spec, select_chunk_size_spec, query_use_float_spec,
      backend_init_spec, chunk_constants_spec]
  · simp only [resampler_new_spec, select_chunk_size_spec, query_use_float_spec,
      backend_init_spec, chunk_constants_spec]
  · simp only [resampler_new_spec, select_chunk_size_spec, query_use_float_spec,
      backend_init_spec, chunk_constants_spec]
    simp
  · simp only [resampler_new_spec, select_chunk_size_spec, query_use_float_spec,
      backend_init_spec, chunk_constants_spec]
    simp

theorem max_bufsamples_before_allocate (p : Platform) (g : settings_t)
    (audio : audio_driver_t) (s : State) :
    init_audio.max_bufsamples (init_audio.before_allocate p g audio s) = 2048 := by
  unfold init_audio.max_bufsamples
  simp [before_allocate_spec]

theorem allocate_rate_fail_iff (p : Platform) (g : settings_t) (s : State) :
    (∃ s1, init_audio.allocate p g s = .assert_fail .rate_ratio s1)
      ↔ rate_ratio_ok p g = false := by
  unfold init_audio.allocate
  cases hr : rate_ratio_ok p g with
  | false => simp
  | true =>
    simp only [Bool.not_true, Bool.false_eq_true, if_false]
    constructor
    · rintro ⟨s1, h⟩
      split_ifs at h <;> simp at h
    · intro h; simp at h

theorem allocate_ret_spec (p : Platform) (g : settings_t) (s s1 : State)
    (h : init_audio.allocate p g s = .ret s1) :
    rate_ratio_ok p g = true
    ∧ p.malloc (init_audio.max_bufsamples s * 4) ≠ 0
    ∧ p.malloc (init_audio.max_bufsamples s * 4 * 16) ≠ 0
    ∧ p.malloc (init_audio.max_bufsamples s * 2 * 16) ≠ 0
    ∧ s1.driver = s.driver
    ∧ s1.g_ext.audio_active = s.g_ext.audio_active
    ∧ s1.g_ext.audio_data
      = { s.g_ext.audio_data with
          data := p.malloc (init_audio.max_bufsamples s * 4)
          data_ptr := 0
          outsamples := p.malloc (init_audio.max_bufsamples s * 4 * 16)
          conv_outsamples := p.malloc (init_audio.max_bufsamples s * 2 * 16) }
    ∧ s1.trace
      = s.trace ++ [.malloc (init_audio.max_bufsamples s * 4),
          .malloc (init_audio.max_bufsamples s * 4 * 16),
          .malloc (init_audio.max_bufsamples s * 2 * 16)] := by
  unfold init_audio.allocate at h
  cases hr : rate_ratio_ok p g with
  | false => simp [hr] at h
  | true =>
    simp only [hr, Bool.not_true, Bool.false_eq_true, if_false] at h
    by_cases h1 : p.malloc (init_audio.max_bufsamples s * 4) = 0
    · simp [init_audio.alloc_data, sizeof_float, h1] at h
    · by_cases h2 : p.malloc (init_audio.max_bufsamples s * 4 * 16) = 0
      · simp [init_audio.alloc_data, init_audio.alloc_outsamples, sizeof_float,
          AUDIO_MAX_RATIO, h1, h2] at h
      · by_cases h3 : p.malloc (init_audio.max_bufsamples s * 2 * 16) = 0
        · simp [init_audio.alloc_data, init_audio.alloc_outsamples,
            init_audio.alloc_conv_outsamples, sizeof_float, sizeof_int16_t,
            AUDIO_MAX_RATIO, h1, h2, h3] at h
        · simp only [init_audio.alloc_data, init_audio.alloc_outsamples,
            init_audio.alloc_conv_outsamples, sizeof_float, sizeof_int16_t,
            AUDIO_MAX_RATIO, h1, h2, h3, if_false, Outcome.ret.injEq] at h
          subst h
          simp [State.emit, h1, h2, h3]

theorem allocate_ret_of (p : Platform) (g : settings_t) (s : State)
    (hr : rate_ratio_ok p g = true)
    (h1 : p.malloc (init_audio.max_bufsamples s * 4) ≠ 0)
    (h2 : p.malloc (init_audio.max_bufsamples s * 4 * 16) ≠ 0)
    (h3 : p.malloc (init_audio.max_bufsamples s * 2 * 16) ≠ 0) :
    ∃ s1, init_audio.allocate p g s = .ret s1 := by
  unfold init_audio.allocate
  simp [init_audio.alloc_data, init_audio.alloc_outsamples,
    init_audio.alloc_conv_outsamples, sizeof_float, sizeof_int16_t, AUDIO_MAX_RATIO,
    hr, h1, h2, h3]

theorem init_audio_enabled (p : Platform) (A : List audio_driver_t) (g : settings_t)
    (s : State) (henable : g.audio.enable = true) :
    init_audio p A g s
      = match A.find? (fun d => decide (strcasecmp g.audio.driver d.ident = 0)) with
        | some d =>
          init_audio.allocate p g
            (init_audio.before_allocate p g d { s with driver.audio := some d })
        | none => find_audio_driver A g s := by
  unfold init_audio find_audio_driver init_audio.before_allocate
  cases hf : A.find? (fun d => decide (strcasecmp g.audio.driver d.ident = 0)) with
  | none => simp [henable]
  | some d => simp [henable, chunk_constants_spec]

theorem init_audio_ret_spec (p : Platform) (A : List audio_driver_t) (g : settings_t)
    (s s1 : State) (henable : g.audio.enable = true) (h : init_audio p A g s = .ret s1) :
    ∃ d, find_audio_driver A g s = .ret { s with driver.audio := some d }
      ∧ rate_ratio_ok p g = true
      ∧ p.malloc 8192 ≠ 0 ∧ p.malloc 131072 ≠ 0 ∧ p.malloc 65536 ≠ 0
      ∧ s1.driver
        = { s.driver with audio := some d, audio_data := init_audio.backend_instance g d }
      ∧ s1.g_ext.audio_active
        = (s.g_ext.audio_active && decide (init_audio.backend_instance g d ≠ 0)
            && decide (p.hermite_new 2 ≠ 0))
      ∧ s1.g_ext.audio_data
        = { source := p.hermite_new 2
            data := p.malloc 8192
            data_ptr := 0
            outsamples := p.malloc 131072
            conv_outsamples := p.malloc 65536
            chunk_size :=
              if g.audio.sync = false ∧ (s.g_ext.audio_active = true
                  ∧ init_audio.backend_instance g d ≠ 0)
              then 2048 else 64
            nonblock_chunk_size := 2048
            block_chunk_size := 64
            use_float :=
              (s.g_ext.audio_data.use_float
                || ((s.g_ext.audio_active
                      && decide (init_audio.backend_instance g d ≠ 0))
                    && (d.use_float.map
                          (fun f => f (init_audio.backend_instance g d))).getD false)) }
      ∧ s1.trace
        = s.trace
          ++ [.audio_init d.ident (init_audio.device g) g.audio.out_rate g.audio.latency]
          ++ (if (s.g_ext.audio_active = true ∧ init_audio.backend_instance g d ≠ 0)
                ∧ d.use_float.isSome = true
              then [.audio_use_float d.ident (init_audio.backend_instance g d)] else [])
          ++ (if g.audio.sync = false ∧ (s.g_ext.audio_active = true
                  ∧ init_audio.backend_instance g d ≠ 0)
              then [.audio_set_nonblock_state d.ident (init_audio.backend_instance g d) true]
              else [])
          ++ [.hermite_new 2, .malloc 8192, .malloc 131072, .malloc 65536] := by
  rw [init_audio_enabled p A g s henable] at h
  cases hf : A.find? (fun d => decide (strcasecmp g.audio.driver d.ident = 0)) with
  | none => simp [hf, find_audio_driver] at h
  | some d =>
    simp only [hf] at h
    obtain ⟨hr, h1, h2, h3, hd, ha, hdat, ht⟩ := allocate_ret_spec p g _ s1 h
    rw [max_bufsamples_before_allocate] at h1 h2 h3 hdat ht
    refine ⟨d, by simp [find_audio_driver, hf], hr, h1, h2, h3, ?_, ?_, ?_, ?_⟩
    · rw [hd]; simp only [before_allocate_spec]
    · rw [ha]; simp only [before_allocate_spec]
    · rw [hdat]; simp only [before_allocate_spec]
    · rw [ht]; simp only [before_allocate_spec]
      simp

theorem init_audio_ret_of (p : Platform) (A : List audio_driver_t) (g : settings_t)
    (s : State) (d : audio_driver_t) (henable : g.audio.enable = true)
    (hfind : find_audio_driver A g s = .ret { s with driver.audio := some d })
    (hr : rate_ratio_ok p g = true)
    (h1 : p.malloc 8192 ≠ 0) (h2 : p.malloc 131072 ≠ 0) (h3 : p.malloc 65536 ≠ 0) :
    ∃ s1, init_audio p A g s = .ret s1 := by
  rw [init_audio_enabled p A g s henable]
  unfold find_audio_driver at hfind
  cases hf : A.find? (fun d => decide (strcasecmp g.audio.driver d.ident = 0)) with
  | none => simp [hf] at hfind
  | some d0 =>
    simp only []
    apply allocate_ret_of p g _ hr
    · rw [max_bufsamples_before_allocate]; exact h1
    · rw [max_bufsamples_before_allocate]; exact h2
    · rw [max_bufsamples_before_allocate]; exact h3

/-! ## The steps of `uninit_audio` -/

theorem free_backend_spec (s : State) :
    (uninit_audio.free_backend s).driver = s.driver
    ∧ (uninit_audio.free_backend s).g_ext = s.g_ext
    ∧ (uninit_audio.free_backend s).trace
      = s.trace ++ (match s.driver.audio with
          | some audio =>
            if s.driver.audio_data ≠ 0 then [.audio_free audio.ident s.driver.audio_data]
            else []
          | none => []) := by
  unfold uninit_audio.free_backend
  cases s.driver.audio with
  | none => simp
  | some audio => by_cases h : s.driver.audio_data = 0 <;> simp [State.emit, h]

theorem free_resampler_spec (s : State) :
    (uninit_audio.free_resampler s).driver = s.driver
    ∧ (uninit_audio.free_resampler s).g_ext = s.g_ext
    ∧ (uninit_audio.free_resampler s).trace
      = s.trace ++ (if s.g_ext.audio_data.source ≠ 0
          then [.hermite_free s.g_ext.audio_data.source] else []) := by
  unfold uninit_audio.free_resampler
  by_cases h : s.g_ext.audio_data.source = 0 <;> simp [State.emit, h]

theorem free_buffers_spec (s : State) :
    (uninit_audio.free_buffers s).driver = s.driver
    ∧ (uninit_audio.free_buffers s).g_ext.audio_active = s.g_ext.audio_active
    ∧ (uninit_audio.free_buffers s).g_ext.audio_data
      = { s.g_ext.audio_data with data := 0, outsamples := 0, conv_outsamples := 0 }
    ∧ (uninit_audio.free_buffers s).trace
      = s.trace ++ [.free s.g_ext.audio_data.data, .free s.g_ext.audio_data.outsamples,
          .free s.g_ext.audio_data.conv_outsamples] := by
  unfold uninit_audio.free_buffers
  simp [State.emit]

theorem uninit_audio_enabled_spec (g : settings_t) (s : State)
    (henable : g.audio.enable = true) :
    (uninit_audio g s).driver = s.driver
    ∧ (uninit_audio g s).g_ext.audio_active = s.g_ext.audio_active
    ∧ (uninit_audio g s).g_ext.audio_data
      = { s.g_ext.audio_data with data := 0, outsamples := 0, conv_outsamples := 0 }
    ∧ (uninit_audio g s).trace
      = s.trace
        ++ (match s.driver.audio with
            | some audio =>
              if s.driver.audio_data ≠ 0 then [.audio_free audio.ident s.driver.audio_data]
              else []
            | none => [])
        ++ (if s.g_ext.audio_data.source ≠ 0
            then [.hermite_free s.g_ext.audio_data.source] else [])
        ++ [.free s.g_ext.audio_data.data, .free s.g_ext.audio_data.outsamples,
            .free s.g_ext.audio_data.conv_outsamples] := by
  unfold uninit_audio
  simp only [henable, Bool.not_true, Bool.false_eq_true, if_false]
  refine ⟨?_, ?_, ?_, ?_⟩
  · simp only [free_buffers_spec, free_resampler_spec, free_backend_spec]
  · simp only [free_buffers_spec, free_resampler_spec, free_backend_spec]
  · simp only [free_buffers_spec, free_resampler_spec, free_backend_spec]
  · simp only [free_buffers_spec, free_resampler_spec, free_backend_spec]

/-! ## The audio pipeline: rate ratio and chunk size -/

/-- C1, as stated, fails on a 32-bit `unsigned`: with `in_rate = 268435456`
the product `in_rate * 16` wraps to `0`, so `init_audio` fails its rate-ratio
assertion for `out_rate = 48000` although `48000 < 268435456 * 16`. -/
theorem init_audio_rate_assert_wraps :
    overflow_settings.audio.enable = true
    ∧ (∃ d ∈ audio_drivers sdl_build, eq_ignore_case overflow_settings.audio.driver d.ident)
    ∧ (∃ s1, init_audio platform32 (audio_drivers sdl_build) overflow_settings state0
          = .assert_fail .rate_ratio s1)
    ∧ ¬ (overflow_settings.audio.out_rate ≥ overflow_settings.audio.in_rate * 16) :=
  ⟨rfl, ⟨sdl_build.audio_sdl, by simp [audio_drivers, sdl_build], by decide⟩, ⟨_, rfl⟩,
    by decide⟩

/-- C1 (amended): with audio enabled and a resolvable backend name,
`init_audio` fails on its rate-ratio assertion exactly when `out_rate` is at
least `in_rate * 16` reduced modulo `2 ^ N`, `N` the width of `unsigned`.
Hence it always fails when `out_rate >= in_rate * 16` taken exactly, and
when `in_rate * 16 < 2 ^ N` it fails if and only if
`out_rate >= in_rate * 16`. -/
theorem init_audio_rate_assert_iff (p : Platform) (A : List audio_driver_t)
    (g : settings_t) (s : State) (henable : g.audio.enable = true)
    (hres : ∃ d ∈ A, eq_ignore_case g.audio.driver d.ident) :
    ((∃ s1, init_audio p A g s = .assert_fail .rate_ratio s1)
        ↔ g.audio.out_rate ≥ (g.audio.in_rate * 16) % 2 ^ p.uint_bits)
    ∧ (g.audio.out_rate ≥ g.audio.in_rate * 16 →
        ∃ s1, init_audio p A g s = .assert_fail .rate_ratio s1)
    ∧ (g.audio.in_rate * 16 < 2 ^ p.uint_bits →
        ((∃ s1, init_audio p A g s = .assert_fail .rate_ratio s1)
          ↔ g.audio.out_rate ≥ g.audio.in_rate * 16)) := by
  obtain ⟨d, hf⟩ := scan_some_of_resolvable A g.audio.driver hres
  have key : (∃ s1, init_audio p A g s = .assert_fail .rate_ratio s1)
      ↔ g.audio.out_rate ≥ (g.audio.in_rate * 16) % 2 ^ p.uint_bits := by
    rw [init_audio_enabled p A g s henable]
    simp only [hf]
    rw [allocate_rate_fail_iff]
    simp [rate_ratio_ok, AUDIO_MAX_RATIO]
  refine ⟨key, ?_, ?_⟩
  · intro hge
    exact key.mpr (le_trans (Nat.mod_le _ _) hge)
  · intro hlt
    rw [key, Nat.mod_eq_of_lt hlt]

/-- At 48000 Hz out of 31950 Hz in on a 32-bit platform the product does not
wrap, and the assertion fails exactly when `48000 >= 31950 * 16`. -/
theorem init_audio_rate_assert_iff_witness :
    (settings_named (lit "sdl")).audio.enable = true
    ∧ (∃ d ∈ audio_drivers sdl_build,
        eq_ignore_case (settings_named (lit "sdl")).audio.driver d.ident)
    ∧ (settings_named (lit "sdl")).audio.in_rate * 16 < 2 ^ platform32.uint_bits
    ∧ ((∃ s1, init_audio platform32 (audio_drivers sdl_build) (settings_named (lit "sdl"))
            state0 = .assert_fail .rate_ratio s1)
        ↔ (settings_named (lit "sdl")).audio.out_rate
            ≥ (settings_named (lit "sdl")).audio.in_rate * 16) :=
  ⟨rfl, ⟨sdl_build.audio_sdl, by simp [audio_drivers, sdl_build], by decide⟩, by decide,
    (init_audio_rate_assert_iff platform32 (audio_drivers sdl_build)
      (settings_named (lit "sdl")) state0 rfl
      ⟨sdl_build.audio_sdl, by simp [audio_drivers, sdl_build], by decide⟩).2.2 (by decide)⟩

/-- C2, as stated, fails: with sync off and a backend whose `init` returns no
instance, `init_audio` completes and the active chunk size is 64, not 2048. -/
theorem init_audio_chunk_size_inactive :
    nosync_settings.audio.enable = true
    ∧ nosync_settings.audio.sync = false
    ∧ ∃ s1, init_audio platform32 null_audio nosync_settings state0 = .ret s1
        ∧ s1.g_ext.audio_data.chunk_size = 64 :=
  ⟨rfl, rfl, _, rfl, rfl⟩

/-- C2 (amended): whenever `init_audio` completes with audio enabled, the
active chunk size is 2048 if sync is off, `audio_active` held on entry and
the backend's `init` returned an instance, and it is 64 in every other case;
the instance tested is the one stored in `driver.audio_data`, returned by the
`init` of the resolved backend. -/
theorem init_audio_chunk_size (p : Platform) (A : List audio_driver_t) (g : settings_t)
    (s s1 : State) (henable : g.audio.enable = true) (h : init_audio p A g s = .ret s1) :
    (∃ d, s1.driver.audio = some d
        ∧ s1.driver.audio_data
          = d.init (init_audio.device g) g.audio.out_rate g.audio.latency)
    ∧ s1.g_ext.audio_data.chunk_size
      = if g.audio.sync = false ∧ s.g_ext.audio_active = true ∧ s1.driver.audio_data ≠ 0
        then 2048 else 64 := by
  obtain ⟨d, -, -, -, -, -, hd, -, hdat, -⟩ := init_audio_ret_spec p A g s s1 henable h
  refine ⟨⟨d, by rw [hd], by rw [hd]; rfl⟩, ?_⟩
  rw [hdat, hd]

/-- With sync off, audio active on entry and an SDL backend whose `init`
returns an instance, the chunk size is 2048. -/
theorem init_audio_chunk_size_witness :
    nosync_settings.audio.enable = true
    ∧ init_audio platform32 (audio_drivers sdl_build) nosync_settings state0
      = .ret (init_audio platform32 (audio_drivers sdl_build) nosync_settings state0).state
    ∧ (init_audio platform32 (audio_drivers sdl_build) nosync_settings
        state0).state.g_ext.audio_data.chunk_size = 2048 :=
  ⟨rfl, rfl,
    (init_audio_chunk_size platform32 (audio_drivers sdl_build) nosync_settings state0
      _ rfl rfl).2⟩

/-! ## The audio pipeline: teardown -/

/-- C3, evaluated on the SDL-only build after a successful `init_audio`: the
first `uninit_audio` leaves `driver.audio_data` and the resampler handle
non-null, and the second `uninit_audio` calls the backend's `free` on the
same instance and `hermite_free` on the same handle once more. -/
theorem uninit_audio_twice_frees_again :
    init_audio platform32 (audio_drivers sdl_build) (settings_named (lit "sdl")) state0
      = .ret buffered_state
    ∧ (uninit_audio (settings_named (lit "sdl")) buffered_state).driver.audio_data = 0x1000
    ∧ (uninit_audio (settings_named (lit "sdl")) buffered_state).g_ext.audio_data.source
      = 0x2000
    ∧ (uninit_audio (settings_named (lit "sdl"))
        (uninit_audio (settings_named (lit "sdl")) buffered_state)).trace
      = (uninit_audio (settings_named (lit "sdl")) buffered_state).trace
        ++ [.audio_free (lit "sdl") 0x1000, .hermite_free 0x2000, .free 0, .free 0, .free 0]
    ∧ count_audio_free (lit "sdl") 0x1000
        (uninit_audio (settings_named (lit "sdl"))
          (uninit_audio (settings_named (lit "sdl")) buffered_state)).trace = 2
    ∧ count_hermite_free
        (uninit_audio (settings_named (lit "sdl"))
          (uninit_audio (settings_named (lit "sdl")) buffered_state)).trace = 2 :=
  ⟨rfl, rfl, rfl, rfl, by decide, by decide⟩

/-- C4, as stated, fails: when the backend's `init` returns no instance,
`init_audio` still completes and the following `uninit_audio` makes no call
to any backend's `free`. -/
theorem uninit_audio_no_instance_no_free :
    (settings_named (lit "sdl")).audio.enable = true
    ∧ init_audio platform32 null_audio (settings_named (lit "sdl")) state0
      = .ret (init_audio platform32 null_audio (settings_named (lit "sdl")) state0).state
    ∧ count_any_audio_free
        (uninit_audio (settings_named (lit "sdl"))
          (init_audio platform32 null_audio (settings_named (lit "sdl")) state0).state).trace
      = 0 :=
  ⟨rfl, rfl, by decide⟩

/-- C4 (amended): after `init_audio` with audio enabled has completed and
`uninit_audio` has run once, counting from the start of `init_audio`: the
backend's `free` has been called exactly once, on the instance its `init`
returned, when that instance is not `NULL`, and not at all otherwise; the
resampler has been released exactly once when `hermite_new` returned one,
and not at all otherwise; the three buffers `data`, `outsamples` and
`conv_outsamples`, each non-null after `init_audio`, have been passed to
`free` in that order and their pointers are `NULL`. -/
theorem uninit_audio_after_init (p : Platform) (A : List audio_driver_t) (g : settings_t)
    (s s1 : State) (henable : g.audio.enable = true) (h : init_audio p A g s = .ret s1) :
    ∃ d, s1.driver.audio = some d
      ∧ s1.driver.audio_data
        = d.init (init_audio.device g) g.audio.out_rate g.audio.latency
      ∧ s1.g_ext.audio_data.source = p.hermite_new 2
      ∧ count_any_audio_free ((uninit_audio g s1).trace.drop s.trace.length)
        = (if s1.driver.audio_data ≠ 0 then 1 else 0)
      ∧ count_audio_free d.ident s1.driver.audio_data
          ((uninit_audio g s1).trace.drop s.trace.length)
        = (if s1.driver.audio_data ≠ 0 then 1 else 0)
      ∧ count_hermite_free ((uninit_audio g s1).trace.drop s.trace.length)
        = (if s1.g_ext.audio_data.source ≠ 0 then 1 else 0)
      ∧ (s1.g_ext.audio_data.data ≠ 0 ∧ s1.g_ext.audio_data.outsamples ≠ 0
          ∧ s1.g_ext.audio_data.conv_outsamples ≠ 0)
      ∧ (uninit_audio g s1).trace
        = s1.trace
          ++ (if s1.driver.audio_data ≠ 0 then [.audio_free d.ident s1.driver.audio_data]
              else [])
          ++ (if s1.g_ext.audio_data.source ≠ 0
              then [.hermite_free s1.g_ext.audio_data.source] else [])
          ++ [.free s1.g_ext.audio_data.data, .free s1.g_ext.audio_data.outsamples,
              .free s1.g_ext.audio_data.conv_outsamples]
      ∧ (uninit_audio g s1).g_ext.audio_data.data = 0
      ∧ (uninit_audio g s1).g_ext.audio_data.outsamples = 0
      ∧ (uninit_audio g s1).g_ext.audio_data.conv_outsamples = 0 := by
  obtain ⟨d, -, -, h1, h2, h3, hd, -, hdat, ht⟩ := init_audio_ret_spec p A g s s1 henable h
  obtain ⟨-, -, udat, utr⟩ := uninit_audio_enabled_spec g s1 henable
  have haud : s1.driver.audio = some d := by rw [hd]
  have hinst : s1.driver.audio_data = init_audio.backend_instance g d := by rw [hd]
  have hsrc : s1.g_ext.audio_data.source = p.hermite_new 2 := by rw [hdat]
  have hfull : (uninit_audio g s1).trace
      = s1.trace
        ++ (if s1.driver.audio_data ≠ 0 then [.audio_free d.ident s1.driver.audio_data]
            else [])
        ++ (if s1.g_ext.audio_data.source ≠ 0
            then [.hermite_free s1.g_ext.audio_data.source] else [])
        ++ [.free s1.g_ext.audio_data.data, .free s1.g_ext.audio_data.outsamples,
            .free s1.g_ext.audio_data.conv_outsamples] := by
    rw [utr, haud]
  refine ⟨d, haud, hinst, hsrc, ?_, ?_, ?_, ?_, hfull, ?_, ?_, ?_⟩
  · rw [hfull, ht]
    simp only [List.append_assoc, List.drop_left]
    split_ifs <;> simp [count_any_audio_free]
  · rw [hfull, ht]
    simp only [List.append_assoc, List.drop_left]
    split_ifs <;> simp [count_audio_free]
  · rw [hfull, ht]
    simp only [List.append_assoc, List.drop_left]
    split_ifs <;> simp [count_hermite_free]
  · rw [hdat]; exact ⟨h1, h2, h3⟩
  · rw [udat]
  · rw [udat]
  · rw [udat]

/-- On the SDL-only build with every external call succeeding, one
`uninit_audio` after `init_audio` calls the backend's `free` once and
releases the resampler once. -/
theorem uninit_audio_after_init_witness :
    (settings_named (lit "sdl")).audio.enable = true
    ∧ init_audio platform32 (audio_drivers sdl_build) (settings_named (lit "sdl")) state0
      = .ret buffered_state
    ∧ count_any_audio_free
        ((uninit_audio (settings_named (lit "sdl")) buffered_state).trace.drop
          state0.trace.length) = 1
    ∧ count_hermite_free
        ((uninit_audio (settings_named (lit "sdl")) buffered_state).trace.drop
          state0.trace.length) = 1 :=
  ⟨rfl, rfl,
    match uninit_audio_after_init platform32 (audio_drivers sdl_build)
      (settings_named (lit "sdl")) state0 buffered_state rfl rfl with
    | ⟨_, _, _, _, hfree, _, hrel, _⟩ => ⟨hfree.trans rfl, hrel.trans rfl⟩⟩

/-! ## Backend resolution: case, order, failure -/

/-- C5: resolution ignores ASCII letter case.  For each of the three
resolvers and two configured names that agree after lowering every letter,
either both calls return with the same descriptor stored in the facade, or
neither call returns. -/
theorem find_driver_case_insensitive (A : List audio_driver_t) (V : List video_driver_t)
    (I : List input_driver_t) (g : settings_t) (s : State) (a b : CStr)
    (h : a.map tolower = b.map tolower) :
    ((∃ d, find_audio_driver A { g with audio.driver := a } s
            = .ret { s with driver.audio := some d }
          ∧ find_audio_driver A { g with audio.driver := b } s
            = .ret { s with driver.audio := some d })
      ∨ (¬ (find_audio_driver A { g with audio.driver := a } s).returns
          ∧ ¬ (find_audio_driver A { g with audio.driver := b } s).returns))
    ∧ ((∃ d, find_video_driver V { g with video.driver := a } s
            = .ret { s with driver.video := some d }
          ∧ find_video_driver V { g with video.driver := b } s
            = .ret { s with driver.video := some d })
      ∨ (¬ (find_video_driver V { g with video.driver := a } s).returns
          ∧ ¬ (find_video_driver V { g with video.driver := b } s).returns))
    ∧ ((∃ d, find_input_driver I V { g with input.driver := a } s
            = .ret { s with driver.input := some d }
          ∧ find_input_driver I V { g with input.driver := b } s
            = .ret { s with driver.input := some d })
      ∨ (¬ (find_input_driver I V { g with input.driver := a } s).returns
          ∧ ¬ (find_input_driver I V { g with input.driver := b } s).returns)) := by
  refine ⟨?_, ?_, ?_⟩
  · have e := scan_congr (fun d : audio_driver_t => d.ident) a b h A
    simp only [find_audio_driver, e]
    cases A.find? (fun d => decide (strcasecmp b d.ident = 0)) with
    | none => exact Or.inr ⟨fun hr => hr, fun hr => hr⟩
    | some d => exact Or.inl ⟨d, rfl, rfl⟩
  · have e := scan_congr (fun d : video_driver_t => d.ident) a b h V
    simp only [find_video_driver, e]
    cases V.find? (fun d => decide (strcasecmp b d.ident = 0)) with
    | none => exact Or.inr ⟨fun hr => hr, fun hr => hr⟩
    | some d => exact Or.inl ⟨d, rfl, rfl⟩
  · have e := scan_congr (fun d : input_driver_t => d.ident) a b h I
    simp only [find_input_driver, e]
    cases I.find? (fun d => decide (strcasecmp b d.ident = 0)) with
    | none =>
      refine Or.inr ?_
      cases read_each V (List.range I.length) with
      | none => exact ⟨fun hr => hr, fun hr => hr⟩
      | some ds => exact ⟨fun hr => hr, fun hr => hr⟩
    | some d => exact Or.inl ⟨d, rfl, rfl⟩

/-- The names `"SDL"` and `"sdl"` agree after lowering, and on the
SDL-only build both pick the same descriptor in each category or both fail. -/
theorem find_driver_case_insensitive_witness :
    (lit "SDL").map tolower = (lit "sdl").map tolower
    ∧ ((∃ d, find_audio_driver (audio_drivers sdl_build)
              { settings_named [] with audio.driver := lit "SDL" } state0
            = .ret { state0 with driver.audio := some d }
          ∧ find_audio_driver (audio_drivers sdl_build)
              { settings_named [] with audio.driver := lit "sdl" } state0
            = .ret { state0 with driver.audio := some d })
      ∨ (¬ (find_audio_driver (audio_drivers sdl_build)
              { settings_named [] with audio.driver := lit "SDL" } state0).returns
          ∧ ¬ (find_audio_driver (audio_drivers sdl_build)
              { settings_named [] with audio.driver := lit "sdl" } state0).returns)) :=
  ⟨by decide,
   (find_driver_case_insensitive (audio_drivers sdl_build) (video_drivers sdl_build)
      (input_drivers sdl_build) (settings_named []) state0 (lit "SDL") (lit "sdl")
      (by decide)).1⟩

/-- C6: when a resolver returns, the facade holds the registry entry of least
index whose ident equals the configured name ignoring case, and nothing else
in the state changed; this holds for every registry content. -/
theorem find_driver_first_match (A : List audio_driver_t) (V : List video_driver_t)
    (I : List input_driver_t) (g : settings_t) (s s' : State) :
    (find_audio_driver A g s = .ret s' →
      ∃ i, ∃ hi : i < A.length,
        s' = { s with driver.audio := some A[i] }
        ∧ eq_ignore_case g.audio.driver A[i].ident
        ∧ ∀ j, ∀ hj : j < A.length, j < i → ¬ eq_ignore_case g.audio.driver A[j].ident)
    ∧ (find_video_driver V g s = .ret s' →
      ∃ i, ∃ hi : i < V.length,
        s' = { s with driver.video := some V[i] }
        ∧ eq_ignore_case g.video.driver V[i].ident
        ∧ ∀ j, ∀ hj : j < V.length, j < i → ¬ eq_ignore_case g.video.driver V[j].ident)
    ∧ (find_input_driver I V g s = .ret s' →
      ∃ i, ∃ hi : i < I.length,
        s' = { s with driver.input := some I[i] }
        ∧ eq_ignore_case g.input.driver I[i].ident
        ∧ ∀ j, ∀ hj : j < I.length, j < i → ¬ eq_ignore_case g.input.driver I[j].ident) := by
  refine ⟨?_, ?_, ?_⟩
  · intro h
    unfold find_audio_driver at h
    cases hf : A.find? (fun d => decide (strcasecmp g.audio.driver d.ident = 0)) with
    | none => simp [hf] at h
    | some d =>
      simp only [hf, Outcome.ret.injEq] at h
      obtain ⟨i, hi, hd, hp, hmin⟩ := find?_least_index _ A d hf
      refine ⟨i, hi, ?_, ?_, ?_⟩
      · rw [hd]; exact h.symm
      · rw [hd]; simpa [strcasecmp_eq_zero_iff] using hp
      · intro j hj hlt
        simpa [strcasecmp_eq_zero_iff] using hmin j hj hlt
  · intro h
    unfold find_video_driver at h
    cases hf : V.find? (fun d => decide (strcasecmp g.video.driver d.ident = 0)) with
    | none => simp [hf] at h
    | some d =>
      simp only [hf, Outcome.ret.injEq] at h
      obtain ⟨i, hi, hd, hp, hmin⟩ := find?_least_index _ V d hf
      refine ⟨i, hi, ?_, ?_, ?_⟩
      · rw [hd]; exact h.symm
      · rw [hd]; simpa [strcasecmp_eq_zero_iff] using hp
      · intro j hj hlt
        simpa [strcasecmp_eq_zero_iff] using hmin j hj hlt
  · intro h
    unfold find_input_driver at h
    cases hf : I.find? (fun d => decide (strcasecmp g.input.driver d.ident = 0)) with
    | none =>
      simp only [hf] at h
      cases hr : read_each V (List.range I.length) with
      | none => simp [hr] at h
      | some ds => simp [hr] at h
    | some d =>
      simp only [hf, Outcome.ret.injEq] at h
      obtain ⟨i, hi, hd, hp, hmin⟩ := find?_least_index _ I d hf
      refine ⟨i, hi, ?_, ?_, ?_⟩
      · rw [hd]; exact h.symm
      · rw [hd]; simpa [strcasecmp_eq_zero_iff] using hp
      · intro j hj hlt
        simpa [strcasecmp_eq_zero_iff] using hmin j hj hlt

/-- On registries that hold two entries matching `"sdl"`, each resolver
returns and keeps the entry at index 1, the first of the two. -/
theorem find_driver_first_match_witness :
    (find_audio_driver dup_audio (settings_named (lit "sdl")) state0
        = .ret { state0 with driver.audio := some (mk_audio (lit "SDL") 0x1200 none) }
      ∧ ∃ i, ∃ hi : i < dup_audio.length,
        ({ state0 with driver.audio := some (mk_audio (lit "SDL") 0x1200 none) } : State)
          = { state0 with driver.audio := some dup_audio[i] }
        ∧ eq_ignore_case (settings_named (lit "sdl")).audio.driver dup_audio[i].ident
        ∧ ∀ j, ∀ hj : j < dup_audio.length, j < i →
            ¬ eq_ignore_case (settings_named (lit "sdl")).audio.driver dup_audio[j].ident)
    ∧ (find_video_driver dup_video (settings_named (lit "sdl")) state0
        = .ret { state0 with driver.video := some (mk_video (lit "Sdl")) }
      ∧ ∃ i, ∃ hi : i < dup_video.length,
        ({ state0 with driver.video := some (mk_video (lit "Sdl")) } : State)
          = { state0 with driver.video := some dup_video[i] }
        ∧ eq_ignore_case (settings_named (lit "sdl")).video.driver dup_video[i].ident
        ∧ ∀ j, ∀ hj : j < dup_video.length, j < i →
            ¬ eq_ignore_case (settings_named (lit "sdl")).video.driver dup_video[j].ident)
    ∧ (find_input_driver dup_input dup_video (settings_named (lit "sdl")) state0
        = .ret { state0 with driver.input := some (mk_input (lit "sDL")) }
      ∧ ∃ i, ∃ hi : i < dup_input.length,
        ({ state0 with driver.input := some (mk_input (lit "sDL")) } : State)
          = { state0 with driver.input := some dup_input[i] }
        ∧ eq_ignore_case (settings_named (lit "sdl")).input.driver dup_input[i].ident
        ∧ ∀ j, ∀ hj : j < dup_input.length, j < i →
            ¬ eq_ignore_case (settings_named (lit "sdl")).input.driver dup_input[j].ident) :=
  ⟨⟨rfl, (find_driver_first_match dup_audio dup_video dup_input (settings_named (lit "sdl"))
      state0 _).1 rfl⟩,
   ⟨rfl, (find_driver_first_match dup_audio dup_video dup_input (settings_named (lit "sdl"))
      state0 _).2.1 rfl⟩,
   ⟨rfl, (find_driver_first_match dup_audio dup_video dup_input (settings_named (lit "sdl"))
      state0 _).2.2 rfl⟩⟩

/-- C7: each resolver leaves through `exit(1)` exactly when no registered
ident of its category equals the configured name ignoring case, and
otherwise returns with a registered, matching descriptor stored in the
facade.  The audio and video resolvers are taken over arbitrary registries,
the input resolver over the tables of an arbitrary build. -/
theorem find_driver_exit_iff (A : List audio_driver_t) (V : List video_driver_t)
    (b : Build) (g : settings_t) (s : State) :
    (((∃ s', find_audio_driver A g s = .exit 1 s')
        ↔ ∀ d ∈ A, ¬ eq_ignore_case g.audio.driver d.ident)
      ∧ ((¬ ∀ d ∈ A, ¬ eq_ignore_case g.audio.driver d.ident) →
          ∃ d ∈ A, eq_ignore_case g.audio.driver d.ident
            ∧ find_audio_driver A g s = .ret { s with driver.audio := some d }))
    ∧ (((∃ s', find_video_driver V g s = .exit 1 s')
        ↔ ∀ d ∈ V, ¬ eq_ignore_case g.video.driver d.ident)
      ∧ ((¬ ∀ d ∈ V, ¬ eq_ignore_case g.video.driver d.ident) →
          ∃ d ∈ V, eq_ignore_case g.video.driver d.ident
            ∧ find_video_driver V g s = .ret { s with driver.video := some d }))
    ∧ (((∃ s', find_input_driver (input_drivers b) (video_drivers b) g s = .exit 1 s')
        ↔ ∀ d ∈ input_drivers b, ¬ eq_ignore_case g.input.driver d.ident)
      ∧ ((¬ ∀ d ∈ input_drivers b, ¬ eq_ignore_case g.input.driver d.ident) →
          ∃ d ∈ input_drivers b, eq_ignore_case g.input.driver d.ident
            ∧ find_input_driver (input_drivers b) (video_drivers b) g s
              = .ret { s with driver.input := some d })) := by
  refine ⟨?_, ?_, ?_⟩
  · have hn := scan_none_iff (fun d : audio_driver_t => d.ident) g.audio.driver A
    unfold find_audio_driver
    cases hf : A.find? (fun d => decide (strcasecmp g.audio.driver d.ident = 0)) with
    | none =>
      rw [hf] at hn
      have hall := hn.mp rfl
      exact ⟨⟨fun _ => hall, fun _ => ⟨_, rfl⟩⟩, fun hne => absurd hall hne⟩
    | some d =>
      rw [hf] at hn
      have hd := scan_some_mem (fun d : audio_driver_t => d.ident) g.audio.driver A d hf
      refine ⟨⟨fun ⟨_, he⟩ => by simp at he, fun hall => absurd hd.2 (hall d hd.1)⟩, ?_⟩
      exact fun _ => ⟨d, hd.1, hd.2, rfl⟩
  · have hn := scan_none_iff (fun d : video_driver_t => d.ident) g.video.driver V
    unfold find_video_driver
    cases hf : V.find? (fun d => decide (strcasecmp g.video.driver d.ident = 0)) with
    | none =>
      rw [hf] at hn
      have hall := hn.mp rfl
      exact ⟨⟨fun _ => hall, fun _ => ⟨_, rfl⟩⟩, fun hne => absurd hall hne⟩
    | some d =>
      rw [hf] at hn
      have hd := scan_some_mem (fun d : video_driver_t => d.ident) g.video.driver V d hf
      refine ⟨⟨fun ⟨_, he⟩ => by simp at he, fun hall => absurd hd.2 (hall d hd.1)⟩, ?_⟩
      exact fun _ => ⟨d, hd.1, hd.2, rfl⟩
  · have hn := scan_none_iff (fun d : input_driver_t => d.ident) g.input.driver
      (input_drivers b)
    have hr := read_each_range (video_drivers b) (input_drivers b).length
      (input_drivers_length_le b)
    unfold find_input_driver
    cases hf : (input_drivers b).find?
        (fun d => decide (strcasecmp g.input.driver d.ident = 0)) with
    | none =>
      rw [hf] at hn
      have hall := hn.mp rfl
      simp only [hr]
      exact ⟨⟨fun _ => hall, fun _ => ⟨_, rfl⟩⟩, fun hne => absurd hall hne⟩
    | some d =>
      rw [hf] at hn
      have hd := scan_some_mem (fun d : input_driver_t => d.ident) g.input.driver
        (input_drivers b) d hf
      refine ⟨⟨fun ⟨_, he⟩ => by simp at he, fun hall => absurd hd.2 (hall d hd.1)⟩, ?_⟩
      exact fun _ => ⟨d, hd.1, hd.2, rfl⟩

/-- C8, evaluated on the SDL-only build with the unregistered input name
`"x11"`: the only registered input ident is `"sdl"`, and the listing printed
under "Available input drivers are:" is `"gl"`, the first entry of the video
table. -/
theorem find_input_driver_lists_video_idents :
    (input_drivers sdl_build).map (fun d => d.ident) = [lit "sdl"]
    ∧ find_input_driver (input_drivers sdl_build) (video_drivers sdl_build)
        (settings_named (lit "x11")) state0
      = .exit 1 (state0.emit
          [.ssnes_err "Couldn't find any input driver named \"%s\"\n" (lit "x11"),
           .fprintf_stderr "Available input drivers are:\n" none,
           .fprintf_stderr "\t%s\n" (some (lit "gl"))])
    ∧ printed_idents (find_input_driver (input_drivers sdl_build) (video_drivers sdl_build)
        (settings_named (lit "x11")) state0).state.trace = [lit "gl"] :=
  ⟨rfl, rfl, rfl⟩

/-- C9: when `find_audio_driver` or `find_video_driver` does not return, it
leaves through `exit(1)` having printed the error line, the heading, and
then one line per entry of its own registry carrying that entry's ident, in
registry order and nothing else. -/
theorem find_driver_failure_listing (A : List audio_driver_t) (V : List video_driver_t)
    (g : settings_t) (s : State) :
    (¬ (find_audio_driver A g s).returns →
      find_audio_driver A g s = .exit 1 (s.emit
          ([.ssnes_err "Couldn't find any audio driver named \"%s\"\n" g.audio.driver,
            .fprintf_stderr "Available audio drivers are:\n" none]
            ++ A.map (fun d => .fprintf_stderr "\t%s\n" (some d.ident))))
      ∧ printed_idents ((find_audio_driver A g s).state.trace.drop s.trace.length)
          = A.map (fun d => d.ident))
    ∧ (¬ (find_video_driver V g s).returns →
      find_video_driver V g s = .exit 1 (s.emit
          ([.ssnes_err "Couldn't find any video driver named \"%s\"\n" g.video.driver,
            .fprintf_stderr "Available video drivers are:\n" none]
            ++ V.map (fun d => .fprintf_stderr "\t%s\n" (some d.ident))))
      ∧ printed_idents ((find_video_driver V g s).state.trace.drop s.trace.length)
          = V.map (fun d => d.ident)) := by
  refine ⟨?_, ?_⟩
  · intro h
    unfold find_audio_driver at h ⊢
    cases hf : A.find? (fun d => decide (strcasecmp g.audio.driver d.ident = 0)) with
    | some d => simp [hf, Outcome.returns] at h
    | none =>
      refine ⟨rfl, ?_⟩
      simp only [Outcome.state, State.emit, List.drop_left, printed_idents_append,
        printed_idents_listing]
      rfl
  · intro h
    unfold find_video_driver at h ⊢
    cases hf : V.find? (fun d => decide (strcasecmp g.video.driver d.ident = 0)) with
    | some d => simp [hf, Outcome.returns] at h
    | none =>
      refine ⟨rfl, ?_⟩
      simp only [Outcome.state, State.emit, List.drop_left, printed_idents_append,
        printed_idents_listing]
      rfl

/-- The failure branch of C9 is reached: on the SDL-only build the name
`"x11"` makes both resolvers leave through `exit(1)` with the full listing of
their own registry. -/
theorem find_driver_failure_listing_witness :
    (¬ (find_audio_driver (audio_drivers sdl_build) (settings_named (lit "x11"))
          state0).returns
      ∧ printed_idents ((find_audio_driver (audio_drivers sdl_build)
            (settings_named (lit "x11")) state0).state.trace.drop state0.trace.length)
          = (audio_drivers sdl_build).map (fun d => d.ident))
    ∧ (¬ (find_video_driver (video_drivers sdl_build) (settings_named (lit "x11"))
          state0).returns
      ∧ printed_idents ((find_video_driver (video_drivers sdl_build)
            (settings_named (lit "x11")) state0).state.trace.drop state0.trace.length)
          = (video_drivers sdl_build).map (fun d => d.ident)) :=
  ⟨⟨fun h => h,
      ((find_driver_failure_listing (audio_drivers sdl_build) (video_drivers sdl_build)
        (settings_named (lit "x11")) state0).1 (fun h => h)).2⟩,
    ⟨fun h => h,
      ((find_driver_failure_listing (audio_drivers sdl_build) (video_drivers sdl_build)
        (settings_named (lit "x11")) state0).2 (fun h => h)).2⟩⟩

/-! ## The audio pipeline: a backend without an instance -/

/-- C10, as stated, fails: with audio enabled, 48000 Hz out of 31950 Hz in, a
resolvable name and a backend whose `init` returns no instance, `init_audio`
does not return when `malloc` gives `NULL`; it stops at the assertion on the
first buffer. -/
theorem init_audio_no_instance_alloc_fails :
    (settings_named (lit "sdl")).audio.enable = true
    ∧ (settings_named (lit "sdl")).audio.out_rate
        < (settings_named (lit "sdl")).audio.in_rate * 16
    ∧ find_audio_driver null_audio (settings_named (lit "sdl")) state0
      = .ret { state0 with driver.audio := some (mk_audio (lit "sdl") 0 none) }
    ∧ (mk_audio (lit "sdl") 0 none).init (init_audio.device (settings_named (lit "sdl")))
        (settings_named (lit "sdl")).audio.out_rate
        (settings_named (lit "sdl")).audio.latency = 0
    ∧ (∃ s1, init_audio platform_oom null_audio (settings_named (lit "sdl")) state0
        = .assert_fail .data s1)
    ∧ ¬ (init_audio platform_oom null_audio (settings_named (lit "sdl")) state0).returns :=
  ⟨rfl, by decide, rfl, rfl, ⟨_, rfl⟩, fun h => h⟩

/-- C10 (amended): with audio enabled, a rate ratio that passes the assertion,
a resolvable backend name and the three buffer allocations succeeding, if
the resolved backend's `init` returns no instance then `init_audio` returns
with `audio_active = false` and a null `driver.audio_data`. -/
theorem init_audio_no_instance (p : Platform) (A : List audio_driver_t) (g : settings_t)
    (s : State) (d : audio_driver_t) (henable : g.audio.enable = true)
    (hrate : g.audio.out_rate < (g.audio.in_rate * 16) % 2 ^ p.uint_bits)
    (hres : find_audio_driver A g s = .ret { s with driver.audio := some d })
    (hinit : d.init (init_audio.device g) g.audio.out_rate g.audio.latency = 0)
    (h1 : p.malloc 8192 ≠ 0) (h2 : p.malloc 131072 ≠ 0) (h3 : p.malloc 65536 ≠ 0) :
    ∃ s1, init_audio p A g s = .ret s1
      ∧ s1.g_ext.audio_active = false
      ∧ s1.driver.audio_data = 0 := by
  have hr : rate_ratio_ok p g = true := by
    simpa [rate_ratio_ok, AUDIO_MAX_RATIO] using hrate
  obtain ⟨s1, hs1⟩ := init_audio_ret_of p A g s d henable hres hr h1 h2 h3
  obtain ⟨d0, hfind, -, -, -, -, hd, ha, -, -⟩ := init_audio_ret_spec p A g s s1 henable hs1
  have hdd : d0 = d := by
    rw [hres] at hfind
    simp only [Outcome.ret.injEq, State.mk.injEq, driver_t.mk.injEq, Option.some.injEq,
      and_true, true_and] at hfind
    exact hfind.symm
  subst hdd
  have hz : init_audio.backend_instance g d0 = 0 := hinit
  refine ⟨s1, hs1, ?_, ?_⟩
  · rw [ha, hz]; simp
  · rw [hd]; exact hz

/-- The hypotheses of the amended C10 hold together on a 32-bit platform with
working `malloc` and a backend that returns no instance. -/
theorem init_audio_no_instance_witness :
    (settings_named (lit "sdl")).audio.enable = true
    ∧ find_audio_driver null_audio (settings_named (lit "sdl")) state0
      = .ret { state0 with driver.audio := some (mk_audio (lit "sdl") 0 none) }
    ∧ ∃ s1, init_audio platform32 null_audio (settings_named (lit "sdl")) state0 = .ret s1
        ∧ s1.g_ext.audio_active = false
        ∧ s1.driver.audio_data = 0 :=
  ⟨rfl, rfl,
    init_audio_no_instance platform32 null_audio (settings_named (lit "sdl")) state0
      (mk_audio (lit "sdl") 0 none) rfl (by decide) rfl rfl (by decide) (by decide)
      (by decide)⟩


/-! ## The audio pipeline: disabled audio, buffer sizes, sample format, sync -/

theorem allocate_state_trace (p : Platform) (g : settings_t) (s : State) :
    ∃ ms, ms <+: [Event.malloc (init_audio.max_bufsamples s * 4),
        Event.malloc (init_audio.max_bufsamples s * 4 * 16),
        Event.malloc (init_audio.max_bufsamples s * 2 * 16)]
      ∧ (init_audio.allocate p g s).state.trace = s.trace ++ ms := by
  unfold init_audio.allocate
  cases hr : rate_ratio_ok p g with
  | false => exact ⟨[], by simp, by simp [Outcome.state]⟩
  | true =>
    simp only [Bool.not_true, Bool.false_eq_true, if_false]
    by_cases h1 : p.malloc (init_audio.max_bufsamples s * 4) = 0
    · refine ⟨[.malloc (init_audio.max_bufsamples s * 4)], ⟨_, rfl⟩, ?_⟩
      simp [init_audio.alloc_data, sizeof_float, h1, Outcome.state, State.emit]
    · by_cases h2 : p.malloc (init_audio.max_bufsamples s * 4 * 16) = 0
      · refine ⟨[.malloc (init_audio.max_bufsamples s * 4),
          .malloc (init_audio.max_bufsamples s * 4 * 16)], ⟨_, rfl⟩, ?_⟩
        simp [init_audio.alloc_data, init_audio.alloc_outsamples, sizeof_float,
          AUDIO_MAX_RATIO, h1, h2, Outcome.state, State.emit]
      · refine ⟨_, List.prefix_refl _, ?_⟩
        by_cases h3 : p.malloc (init_audio.max_bufsamples s * 2 * 16) = 0
        · simp [init_audio.alloc_data, init_audio.alloc_outsamples,
            init_audio.alloc_conv_outsamples, sizeof_float, sizeof_int16_t,
            AUDIO_MAX_RATIO, h1, h2, h3, Outcome.state, State.emit]
        · simp [init_audio.alloc_data, init_audio.alloc_outsamples,
            init_audio.alloc_conv_outsamples, sizeof_float, sizeof_int16_t,
            AUDIO_MAX_RATIO, h1, h2, h3, Outcome.state, State.emit]

theorem find_audio_driver_ret (A : List audio_driver_t) (g : settings_t) (s : State)
    (d : audio_driver_t)
    (h : find_audio_driver A g s = .ret { s with driver.audio := some d }) :
    A.find? (fun d => decide (strcasecmp g.audio.driver d.ident = 0)) = some d := by
  unfold find_audio_driver at h
  cases hf : A.find? (fun d => decide (strcasecmp g.audio.driver d.ident = 0)) with
  | none => simp [hf] at h
  | some d0 =>
    simp only [hf, Outcome.ret.injEq, State.mk.injEq, driver_t.mk.injEq, Option.some.injEq,
      and_true, true_and] at h
    rw [h]

theorem init_audio_state_trace (p : Platform) (A : List audio_driver_t) (g : settings_t)
    (s : State) (d : audio_driver_t) (henable : g.audio.enable = true)
    (hres : find_audio_driver A g s = .ret { s with driver.audio := some d }) :
    ∃ ms, ms <+: [Event.malloc 8192, Event.malloc 131072, Event.malloc 65536]
      ∧ (init_audio p A g s).state.trace
        = s.trace
          ++ [.audio_init d.ident (init_audio.device g) g.audio.out_rate g.audio.latency]
          ++ (if (s.g_ext.audio_active = true ∧ init_audio.backend_instance g d ≠ 0)
                ∧ d.use_float.isSome = true
              then [.audio_use_float d.ident (init_audio.backend_instance g d)] else [])
          ++ (if g.audio.sync = false ∧ (s.g_ext.audio_active = true
                  ∧ init_audio.backend_instance g d ≠ 0)
              then [.audio_set_nonblock_state d.ident (init_audio.backend_instance g d) true]
              else [])
          ++ [.hermite_new 2] ++ ms := by
  rw [init_audio_enabled p A g s henable, find_audio_driver_ret A g s d hres]
  simp only []
  obtain ⟨ms, hpre, ht⟩ := allocate_state_trace p g
    (init_audio.before_allocate p g d { s with driver.audio := some d })
  rw [max_bufsamples_before_allocate] at hpre
  refine ⟨ms, hpre, ?_⟩
  rw [ht]
  simp only [before_allocate_spec]

theorem malloc_sizes_append (t u : List Event) :
    malloc_sizes (t ++ u) = malloc_sizes t ++ malloc_sizes u := by
  simp [malloc_sizes, List.filterMap_append]

theorem set_nonblock_calls_append (t u : List Event) :
    set_nonblock_calls (t ++ u) = set_nonblock_calls t ++ set_nonblock_calls u := by
  simp [set_nonblock_calls]

theorem malloc_prefix_sizes (ms : List Event)
    (h : ms <+: [Event.malloc 8192, Event.malloc 131072, Event.malloc 65536]) :
    malloc_sizes ms <+: [8192, 131072, 65536] ∧ set_nonblock_calls ms = [] := by
  have hcases : ms = [] ∨ ms = [Event.malloc 8192]
      ∨ ms = [Event.malloc 8192, Event.malloc 131072]
      ∨ ms = [Event.malloc 8192, Event.malloc 131072, Event.malloc 65536] := by
    obtain ⟨r, hr⟩ := h
    match ms, hr with
    | [], _ => exact Or.inl rfl
    | [a], hr =>
      simp only [List.cons_append, List.nil_append, List.cons.injEq] at hr
      exact Or.inr (Or.inl (by rw [hr.1]))
    | [a, b], hr =>
      simp only [List.cons_append, List.nil_append, List.cons.injEq] at hr
      exact Or.inr (Or.inr (Or.inl (by rw [hr.1, hr.2.1])))
    | [a, b, c], hr =>
      simp only [List.cons_append, List.nil_append, List.cons.injEq] at hr
      exact Or.inr (Or.inr (Or.inr (by rw [hr.1, hr.2.1, hr.2.2.1])))
    | a :: b :: c :: e :: l, hr =>
      simp at hr
  rcases hcases with h | h | h | h <;> subst h
  · exact ⟨by simp [malloc_sizes], rfl⟩
  · exact ⟨⟨[131072, 65536], rfl⟩, rfl⟩
  · exact ⟨⟨[65536], rfl⟩, rfl⟩
  · exact ⟨⟨[], rfl⟩, rfl⟩

/-- C11: with audio configured off, `init_audio` returns and `uninit_audio`
ends in the state that differs from the one before only in
`audio_active = false`: the driver facade, the audio stream state, the rest
of the globals and the trace (no backend resolved, no backend, resampler or
allocator call) are unchanged. -/
theorem audio_disabled_noop (p : Platform) (A : List audio_driver_t) (g : settings_t)
    (s : State) (hoff : g.audio.enable = false) :
    (init_audio p A g s = .ret { s with g_ext.audio_active := false }
      ∧ uninit_audio g s = { s with g_ext.audio_active := false })
    ∧ ((init_audio p A g s).state.g_ext.audio_active = false
        ∧ (init_audio p A g s).state.driver = s.driver
        ∧ (init_audio p A g s).state.g_ext.audio_data = s.g_ext.audio_data
        ∧ (init_audio p A g s).state.trace = s.trace)
    ∧ ((uninit_audio g s).g_ext.audio_active = false
        ∧ (uninit_audio g s).driver = s.driver
        ∧ (uninit_audio g s).g_ext.audio_data = s.g_ext.audio_data
        ∧ (uninit_audio g s).trace = s.trace) := by
  have hi : init_audio p A g s = .ret { s with g_ext.audio_active := false } := by
    simp [init_audio, hoff]
  have hu : uninit_audio g s = { s with g_ext.audio_active := false } := by
    simp [uninit_audio, hoff]
  refine ⟨⟨hi, hu⟩, ?_, ?_⟩
  · rw [hi]; exact ⟨rfl, rfl, rfl, rfl⟩
  · rw [hu]; exact ⟨rfl, rfl, rfl, rfl⟩

/-- With audio configured off on the SDL-only build, both calls only clear
`audio_active`, which was set before. -/
theorem audio_disabled_noop_witness :
    audio_off_settings.audio.enable = false
    ∧ state0.g_ext.audio_active = true
    ∧ init_audio platform32 (audio_drivers sdl_build) audio_off_settings state0
      = .ret { state0 with g_ext.audio_active := false }
    ∧ uninit_audio audio_off_settings state0 = { state0 with g_ext.audio_active := false } :=
  ⟨rfl, rfl,
    (audio_disabled_noop platform32 (audio_drivers sdl_build) audio_off_settings state0
      rfl).1⟩

/-- C12: the byte counts `init_audio` passes to `malloc` are, in order, a
prefix of `M * 4`, `M * 64`, `M * 32` with `M = 2048`, whatever the
settings; and when it completes with audio enabled, `M` is the larger of the
stored `block_chunk_size = 64` and `nonblock_chunk_size = 2048`, all three
requests were made, the three buffers are what `malloc` returned for them,
and `data_ptr` is 0. -/
theorem init_audio_buffer_sizes (p : Platform) (A : List audio_driver_t) (g : settings_t)
    (s : State) :
    malloc_sizes ((init_audio p A g s).state.trace.drop s.trace.length)
      <+: [2048 * 4, 2048 * 64, 2048 * 32]
    ∧ ∀ s1, g.audio.enable = true → init_audio p A g s = .ret s1 →
        max s1.g_ext.audio_data.block_chunk_size s1.g_ext.audio_data.nonblock_chunk_size
          = 2048
        ∧ s1.g_ext.audio_data.block_chunk_size = 64
        ∧ s1.g_ext.audio_data.nonblock_chunk_size = 2048
        ∧ malloc_sizes (s1.trace.drop s.trace.length) = [2048 * 4, 2048 * 64, 2048 * 32]
        ∧ s1.g_ext.audio_data.data = p.malloc (2048 * 4)
        ∧ s1.g_ext.audio_data.outsamples = p.malloc (2048 * 64)
        ∧ s1.g_ext.audio_data.conv_outsamples = p.malloc (2048 * 32)
        ∧ s1.g_ext.audio_data.data_ptr = 0 := by
  constructor
  · cases henable : g.audio.enable with
    | false =>
      simp [init_audio, henable, Outcome.state, malloc_sizes]
    | true =>
      cases hf : A.find? (fun d => decide (strcasecmp g.audio.driver d.ident = 0)) with
      | none =>
        rw [init_audio_enabled p A g s henable]
        have hnone : ∀ l : List audio_driver_t,
            malloc_sizes (l.map (fun d => Event.fprintf_stderr "\t%s\n" (some d.ident)))
              = [] := by
          intro l
          induction l with
          | nil => rfl
          | cons d ds ih =>
            simp only [malloc_sizes, List.map_cons, List.filterMap_cons] at ih ⊢
            exact ih
        simp only [hf, find_audio_driver, Outcome.state, State.emit, List.drop_left,
          malloc_sizes_append, hnone]
        simp [malloc_sizes]
      | some d =>
        have hres : find_audio_driver A g s = .ret { s with driver.audio := some d } := by
          simp [find_audio_driver, hf]
        obtain ⟨ms, hpre, ht⟩ := init_audio_state_trace p A g s d henable hres
        rw [ht]
        simp only [List.append_assoc, List.drop_left, malloc_sizes_append]
        have hms := (malloc_prefix_sizes ms hpre).1
        have h0 : ∀ c : Prop, ∀ [Decidable c], ∀ e : Event,
            (∀ n, e ≠ .malloc n) → malloc_sizes (if c then [e] else []) = [] := by
          intro c _ e he
          split_ifs
          · cases e <;> simp_all [malloc_sizes]
          · rfl
        rw [h0 _ _ (by simp), h0 _ _ (by simp)]
        simpa [malloc_sizes] using hms
  · intro s1 henable h
    obtain ⟨d, -, -, -, -, -, -, -, hdat, ht⟩ := init_audio_ret_spec p A g s s1 henable h
    rw [hdat, ht]
    refine ⟨rfl, rfl, rfl, ?_, rfl, rfl, rfl, rfl⟩
    simp only [List.append_assoc, List.drop_left, malloc_sizes_append]
    split_ifs <;> simp [malloc_sizes]

/-- On the SDL-only build with sync on, and again with sync off, `init_audio`
completes and requests 8192, 131072 and 65536 bytes. -/
theorem init_audio_buffer_sizes_witness :
    ((settings_named (lit "sdl")).audio.enable = true
      ∧ init_audio platform32 (audio_drivers sdl_build) (settings_named (lit "sdl")) state0
        = .ret buffered_state
      ∧ malloc_sizes (buffered_state.trace.drop state0.trace.length)
        = [2048 * 4, 2048 * 64, 2048 * 32]
      ∧ buffered_state.g_ext.audio_data.data_ptr = 0)
    ∧ (nosync_settings.audio.enable = true
      ∧ init_audio platform32 (audio_drivers sdl_build) nosync_settings state0
        = .ret (init_audio platform32 (audio_drivers sdl_build) nosync_settings state0).state
      ∧ malloc_sizes ((init_audio platform32 (audio_drivers sdl_build) nosync_settings
          state0).state.trace.drop state0.trace.length)
        = [2048 * 4, 2048 * 64, 2048 * 32]) :=
  ⟨⟨rfl, rfl,
      ((init_audio_buffer_sizes platform32 (audio_drivers sdl_build)
        (settings_named (lit "sdl")) state0).2 buffered_state rfl rfl).2.2.2.1,
      ((init_audio_buffer_sizes platform32 (audio_drivers sdl_build)
        (settings_named (lit "sdl")) state0).2 buffered_state rfl rfl).2.2.2.2.2.2.2⟩,
    ⟨rfl, rfl,
      ((init_audio_buffer_sizes platform32 (audio_drivers sdl_build) nosync_settings
        state0).2 _ rfl rfl).2.2.2.1⟩⟩

/-- C19, as stated, fails: on a state whose stream is already marked float,
with a backend that has no `use_float` entry, `init_audio` completes and the
stream is still marked float. -/
theorem init_audio_use_float_stale :
    (settings_named (lit "sdl")).audio.enable = true
    ∧ float_state.g_ext.audio_data.use_float = true
    ∧ sdl_build.audio_sdl.use_float.isSome = false
    ∧ ∃ s1, init_audio platform32 (audio_drivers sdl_build) (settings_named (lit "sdl"))
          float_state = .ret s1
        ∧ s1.driver.audio = some sdl_build.audio_sdl
        ∧ s1.g_ext.audio_data.use_float = true :=
  ⟨rfl, rfl, rfl, _, rfl, rfl, rfl⟩

/-- C19 (amended): after `init_audio` completes with audio enabled, the
stream is marked float exactly when it was marked float before the call, or
`audio_active` held on entry, the backend's `init` returned an instance, and
the backend's `use_float` entry exists and answers true for that instance;
the flag is never cleared. -/
theorem init_audio_use_float (p : Platform) (A : List audio_driver_t) (g : settings_t)
    (s s1 : State) (henable : g.audio.enable = true) (h : init_audio p A g s = .ret s1) :
    ∃ d, s1.driver.audio = some d
      ∧ s1.driver.audio_data
        = d.init (init_audio.device g) g.audio.out_rate g.audio.latency
      ∧ (s1.g_ext.audio_data.use_float = true
          ↔ s.g_ext.audio_data.use_float = true
            ∨ (s.g_ext.audio_active = true ∧ s1.driver.audio_data ≠ 0
                ∧ ∃ f, d.use_float = some f ∧ f s1.driver.audio_data = true)) := by
  obtain ⟨d, -, -, -, -, -, hd, -, hdat, -⟩ := init_audio_ret_spec p A g s s1 henable h
  refine ⟨d, by rw [hd], by rw [hd]; rfl, ?_⟩
  rw [hdat, hd]
  cases hu : d.use_float with
  | none => simp
  | some f => simp [and_assoc]

/-- On a backend whose `use_float` answers true, with audio active on entry
and an instance returned, the stream becomes float. -/
theorem init_audio_use_float_witness :
    (settings_named (lit "sdl")).audio.enable = true
    ∧ state0.g_ext.audio_data.use_float = false
    ∧ init_audio platform32 [mk_audio (lit "sdl") 0x1000 (some true)]
        (settings_named (lit "sdl")) state0
      = .ret (init_audio platform32 [mk_audio (lit "sdl") 0x1000 (some true)]
          (settings_named (lit "sdl")) state0).state
    ∧ (init_audio platform32 [mk_audio (lit "sdl") 0x1000 (some true)]
        (settings_named (lit "sdl")) state0).state.g_ext.audio_data.use_float = true :=
  ⟨rfl, rfl, rfl, by
    obtain ⟨d, hd, -, hiff⟩ := init_audio_use_float platform32
      [mk_audio (lit "sdl") 0x1000 (some true)] (settings_named (lit "sdl")) state0 _ rfl rfl
    have hdd : d = mk_audio (lit "sdl") 0x1000 (some true) := (Option.some.inj hd).symm
    subst hdd
    exact hiff.mpr (Or.inr ⟨rfl, by decide, _, rfl, rfl⟩)⟩

/-- C20, as stated, fails: with audio enabled, sync off and a backend whose
`init` returns an instance, `init_audio` makes no call to
`set_nonblock_state` when `audio_active` is false on entry. -/
theorem init_audio_nonblock_inactive :
    nosync_settings.audio.enable = true
    ∧ nosync_settings.audio.sync = false
    ∧ find_audio_driver (audio_drivers sdl_build) nosync_settings inactive_state
      = .ret { inactive_state with driver.audio := some sdl_build.audio_sdl }
    ∧ sdl_build.audio_sdl.init (init_audio.device nosync_settings)
        nosync_settings.audio.out_rate nosync_settings.audio.latency = 0x1000
    ∧ set_nonblock_calls
        (init_audio platform32 (audio_drivers sdl_build) nosync_settings
          inactive_state).state.trace = [] :=
  ⟨rfl, rfl, rfl, rfl, by decide⟩

/-- C20 (amended): with audio enabled and a backend instance obtained from
the backend's `init`, however `init_audio` ends, it has called the backend's
`set_nonblock_state(instance, true)` exactly once if synchronization is
disabled and `audio_active` held on entry, and has made no call to
`set_nonblock_state` if synchronization is enabled or `audio_active` was
false on entry. -/
theorem init_audio_nonblock_calls (p : Platform) (A : List audio_driver_t) (g : settings_t)
    (s : State) (d : audio_driver_t) (henable : g.audio.enable = true)
    (hres : find_audio_driver A g s = .ret { s with driver.audio := some d })
    (hinst : d.init (init_audio.device g) g.audio.out_rate g.audio.latency ≠ 0) :
    set_nonblock_calls ((init_audio p A g s).state.trace.drop s.trace.length)
      = if g.audio.sync = false ∧ s.g_ext.audio_active = true
        then [.audio_set_nonblock_state d.ident
                (d.init (init_audio.device g) g.audio.out_rate g.audio.latency) true]
        else [] := by
  obtain ⟨ms, hpre, ht⟩ := init_audio_state_trace p A g s d henable hres
  have hz : init_audio.backend_instance g d ≠ 0 := hinst
  have hms := (malloc_prefix_sizes ms hpre).2
  rw [ht]
  simp only [List.append_assoc, List.drop_left, set_nonblock_calls_append, hms]
  change _ = if g.audio.sync = false ∧ s.g_ext.audio_active = true
        then [Event.audio_set_nonblock_state d.ident (init_audio.backend_instance g d) true]
        else []
  split_ifs <;> simp_all [set_nonblock_calls]

/-- With sync off and audio active on entry the call is made once; with sync
on it is not made. -/
theorem init_audio_nonblock_calls_witness :
    (nosync_settings.audio.enable = true
      ∧ find_audio_driver (audio_drivers sdl_build) nosync_settings state0
        = .ret { state0 with driver.audio := some sdl_build.audio_sdl }
      ∧ set_nonblock_calls
          ((init_audio platform32 (audio_drivers sdl_build) nosync_settings
            state0).state.trace.drop state0.trace.length)
        = [.audio_set_nonblock_state (lit "sdl") 0x1000 true])
    ∧ set_nonblock_calls
        ((init_audio platform32 (audio_drivers sdl_build) (settings_named (lit "sdl"))
          state0).state.trace.drop state0.trace.length) = [] :=
  ⟨⟨rfl, rfl,
      init_audio_nonblock_calls platform32 (audio_drivers sdl_build) nosync_settings state0
        sdl_build.audio_sdl rfl rfl (by decide)⟩,
    init_audio_nonblock_calls platform32 (audio_drivers sdl_build)
      (settings_named (lit "sdl")) state0 sdl_build.audio_sdl rfl rfl (by decide)⟩

/-! ## The steps of `init_filter` -/

theorem next_pow2_from_spec (n fuel k : Nat) (hfuel : n ≤ 2 ^ k * 2 ^ fuel)
    (hmin : ∀ j, n ≤ 2 ^ j → k ≤ j) :
    ∃ m, next_pow2.from n fuel (2 ^ k) = 2 ^ m ∧ n ≤ 2 ^ m ∧ ∀ j, n ≤ 2 ^ j → m ≤ j := by
  induction fuel generalizing k with
  | zero => exact ⟨k, rfl, by simpa using hfuel, hmin⟩
  | succ fuel ih =>
    unfold next_pow2.from
    by_cases hle : n ≤ 2 ^ k
    · exact ⟨k, by simp [hle], hle, hmin⟩
    · simp only [hle, if_false]
      have h2 : 2 * 2 ^ k = 2 ^ (k + 1) := by rw [pow_succ]; ring
      rw [h2]
      apply ih (k + 1)
      · calc n ≤ 2 ^ k * 2 ^ (fuel + 1) := hfuel
          _ = 2 ^ (k + 1) * 2 ^ fuel := by rw [pow_succ, pow_succ]; ring
      · intro j hj
        have hkj := hmin j hj
        by_contra hlt
        have hjk : j = k := by omega
        subst hjk
        exact hle hj

theorem next_pow2_spec (n : Nat) :
    ∃ m, next_pow2 n = 2 ^ m ∧ n ≤ 2 ^ m ∧ ∀ j, n ≤ 2 ^ j → m ≤ j := by
  have h := next_pow2_from_spec n n 0
    (by simpa using (Nat.lt_two_pow n).le) (fun j _ => Nat.zero_le j)
  simpa [next_pow2] using h

section filter_steps
variable (p : Platform) (h : Host) (g : settings_t) (s : State)

theorem filter_load_spec :
    (init_filter.load h g s).driver = s.driver
    ∧ (init_filter.load h g s).g_ext
      = { s.g_ext with filter.lib := h.dylib_load g.video.filter_path }
    ∧ (init_filter.load h g s).trace
      = s.trace ++ [.ssnes_log "Loading bSNES filter from \"%s\"\n" g.video.filter_path,
          .dylib_load g.video.filter_path] :=
  ⟨rfl, rfl, rfl⟩

theorem filter_resolve_spec :
    (init_filter.resolve h s).driver = s.driver
    ∧ (init_filter.resolve h s).g_ext
      = { s.g_ext with
          filter.psize := h.dylib_proc s.g_ext.filter.lib "filter_size",
          filter.prender := h.dylib_proc s.g_ext.filter.lib "filter_render" }
    ∧ (init_filter.resolve h s).trace
      = s.trace ++ [.dylib_proc s.g_ext.filter.lib "filter_size",
          .dylib_proc s.g_ext.filter.lib "filter_render"] :=
  ⟨rfl, rfl, rfl⟩

theorem filter_unload_spec :
    (init_filter.unload s).driver = s.driver
    ∧ (init_filter.unload s).g_ext = { s.g_ext with filter.lib := 0 }
    ∧ (init_filter.unload s).trace
      = s.trace ++ [.ssnes_err_plain "Failed to find functions in filter...\n",
          .dylib_close s.g_ext.filter.lib] :=
  ⟨rfl, rfl, rfl⟩

theorem filter_geometry_spec :
    (init_filter.geometry p h s).driver = s.driver
    ∧ (init_filter.geometry p h s).g_ext
      = { s.g_ext with
          filter.active := true,
          filter.scale := init_filter.scale_of p (h.psize s.g_ext.filter.psize 512 512).1
            (h.psize s.g_ext.filter.psize 512 512).2 }
    ∧ (init_filter.geometry p h s).trace
      = s.trace ++ [.filter_psize s.g_ext.filter.psize 512 512] :=
  ⟨rfl, rfl, rfl⟩

theorem filter_alloc_buffer_spec :
    (init_filter.alloc_buffer p h s).driver = s.driver
    ∧ (init_filter.alloc_buffer p h s).g_ext
      = { s.g_ext with
          filter.buffer := p.malloc (init_filter.buffer_bytes p h s.g_ext.filter.scale),
          filter.pitch := init_filter.pitch_of p h s.g_ext.filter.scale }
    ∧ (init_filter.alloc_buffer p h s).trace
      = s.trace ++ [.malloc (init_filter.buffer_bytes p h s.g_ext.filter.scale)] :=
  ⟨rfl, rfl, rfl⟩

theorem filter_alloc_colormap_spec :
    (init_filter.alloc_colormap p s).driver = s.driver
    ∧ (init_filter.alloc_colormap p s).g_ext
      = { s.g_ext with filter.colormap := p.malloc 131072 }
    ∧ (init_filter.alloc_colormap p s).trace = s.trace ++ [.malloc 131072] :=
  ⟨rfl, rfl, rfl⟩

theorem filter_fill_colormap_spec :
    (init_filter.fill_colormap s).driver = s.driver
    ∧ (init_filter.fill_colormap s).g_ext
      = { s.g_ext with filter.colormap_mem := init_filter.colormap_table }
    ∧ (init_filter.fill_colormap s).trace = s.trace := by
  unfold init_filter.fill_colormap
  simp only [and_self]

theorem filter_sized_spec :
    (init_filter.sized p h g s).driver = s.driver
    ∧ (init_filter.sized p h g s).g_ext
      = { s.g_ext with
          filter.lib := h.dylib_load g.video.filter_path,
          filter.psize := h.dylib_proc (h.dylib_load g.video.filter_path) "filter_size",
          filter.prender := h.dylib_proc (h.dylib_load g.video.filter_path) "filter_render",
          filter.active := true,
          filter.scale := init_filter.scale p h g,
          filter.buffer := p.malloc (init_filter.buffer_bytes p h (init_filter.scale p h g)),
          filter.pitch := init_filter.pitch_of p h (init_filter.scale p h g) }
    ∧ (init_filter.sized p h g s).trace
      = s.trace ++ [.ssnes_log "Loading bSNES filter from \"%s\"\n" g.video.filter_path,
          .dylib_load g.video.filter_path,
          .dylib_proc (h.dylib_load g.video.filter_path) "filter_size",
          .dylib_proc (h.dylib_load g.video.filter_path) "filter_render",
          .filter_psize (h.dylib_proc (h.dylib_load g.video.filter_path) "filter_size")
            512 512,
          .malloc (init_filter.buffer_bytes p h (init_filter.scale p h g))] :=
  ⟨rfl, rfl, by simp [init_filter.sized, init_filter.alloc_buffer, init_filter.geometry,
    init_filter.resolve, init_filter.load, State.emit, init_filter.scale,
    init_filter.reported_size, init_filter.reported]⟩

end filter_steps

/-! ## The shape of `init_filter` -/

theorem init_filter_loadable (p : Platform) (h : Host) (g : settings_t) (s : State)
    (hin : s.g_ext.filter.active = false) (hl : init_filter.loadable h g) :
    init_filter p h g s
      = if p.malloc (init_filter.buffer_bytes p h (init_filter.scale p h g)) = 0
        then .assert_fail .filter_buffer (init_filter.sized p h g s)
        else if p.malloc 131072 = 0
          then .assert_fail .filter_colormap
            (init_filter.alloc_colormap p (init_filter.sized p h g s))
          else .ret (init_filter.fill_colormap
            (init_filter.alloc_colormap p (init_filter.sized p h g s))) := by
  obtain ⟨hpath, hlib, hps, hpr⟩ := hl
  have hb : (init_filter.sized p h g s).g_ext.filter.buffer
      = p.malloc (init_filter.buffer_bytes p h (init_filter.scale p h g)) := by
    rw [(filter_sized_spec p h g s).2.1]
  have hc : (init_filter.alloc_colormap p (init_filter.sized p h g s)).g_ext.filter.colormap
      = p.malloc 131072 := by
    rw [(filter_alloc_colormap_spec p _).2.1]
  unfold init_filter
  simp only [hin, Bool.false_eq_true, if_false, hpath]
  have h1 : (init_filter.load h g s).g_ext.filter.lib ≠ 0 := by
    rw [(filter_load_spec h g s).2.1]; exact hlib
  have h2 : (init_filter.resolve h (init_filter.load h g s)).g_ext.filter.psize ≠ 0 := by
    rw [(filter_resolve_spec h _).2.1, (filter_load_spec h g s).2.1]; exact hps
  have h3 : (init_filter.resolve h (init_filter.load h g s)).g_ext.filter.prender ≠ 0 := by
    rw [(filter_resolve_spec h _).2.1, (filter_load_spec h g s).2.1]; exact hpr
  simp only [h1, h2, h3, if_false, or_self]
  change (if (init_filter.sized p h g s).g_ext.filter.buffer = 0 then _ else _) = _
  rw [hb]
  by_cases hb0 : p.malloc (init_filter.buffer_bytes p h (init_filter.scale p h g)) = 0
  · simp only [hb0, if_true]
    rfl
  · simp only [hb0, if_false]
    change (if (init_filter.alloc_colormap p
      (init_filter.sized p h g s)).g_ext.filter.colormap = 0 then _ else _) = _
    rw [hc]
    rfl

theorem init_filter_not_loadable (p : Platform) (h : Host) (g : settings_t) (s : State)
    (hnot : s.g_ext.filter.active = true ∨ ¬ init_filter.loadable h g) :
    ∃ s1, init_filter p h g s = .ret s1
      ∧ s1.g_ext.filter.active = s.g_ext.filter.active
      ∧ s1.driver = s.driver := by
  have hlib : (init_filter.load h g s).g_ext.filter.lib
      = h.dylib_load g.video.filter_path := by
    rw [(filter_load_spec h g s).2.1]
  have hps : (init_filter.resolve h (init_filter.load h g s)).g_ext.filter.psize
      = h.dylib_proc (h.dylib_load g.video.filter_path) "filter_size" := by
    rw [(filter_resolve_spec h _).2.1, (filter_load_spec h g s).2.1]
  have hpr : (init_filter.resolve h (init_filter.load h g s)).g_ext.filter.prender
      = h.dylib_proc (h.dylib_load g.video.filter_path) "filter_render" := by
    rw [(filter_resolve_spec h _).2.1, (filter_load_spec h g s).2.1]
  have hloadable : s.g_ext.filter.active ≠ true → g.video.filter_path.headD 0 ≠ 0 →
      (init_filter.load h g s).g_ext.filter.lib ≠ 0 →
      ¬ ((init_filter.resolve h (init_filter.load h g s)).g_ext.filter.psize = 0
        ∨ (init_filter.resolve h (init_filter.load h g s)).g_ext.filter.prender = 0) →
      False := by
    intro ha hp h1 h2
    rw [hlib] at h1
    rw [hps, hpr, not_or] at h2
    rcases hnot with h0 | h0
    · exact ha h0
    · exact h0 ⟨hp, h1, h2.1, h2.2⟩
  unfold init_filter
  dsimp only
  split_ifs with c1 c2 c3 c4
  · exact ⟨s, rfl, rfl, rfl⟩
  · exact ⟨s, rfl, rfl, rfl⟩
  · exact ⟨_, rfl, rfl, rfl⟩
  · exact ⟨_, rfl, rfl, rfl⟩
  · exact absurd (hloadable c1 c2 c3 c4) id
  · exact absurd (hloadable c1 c2 c3 c4) id
  · exact absurd (hloadable c1 c2 c3 c4) id

theorem init_filter_ret_activated (p : Platform) (h : Host) (g : settings_t) (s s1 : State)
    (hret : init_filter p h g s = .ret s1) (hin : s.g_ext.filter.active = false)
    (hact : s1.g_ext.filter.active = true) :
    init_filter.loadable h g
    ∧ p.malloc (init_filter.buffer_bytes p h (init_filter.scale p h g)) ≠ 0
    ∧ p.malloc 131072 ≠ 0
    ∧ s1 = init_filter.fill_colormap
        (init_filter.alloc_colormap p (init_filter.sized p h g s)) := by
  by_cases hl : init_filter.loadable h g
  · rw [init_filter_loadable p h g s hin hl] at hret
    by_cases hb0 : p.malloc (init_filter.buffer_bytes p h (init_filter.scale p h g)) = 0
    · simp [hb0] at hret
    · by_cases hc0 : p.malloc 131072 = 0
      · simp [hb0, hc0] at hret
      · simp only [hb0, hc0, if_false, Outcome.ret.injEq] at hret
        exact ⟨hl, hb0, hc0, hret.symm⟩
  · obtain ⟨s2, h2, ha, -⟩ := init_filter_not_loadable p h g s (Or.inr hl)
    rw [hret] at h2
    simp only [Outcome.ret.injEq] at h2
    subst h2
    rw [ha, hin] at hact
    exact absurd hact (by simp)

theorem init_filter_state_loadable (p : Platform) (h : Host) (g : settings_t) (s : State)
    (hin : s.g_ext.filter.active = false) (hl : init_filter.loadable h g) :
    (init_filter p h g s).state.g_ext.filter.scale = init_filter.scale p h g
    ∧ (init_filter p h g s).state.g_ext.filter.pitch
      = init_filter.pitch_of p h (init_filter.scale p h g)
    ∧ (init_filter p h g s).state.g_ext.filter.buffer
      = p.malloc (init_filter.buffer_bytes p h (init_filter.scale p h g))
    ∧ ∃ rest, malloc_sizes ((init_filter p h g s).state.trace.drop s.trace.length)
        = init_filter.buffer_bytes p h (init_filter.scale p h g) :: rest := by
  have hs := filter_sized_spec p h g s
  have hc := filter_alloc_colormap_spec p (init_filter.sized p h g s)
  have hf := filter_fill_colormap_spec
    (init_filter.alloc_colormap p (init_filter.sized p h g s))
  rw [init_filter_loadable p h g s hin hl]
  split_ifs
  · simp only [Outcome.state, hs.2.1, hs.2.2, List.drop_left]
    exact ⟨trivial, trivial, trivial, [], by simp [malloc_sizes]⟩
  · simp only [Outcome.state, hc.2.1, hc.2.2, hs.2.1, hs.2.2, List.append_assoc,
      List.drop_left]
    exact ⟨trivial, trivial, trivial, [131072], by simp [malloc_sizes]⟩
  · simp only [Outcome.state, hf.2.1, hf.2.2, hc.2.1, hc.2.2, hs.2.1, hs.2.2,
      List.append_assoc, List.drop_left]
    exact ⟨trivial, trivial, trivial, [131072], by simp [malloc_sizes]⟩

theorem scale_of_no_wrap (p : Platform) (w hh : Nat) (hx : next_pow2 w < 2 ^ p.uint_bits)
    (hy : next_pow2 hh < 2 ^ p.uint_bits) :
    init_filter.scale_of p w hh = max (next_pow2 w) (next_pow2 hh) / 256 := by
  unfold init_filter.scale_of
  simp only [Nat.mod_eq_of_lt hx, Nat.mod_eq_of_lt hy]
  by_cases hgt : next_pow2 w > next_pow2 hh
  · rw [if_pos hgt, max_eq_left (le_of_lt hgt)]
  · rw [if_neg hgt, max_eq_right (not_lt.mp hgt)]

theorem buffer_bytes_no_wrap (p : Platform) (h : Host) (sc : Nat)
    (hprod : (256 * sc) ^ 2 < 2 ^ p.uint_bits)
    (hbytes : (256 * sc) ^ 2 * 4 < 2 ^ h.size_t_bits) :
    init_filter.buffer_bytes p h sc = (256 * sc) ^ 2 * 4
    ∧ init_filter.pitch_of p h sc = 256 * sc * 4 := by
  have hsq : (256 * sc) ^ 2 = 256 * 256 * sc * sc := by ring
  rcases Nat.eq_zero_or_pos sc with h0 | hpos
  · subst h0
    have hU : 0 < 2 ^ p.uint_bits := Nat.two_pow_pos _
    have hZ : 0 < 2 ^ h.size_t_bits := Nat.two_pow_pos _
    simp [init_filter.buffer_bytes, init_filter.pitch_of, Nat.mod_eq_of_lt hU,
      Nat.mod_eq_of_lt hZ]
  · have h1 : 256 * 256 * sc ≤ 256 * 256 * sc * sc := Nat.le_mul_of_pos_right _ hpos
    have h2 : 256 * sc * 4 ≤ 256 * 256 * sc * sc := by nlinarith
    have h3 : 256 * sc ≤ 256 * 256 * sc * sc := by nlinarith
    rw [hsq] at hprod hbytes
    have e1 : 256 * 256 * sc % 2 ^ p.uint_bits = 256 * 256 * sc :=
      Nat.mod_eq_of_lt (lt_of_le_of_lt h1 hprod)
    have e2 : 256 * 256 * sc * sc % 2 ^ p.uint_bits = 256 * 256 * sc * sc :=
      Nat.mod_eq_of_lt hprod
    have e3 : 256 * 256 * sc * sc * 4 % 2 ^ h.size_t_bits = 256 * 256 * sc * sc * 4 :=
      Nat.mod_eq_of_lt hbytes
    have e4 : 256 * sc % 2 ^ p.uint_bits = 256 * sc :=
      Nat.mod_eq_of_lt (lt_of_le_of_lt h3 hprod)
    have e5 : 256 * sc * 4 % 2 ^ h.size_t_bits = 256 * sc * 4 :=
      Nat.mod_eq_of_lt (by omega)
    have e6 : 256 * sc * 4 % 2 ^ p.uint_bits = 256 * sc * 4 :=
      Nat.mod_eq_of_lt (lt_of_le_of_lt h2 hprod)
    constructor
    · simp only [init_filter.buffer_bytes, sizeof_uint32_t, e1, e2, e3, hsq]
    · simp only [init_filter.pitch_of, sizeof_uint32_t, e4, e5, e6]

/-! ## The image filter: scale, buffer, colormap -/

/-- C16, as stated, fails on a 32-bit `unsigned`: for a reported size of
65536 by 65536 the scale is `65536 / 256 = 256`, the product
`256 * 256 * scale * scale` wraps to 0, and `init_filter` asks `malloc` for 0
bytes, not for `(256 * 256) ^ 2 * 4`. -/
theorem init_filter_buffer_wraps :
    state0.g_ext.filter.active = false
    ∧ init_filter.loadable host_huge filter_settings
    ∧ init_filter.reported_size host_huge filter_settings = (65536, 65536)
    ∧ (init_filter platform32 host_huge filter_settings state0).state.g_ext.filter.scale
      = max (next_pow2 65536) (next_pow2 65536) / 256
    ∧ (init_filter platform32 host_huge filter_settings state0).state.g_ext.filter.scale = 256
    ∧ malloc_sizes (init_filter platform32 host_huge filter_settings state0).state.trace
      = [0, 131072]
    ∧ (256 * 256) ^ 2 * 4 = 17179869184 :=
  ⟨rfl, by decide, rfl, by decide, by decide, by decide, by decide⟩

/-- C16 (amended): for a filter module that is activated and reports the size
`(w, hh)`, with `P = next_pow2` giving the least power of two not below its
argument, and provided `P w`, `P hh` and `(256 * scale) ^ 2` fit in
`unsigned` and the byte count `(256 * scale) ^ 2 * 4` fits in `size_t`:
`init_filter` sets `scale = max (P w) (P hh) / 256`, asks `malloc` first for
`(256 * scale) ^ 2 * 4` bytes, keeps the result as the pixel buffer, and sets
`pitch = 256 * scale * 4`. -/
theorem init_filter_scale_buffer (p : Platform) (h : Host) (g : settings_t) (s : State)
    (w hh : Nat) (hin : s.g_ext.filter.active = false) (hl : init_filter.loadable h g)
    (hrep : init_filter.reported_size h g = (w, hh))
    (hx : next_pow2 w < 2 ^ p.uint_bits) (hy : next_pow2 hh < 2 ^ p.uint_bits)
    (hprod : (256 * (max (next_pow2 w) (next_pow2 hh) / 256)) ^ 2 < 2 ^ p.uint_bits)
    (hbytes : (256 * (max (next_pow2 w) (next_pow2 hh) / 256)) ^ 2 * 4
      < 2 ^ h.size_t_bits) :
    ((∃ a, next_pow2 w = 2 ^ a ∧ w ≤ 2 ^ a ∧ ∀ j, w ≤ 2 ^ j → a ≤ j)
      ∧ ∃ b, next_pow2 hh = 2 ^ b ∧ hh ≤ 2 ^ b ∧ ∀ j, hh ≤ 2 ^ j → b ≤ j)
    ∧ (init_filter p h g s).state.g_ext.filter.scale
      = max (next_pow2 w) (next_pow2 hh) / 256
    ∧ (∃ rest, malloc_sizes ((init_filter p h g s).state.trace.drop s.trace.length)
        = (256 * (max (next_pow2 w) (next_pow2 hh) / 256)) ^ 2 * 4 :: rest)
    ∧ (init_filter p h g s).state.g_ext.filter.buffer
      = p.malloc ((256 * (max (next_pow2 w) (next_pow2 hh) / 256)) ^ 2 * 4)
    ∧ (init_filter p h g s).state.g_ext.filter.pitch
      = 256 * (max (next_pow2 w) (next_pow2 hh) / 256) * 4 := by
  obtain ⟨hsc, hpitch, hbuf, rest, hm⟩ := init_filter_state_loadable p h g s hin hl
  have hscale : init_filter.scale p h g = max (next_pow2 w) (next_pow2 hh) / 256 := by
    unfold init_filter.scale
    rw [hrep]
    exact scale_of_no_wrap p w hh hx hy
  obtain ⟨eb, ep⟩ := buffer_bytes_no_wrap p h _ hprod hbytes
  rw [hscale] at hsc hpitch hbuf hm
  rw [eb] at hbuf hm
  rw [ep] at hpitch
  exact ⟨⟨next_pow2_spec w, next_pow2_spec hh⟩, hsc, ⟨rest, hm⟩, hbuf, hpitch⟩

/-- A reported size of 300 by 200 gives the padded dimensions 512 and 256,
the scale 2, a request for `(256 * 2) ^ 2 * 4 = 1048576` bytes and the pitch
2048. -/
theorem init_filter_scale_buffer_witness :
    (state0.g_ext.filter.active = false
      ∧ init_filter.loadable host64 filter_settings
      ∧ init_filter.reported_size host64 filter_settings = (300, 200)
      ∧ next_pow2 300 = 512 ∧ next_pow2 200 = 256)
    ∧ (init_filter platform32 host64 filter_settings state0).state.g_ext.filter.scale = 2
    ∧ (∃ rest, malloc_sizes
          ((init_filter platform32 host64 filter_settings state0).state.trace.drop
            state0.trace.length) = 1048576 :: rest)
    ∧ (256 * 2) ^ 2 * 4 = 1048576
    ∧ (init_filter platform32 host64 filter_settings state0).state.g_ext.filter.pitch
      = 2048 :=
  ⟨⟨rfl, by decide, rfl, by decide, by decide⟩,
    (init_filter_scale_buffer platform32 host64 filter_settings state0 300 200 rfl
      (by decide) rfl (by decide) (by decide) (by decide) (by decide)).2.1,
    (init_filter_scale_buffer platform32 host64 filter_settings state0 300 200 rfl
      (by decide) rfl (by decide) (by decide) (by decide) (by decide)).2.2.1,
    by decide,
    (init_filter_scale_buffer platform32 host64 filter_settings state0 300 200 rfl
      (by decide) rfl (by decide) (by decide) (by decide) (by decide)).2.2.2.2⟩

theorem spec_rep_lt (v : Nat) (hv : v < 32) : spec_rep v < 256 := by
  unfold spec_rep
  have h1 : v <<< 3 < 2 ^ 8 := by rw [Nat.shiftLeft_eq]; omega
  have h2 : v >>> 2 < 2 ^ 8 := by
    rw [Nat.shiftRight_eq_div_pow]
    exact lt_of_le_of_lt (Nat.div_le_self _ _) (by omega)
  exact Nat.or_lt_two_pow h1 h2

theorem channel_lt (x : Nat) : x &&& 31 < 32 :=
  Nat.and_lt_two_pow x (by decide : 31 < 2 ^ 5)

theorem packed_low_bits (r g b : Nat) : (r <<< 24 ||| g <<< 16 ||| b <<< 8) % 256 = 0 := by
  have h256 : (256 : Nat) = 2 ^ 8 := by norm_num
  rw [h256]
  apply Nat.eq_of_testBit_eq
  intro j
  simp only [Nat.testBit_mod_two_pow, Nat.testBit_or, Nat.testBit_shiftLeft,
    Nat.zero_testBit]
  by_cases hj : j < 8
  · have h1 : ¬ j ≥ 24 := by omega
    have h2 : ¬ j ≥ 16 := by omega
    have h3 : ¬ j ≥ 8 := by omega
    simp [h1, h2, h3]
  · simp [hj]

theorem packed_lt (r g b : Nat) (hr : r < 256) (hg : g < 256) (hb : b < 256) :
    r <<< 24 ||| g <<< 16 ||| b <<< 8 < 2 ^ 32 := by
  have h1 : r <<< 24 < 2 ^ 32 := by rw [Nat.shiftLeft_eq]; omega
  have h2 : g <<< 16 < 2 ^ 32 := by rw [Nat.shiftLeft_eq]; omega
  have h3 : b <<< 8 < 2 ^ 32 := by rw [Nat.shiftLeft_eq]; omega
  exact Nat.or_lt_two_pow (Nat.or_lt_two_pow h1 h2) h3

theorem colormap_entry_eq_spec (i : Nat) :
    init_filter.colormap_entry i = spec_colormap_entry i := by
  simp [init_filter.colormap_entry, spec_colormap_entry, spec_rep]

theorem map_range_getElem? (f : Nat → Nat) (n i : Nat) (hi : i < n) :
    ((List.range n).map f)[i]? = some (f i) := by
  rw [List.getElem?_map, List.getElem?_range hi]
  rfl

theorem colormap_table_spec :
    init_filter.colormap_table.length = 32768
    ∧ ∀ i, i < 32768 → init_filter.colormap_table[i]? = some (spec_colormap_entry i) := by
  unfold init_filter.colormap_table
  refine ⟨by rw [List.length_map, List.length_range], fun i hi => ?_⟩
  rw [map_range_getElem? _ _ _ hi, colormap_entry_eq_spec]

/-- C17: when `init_filter` activates the filter and returns, the colormap
holds exactly 32768 entries, and for every `i` below 32768 entry `i` is
`(rep r << 24) | (rep g << 16) | (rep b << 8)` with `r = (i >> 10) & 31`,
`g = (i >> 5) & 31`, `b = i & 31` and `rep v = (v << 3) | (v >> 2)`; every
entry fits in 32 bits and has its low 8 bits clear. -/
theorem init_filter_colormap (p : Platform) (h : Host) (g : settings_t) (s s1 : State)
    (hret : init_filter p h g s = .ret s1) (hin : s.g_ext.filter.active = false)
    (hact : s1.g_ext.filter.active = true) :
    s1.g_ext.filter.colormap_mem.length = 32768
    ∧ ∀ i, i < 32768 →
        s1.g_ext.filter.colormap_mem[i]? = some (spec_colormap_entry i)
        ∧ spec_colormap_entry i
          = (spec_rep ((i >>> 10) &&& 31) <<< 24) ||| (spec_rep ((i >>> 5) &&& 31) <<< 16)
            ||| (spec_rep (i &&& 31) <<< 8)
        ∧ spec_colormap_entry i < 2 ^ 32
        ∧ spec_colormap_entry i % 256 = 0 := by
  obtain ⟨-, -, -, hs1⟩ := init_filter_ret_activated p h g s s1 hret hin hact
  have hmem : s1.g_ext.filter.colormap_mem = init_filter.colormap_table := by
    rw [hs1, (filter_fill_colormap_spec _).2.1]
  rw [hmem]
  refine ⟨colormap_table_spec.1, fun i hi => ⟨colormap_table_spec.2 i hi, rfl, ?_, ?_⟩⟩
  · exact packed_lt _ _ _ (spec_rep_lt _ (channel_lt _)) (spec_rep_lt _ (channel_lt _))
      (spec_rep_lt _ (channel_lt _))
  · exact packed_low_bits _ _ _

/-- A module that loads on the 64-bit host is activated, and the last
colormap entry, for the colour with all 15 bits set, is `0xFFFFFF00`. -/
theorem init_filter_colormap_witness :
    state0.g_ext.filter.active = false
    ∧ init_filter platform32 host64 filter_settings state0
      = .ret (init_filter platform32 host64 filter_settings state0).state
    ∧ (init_filter platform32 host64 filter_settings state0).state.g_ext.filter.active = true
    ∧ (init_filter platform32 host64 filter_settings
        state0).state.g_ext.filter.colormap_mem.length = 32768
    ∧ (init_filter platform32 host64 filter_settings
        state0).state.g_ext.filter.colormap_mem[32767]? = some 0xFFFFFF00 :=
  ⟨rfl, rfl, rfl,
    (init_filter_colormap platform32 host64 filter_settings state0 _ rfl rfl rfl).1,
    ((init_filter_colormap platform32 host64 filter_settings state0 _ rfl rfl rfl).2 32767
      (by decide)).1.trans (by decide)⟩

/-! ## The steps of `uninit_video_input` -/

theorem free_video_spec (s : State) :
    (uninit_video_input.free_video s).driver = s.driver
    ∧ (uninit_video_input.free_video s).g_ext = s.g_ext
    ∧ (uninit_video_input.free_video s).trace
      = s.trace ++ (match s.driver.video with
          | some video =>
            if s.driver.video_data ≠ 0 then [.video_free video.ident s.driver.video_data]
            else []
          | none => []) := by
  unfold uninit_video_input.free_video
  cases s.driver.video with
  | none => simp
  | some video => by_cases h : s.driver.video_data = 0 <;> simp [State.emit, h]

theorem free_input_spec (s : State) :
    (uninit_video_input.free_input s).driver = s.driver
    ∧ (uninit_video_input.free_input s).g_ext = s.g_ext
    ∧ (uninit_video_input.free_input s).trace
      = s.trace ++ (match s.driver.input with
          | some input =>
            if s.driver.input_data ≠ s.driver.video_data
            then [.input_free input.ident s.driver.input_data] else []
          | none => []) := by
  unfold uninit_video_input.free_input
  cases s.driver.input with
  | none => simp
  | some input =>
    by_cases h : s.driver.input_data = s.driver.video_data <;> simp [State.emit, h]

theorem deinit_filter_spec (s : State) :
    (deinit_filter s).driver = s.driver
    ∧ (deinit_filter s).g_ext.audio_active = s.g_ext.audio_active
    ∧ (deinit_filter s).g_ext.audio_data = s.g_ext.audio_data
    ∧ (deinit_filter s).g_ext.shader_dir = s.g_ext.shader_dir
    ∧ (deinit_filter s).g_ext.filter
      = (if s.g_ext.filter.active = true then { s.g_ext.filter with active := false, lib := 0 }
         else s.g_ext.filter)
    ∧ (deinit_filter s).trace
      = s.trace ++ (if s.g_ext.filter.active = true
          then [.dylib_close s.g_ext.filter.lib, .free s.g_ext.filter.buffer,
                .free s.g_ext.filter.colormap]
          else []) := by
  unfold deinit_filter
  by_cases h : s.g_ext.filter.active = true <;> simp [State.emit, h]

theorem uninit_video_input_spec (b : Build) (s : State) :
    (uninit_video_input b s).driver = s.driver
    ∧ (uninit_video_input b s).trace
      = s.trace
        ++ (match s.driver.video with
            | some video =>
              if s.driver.video_data ≠ 0 then [.video_free video.ident s.driver.video_data]
              else []
            | none => [])
        ++ (match s.driver.input with
            | some input =>
              if s.driver.input_data ≠ s.driver.video_data
              then [.input_free input.ident s.driver.input_data] else []
            | none => [])
        ++ (if s.g_ext.filter.active = true
            then [.dylib_close s.g_ext.filter.lib, .free s.g_ext.filter.buffer,
                  .free s.g_ext.filter.colormap]
            else [])
        ++ (if b.HAVE_XML = true then [.dir_list_free s.g_ext.shader_dir.elems] else []) := by
  unfold uninit_video_input
  by_cases hx : b.HAVE_XML = true
  · simp only [hx, if_true, deinit_shader_dir, State.emit, deinit_filter_spec,
      free_input_spec, free_video_spec]
    simp
  · simp only [hx, if_false, Bool.false_eq_true, deinit_filter_spec,
      free_input_spec, free_video_spec]
    simp

/-- C15: `uninit_video_input` makes its calls in this order and no others:
the video backend's `free` on the video instance, when a video backend is set
and the instance is not `NULL`; then the input backend's `free` on the input
instance, exactly when an input backend is set and the input instance differs
from the video instance; then the release of the filter plugin (closing the
module, freeing the pixel buffer and the colormap) when the filter is active;
then, in a build with `HAVE_XML`, the release of the shader-directory
listing. -/
theorem uninit_video_input_order (b : Build) (s : State) :
    (uninit_video_input b s).trace
      = s.trace
        ++ (match s.driver.video with
            | some video =>
              if s.driver.video_data ≠ 0 then [.video_free video.ident s.driver.video_data]
              else []
            | none => [])
        ++ (match s.driver.input with
            | some input =>
              if s.driver.input_data ≠ s.driver.video_data
              then [.input_free input.ident s.driver.input_data] else []
            | none => [])
        ++ (if s.g_ext.filter.active = true
            then [.dylib_close s.g_ext.filter.lib, .free s.g_ext.filter.buffer,
                  .free s.g_ext.filter.colormap]
            else [])
        ++ (if b.HAVE_XML = true then [.dir_list_free s.g_ext.shader_dir.elems] else [])
    ∧ ((∃ ident data, Event.input_free ident data
            ∈ (uninit_video_input b s).trace.drop s.trace.length)
        ↔ s.driver.input.isSome = true ∧ s.driver.input_data ≠ s.driver.video_data) := by
  have ht := (uninit_video_input_spec b s).2
  refine ⟨ht, ?_⟩
  rw [ht]
  simp only [List.append_assoc, List.drop_left]
  cases hv : s.driver.video with
  | none =>
    cases hi : s.driver.input with
    | none => split_ifs <;> simp
    | some input => split_ifs <;> simp_all
  | some video =>
    cases hi : s.driver.input with
    | none => split_ifs <;> simp
    | some input => split_ifs <;> simp_all

/-! ## The shape of `init_video_input` -/

theorem quiet_step_refl (s : State) : quiet_step s s :=
  ⟨rfl, [], by simp, rfl⟩

theorem quiet_step_trans (s t u : State) (h1 : quiet_step s t) (h2 : quiet_step t u) :
    quiet_step s u := by
  obtain ⟨hd1, e1, ht1, hq1⟩ := h1
  obtain ⟨hd2, e2, ht2, hq2⟩ := h2
  refine ⟨hd2.trans hd1, e1 ++ e2, ?_, ?_⟩
  · rw [ht2, ht1, List.append_assoc]
  · simp only [input_init_calls, List.filter_append] at hq1 hq2 ⊢
    rw [hq1, hq2]; rfl

theorem quiet_step_of (s t : State) (ev : List Event) (hd : t.driver = s.driver)
    (ht : t.trace = s.trace ++ ev) (hq : input_init_calls ev = []) : quiet_step s t :=
  ⟨hd, ev, ht, hq⟩

theorem init_filter_quiet (p : Platform) (h : Host) (g : settings_t) (s : State) :
    quiet_step s (init_filter p h g s).state := by
  have q1 : quiet_step s (init_filter.load h g s) :=
    quiet_step_of _ _ _ rfl (filter_load_spec h g s).2.2 rfl
  have q2 : ∀ t, quiet_step t (init_filter.resolve h t) := fun t =>
    quiet_step_of _ _ _ rfl (filter_resolve_spec h t).2.2 rfl
  have q3 : ∀ t, quiet_step t (init_filter.unload t) := fun t =>
    quiet_step_of _ _ _ rfl (filter_unload_spec t).2.2 rfl
  have q4 : ∀ t, quiet_step t (init_filter.geometry p h t) := fun t =>
    quiet_step_of _ _ _ rfl (filter_geometry_spec p h t).2.2 rfl
  have q5 : ∀ t, quiet_step t (init_filter.alloc_buffer p h t) := fun t =>
    quiet_step_of _ _ _ rfl (filter_alloc_buffer_spec p h t).2.2 rfl
  have q6 : ∀ t, quiet_step t (init_filter.alloc_colormap p t) := fun t =>
    quiet_step_of _ _ _ rfl (filter_alloc_colormap_spec p t).2.2 rfl
  have q7 : ∀ t, quiet_step t (init_filter.fill_colormap t) := fun t =>
    quiet_step_of _ _ [] (filter_fill_colormap_spec t).1 (by
      rw [(filter_fill_colormap_spec t).2.2]; simp) rfl
  have q8 : ∀ t : State, ∀ e : Event, input_init_calls [e] = [] →
      quiet_step t (t.emit [e]) := fun t e he => quiet_step_of _ _ _ rfl rfl he
  have q12 := quiet_step_trans _ _ _ q1 (q2 _)
  have q15 := quiet_step_trans _ _ _ (quiet_step_trans _ _ _ q12 (q4 _)) (q5 _)
  have q16 := quiet_step_trans _ _ _ q15 (q6 _)
  unfold init_filter
  dsimp only
  split_ifs
  · exact quiet_step_refl s
  · exact quiet_step_refl s
  · exact quiet_step_trans _ _ _ q1 (q8 _ _ rfl)
  · exact quiet_step_trans _ _ _ q12 (q3 _)
  · exact q15
  · exact q16
  · exact quiet_step_trans _ _ _ q16 (q7 _)

theorem init_shader_dir_quiet (h : Host) (g : settings_t) (s : State) :
    quiet_step s (init_shader_dir h g s) := by
  have hlog : ∀ l : List CStr,
      input_init_calls (l.map (fun e => Event.ssnes_log "Found shader \"%s\"\n" e)) = [] := by
    intro l
    induction l with
    | nil => rfl
    | cons e es ih =>
      simp only [input_init_calls, List.map_cons, List.filter_cons] at ih ⊢
      exact ih
  unfold init_shader_dir
  by_cases hp : g.video.shader_dir.headD 0 = 0
  · simp only [hp, if_true]; exact quiet_step_refl s
  · simp only [hp, if_false]
    cases hd : h.dir_list_new g.video.shader_dir ".shader" with
    | none => exact quiet_step_of _ _ _ rfl rfl rfl
    | some found =>
      refine quiet_step_of _ _ ([.dir_list_new g.video.shader_dir ".shader"]
        ++ found.map (fun e => .ssnes_log "Found shader \"%s\"\n" e)) rfl ?_ ?_
      · simp [State.emit]
      · simp only [input_init_calls, List.filter_append] at hlog ⊢
        rw [hlog]; rfl

theorem prepare_quiet (b : Build) (p : Platform) (h : Host) (g : settings_t) (s s0 : State)
    (hprep : init_video_input.prepare b p h g s = .ret s0) : quiet_step s s0 := by
  unfold init_video_input.prepare at hprep
  have qs : ∀ t, quiet_step t (if b.HAVE_XML = true then init_shader_dir h g t else t) := by
    intro t
    split_ifs
    · exact init_shader_dir_quiet h g t
    · exact quiet_step_refl t
  by_cases hf : b.HAVE_FILTER = true
  · simp only [hf, if_true] at hprep
    have qf := init_filter_quiet p h g s
    cases ho : init_filter p h g s with
    | ret s1 =>
      rw [ho] at hprep qf
      simp only [Outcome.ret.injEq] at hprep
      rw [← hprep]
      exact quiet_step_trans _ _ _ qf (qs s1)
    | exit c s1 => simp [ho] at hprep
    | assert_fail a s1 => simp [ho] at hprep
    | undefined s1 => simp [ho] at hprep
  · simp only [hf, if_false, Bool.false_eq_true, Outcome.ret.injEq] at hprep
    rw [← hprep]
    exact qs s

theorem open_video_spec (g : settings_t) (v : video_driver_t) (s : State) :
    (init_video_input.open_video g v s).driver
      = { s.driver with
          video_data := (init_video_input.video_result g v s).1,
          input := (init_video_input.video_result g v s).2.1,
          input_data := (init_video_input.video_result g v s).2.2 }
    ∧ (init_video_input.open_video g v s).g_ext = s.g_ext
    ∧ (init_video_input.open_video g v s).trace
      = s.trace ++ [.video_init v.ident (init_video_input.video_info g s)] :=
  ⟨rfl, rfl, rfl⟩

theorem open_exit_of_no_video (g : settings_t) (v : video_driver_t) (s : State)
    (h0 : (init_video_input.video_result g v s).1 = 0) :
    ∃ s1, init_video_input.open g v s = .exit 1 s1 := by
  unfold init_video_input.open
  have hvd : (init_video_input.open_video g v s).driver.video_data = 0 := by
    rw [(open_video_spec g v s).1]; exact h0
  dsimp only
  rw [if_pos hvd]
  exact ⟨_, rfl⟩

theorem open_ret_of_supplied (g : settings_t) (v : video_driver_t) (s : State)
    (d : input_driver_t) (h0 : (init_video_input.video_result g v s).1 ≠ 0)
    (hd : (init_video_input.video_result g v s).2.1 = some d) :
    init_video_input.open g v s = .ret (init_video_input.open_video g v s) := by
  unfold init_video_input.open
  have hvd : (init_video_input.open_video g v s).driver.video_data ≠ 0 := by
    rw [(open_video_spec g v s).1]; exact h0
  have hin : (init_video_input.open_video g v s).driver.input = some d := by
    rw [(open_video_spec g v s).1]; exact hd
  simp only [hvd, if_false, init_video_input.fallback_input, hin]

theorem open_fallback (g : settings_t) (v : video_driver_t) (s : State)
    (cfg : input_driver_t) (hcfg : s.driver.input = some cfg)
    (h0 : (init_video_input.video_result g v s).1 ≠ 0)
    (hd : (init_video_input.video_result g v s).2.1 = none) :
    (cfg.init = 0 → ∃ s1, init_video_input.open g v s = .exit 1 s1)
    ∧ (cfg.init ≠ 0 → ∃ s1, init_video_input.open g v s = .ret s1
        ∧ s1.driver
          = { s.driver with
              video_data := (init_video_input.video_result g v s).1,
              input := some cfg,
              input_data := cfg.init }
        ∧ s1.g_ext = s.g_ext
        ∧ s1.trace
          = s.trace ++ [.video_init v.ident (init_video_input.video_info g s),
              .input_init cfg.ident]) := by
  unfold init_video_input.open
  have hvd : (init_video_input.open_video g v s).driver.video_data ≠ 0 := by
    rw [(open_video_spec g v s).1]; exact h0
  have hin : (init_video_input.open_video g v s).driver.input = none := by
    rw [(open_video_spec g v s).1]; exact hd
  simp only [hvd, if_false, init_video_input.fallback_input, hin, hcfg]
  constructor
  · intro hz
    rw [if_pos hz]
    exact ⟨_, rfl⟩
  · intro hz
    rw [if_neg hz]
    refine ⟨_, rfl, ?_, rfl, ?_⟩
    · simp only [State.emit, (open_video_spec g v s).1]
    · simp only [State.emit, (open_video_spec g v s).2.2, List.append_assoc,
        List.singleton_append]

theorem find_video_driver_ret (V : List video_driver_t) (g : settings_t) (s s1 : State)
    (h : find_video_driver V g s = .ret s1) :
    ∃ v, s1 = { s with driver.video := some v } := by
  unfold find_video_driver at h
  cases hf : V.find? (fun d => decide (strcasecmp g.video.driver d.ident = 0)) with
  | none => simp [hf] at h
  | some d =>
    simp only [hf, Outcome.ret.injEq] at h
    exact ⟨d, h.symm⟩

theorem find_input_driver_ret (I : List input_driver_t) (V : List video_driver_t)
    (g : settings_t) (s s1 : State) (h : find_input_driver I V g s = .ret s1) :
    ∃ cfg, s1 = { s with driver.input := some cfg } := by
  unfold find_input_driver at h
  cases hf : I.find? (fun d => decide (strcasecmp g.input.driver d.ident = 0)) with
  | none =>
    simp only [hf] at h
    cases hr : read_each V (List.range I.length) with
    | none => simp [hr] at h
    | some ds => simp [hr] at h
  | some d =>
    simp only [hf, Outcome.ret.injEq] at h
    exact ⟨d, h.symm⟩

theorem init_video_input_resolved (b : Build) (p : Platform) (h : Host) (g : settings_t)
    (s s0 : State) (v : video_driver_t) (cfg : input_driver_t)
    (hprep : init_video_input.prepare b p h g s = .ret s0)
    (hv : find_video_driver (video_drivers b) g s0 = .ret { s0 with driver.video := some v })
    (hi : find_input_driver (input_drivers b) (video_drivers b) g
        { s0 with driver.video := some v }
      = .ret { s0 with driver.video := some v, driver.input := some cfg }) :
    init_video_input b p h g s
      = init_video_input.open g v
          { s0 with driver.video := some v, driver.input := some cfg } := by
  unfold init_video_input
  simp only [hprep, hv, hi]

theorem init_video_input_ret_resolved (b : Build) (p : Platform) (h : Host) (g : settings_t)
    (s s1 : State) (hret : init_video_input b p h g s = .ret s1) :
    ∃ s0 v cfg, init_video_input.prepare b p h g s = .ret s0
      ∧ find_video_driver (video_drivers b) g s0 = .ret { s0 with driver.video := some v }
      ∧ find_input_driver (input_drivers b) (video_drivers b) g
          { s0 with driver.video := some v }
        = .ret { s0 with driver.video := some v, driver.input := some cfg } := by
  unfold init_video_input at hret
  cases hp : init_video_input.prepare b p h g s with
  | ret s0 =>
    simp only [hp] at hret
    cases hv : find_video_driver (video_drivers b) g s0 with
    | ret sv =>
      obtain ⟨v, hsv⟩ := find_video_driver_ret _ g s0 sv hv
      subst hsv
      simp only [hv] at hret
      cases hi : find_input_driver (input_drivers b) (video_drivers b) g
          { s0 with driver.video := some v } with
      | ret si =>
        obtain ⟨cfg, hsi⟩ := find_input_driver_ret _ _ g _ si hi
        subst hsi
        exact ⟨s0, v, cfg, rfl, hv, hi⟩
      | exit c si => simp [hi] at hret
      | assert_fail a si => simp [hi] at hret
      | undefined si => simp [hi] at hret
    | exit c sv => simp [hv] at hret
    | assert_fail a sv => simp [hv] at hret
    | undefined sv => simp [hv] at hret
  | exit c s0 => simp [hp] at hret
  | assert_fail a s0 => simp [hp] at hret
  | undefined s0 => simp [hp] at hret

/-! ## Video and input bring-up and teardown -/

/-- C13, as stated, fails: in a build with `HAVE_FILTER`, with resolvable
video and input names and a video backend whose `init` would return an
instance, `init_video_input` neither returns nor leaves through `exit(1)`
when `malloc` gives `NULL` for the filter's pixel buffer; it stops at the
assertion of line 262 before the video backend is opened. -/
theorem init_video_input_filter_assert :
    find_video_driver (video_drivers filter_build) filter_settings state0
      = .ret { state0 with driver.video := some (mk_video (lit "sdl")) }
    ∧ find_input_driver (input_drivers filter_build) (video_drivers filter_build)
        filter_settings { state0 with driver.video := some (mk_video (lit "sdl")) }
      = .ret { state0 with
               driver.video := some (mk_video (lit "sdl")),
               driver.input := some (mk_input (lit "sdl")) }
    ∧ (init_video_input.video_result filter_settings (mk_video (lit "sdl"))
        { state0 with
          driver.video := some (mk_video (lit "sdl")),
          driver.input := some (mk_input (lit "sdl")) }).1 = 0x3000
    ∧ (∃ s1, init_video_input filter_build platform_oom host64 filter_settings state0
        = .assert_fail .filter_buffer s1)
    ∧ ¬ (init_video_input filter_build platform_oom host64 filter_settings state0).returns
    ∧ ∀ c s1, init_video_input filter_build platform_oom host64 filter_settings state0
        ≠ .exit c s1 :=
  ⟨rfl, rfl, rfl, ⟨_, rfl⟩, fun hr => hr, fun _ _ hne => Outcome.noConfusion hne⟩

/-- C13 (amended): when the filter and shader set-up of lines 322 to 328
returns (it does not stop at an allocation assertion) and the configured
video and input names resolve, `init_video_input` leaves through `exit(1)`
if the video backend's `init` returns no instance, and if that `init` leaves
no input backend and the configured input backend's `init` returns no
instance; in every other case it returns. -/
theorem init_video_input_fatal_or_returns (b : Build) (p : Platform) (h : Host)
    (g : settings_t) (s s0 : State) (v : video_driver_t) (cfg : input_driver_t)
    (hprep : init_video_input.prepare b p h g s = .ret s0)
    (hv : find_video_driver (video_drivers b) g s0 = .ret { s0 with driver.video := some v })
    (hi : find_input_driver (input_drivers b) (video_drivers b) g
        { s0 with driver.video := some v }
      = .ret { s0 with driver.video := some v, driver.input := some cfg }) :
    ((init_video_input.video_result g v
          { s0 with driver.video := some v, driver.input := some cfg }).1 = 0 →
        ∃ s1, init_video_input b p h g s = .exit 1 s1)
    ∧ ((init_video_input.video_result g v
          { s0 with driver.video := some v, driver.input := some cfg }).1 ≠ 0 →
        (init_video_input.video_result g v
          { s0 with driver.video := some v, driver.input := some cfg }).2.1 = none →
        cfg.init = 0 →
        ∃ s1, init_video_input b p h g s = .exit 1 s1)
    ∧ ((init_video_input.video_result g v
          { s0 with driver.video := some v, driver.input := some cfg }).1 ≠ 0 →
        ((init_video_input.video_result g v
            { s0 with driver.video := some v, driver.input := some cfg }).2.1 ≠ none
          ∨ cfg.init ≠ 0) →
        ∃ s1, init_video_input b p h g s = .ret s1) := by
  rw [init_video_input_resolved b p h g s s0 v cfg hprep hv hi]
  refine ⟨fun h0 => open_exit_of_no_video g v _ h0, fun h0 hn hz => ?_, fun h0 hor => ?_⟩
  · exact (open_fallback g v _ cfg rfl h0 hn).1 hz
  · cases hr : (init_video_input.video_result g v
        { s0 with driver.video := some v, driver.input := some cfg }).2.1 with
    | some d => exact ⟨_, open_ret_of_supplied g v _ d h0 hr⟩
    | none =>
      rcases hor with hne | hz
      · exact absurd hr hne
      · obtain ⟨s1, hs1, -⟩ := (open_fallback g v _ cfg rfl h0 hr).2 hz
        exact ⟨s1, hs1⟩

/-- On the SDL-only build the names resolve and the call returns through the
fallback input backend; with a video backend that returns no instance it
leaves through `exit(1)`. -/
theorem init_video_input_fatal_or_returns_witness :
    (init_video_input.prepare sdl_build platform32 host64 (settings_named (lit "sdl")) state0
        = .ret state0
      ∧ ∃ s1, init_video_input sdl_build platform32 host64 (settings_named (lit "sdl")) state0
          = .ret s1)
    ∧ (init_video_input.prepare no_video_build platform32 host64 (settings_named (lit "sdl"))
          state0 = .ret state0
      ∧ ∃ s1, init_video_input no_video_build platform32 host64 (settings_named (lit "sdl"))
          state0 = .exit 1 s1) :=
  ⟨⟨rfl,
      (init_video_input_fatal_or_returns sdl_build platform32 host64
        (settings_named (lit "sdl")) state0 state0 (mk_video (lit "sdl"))
        (mk_input (lit "sdl")) rfl rfl rfl).2.2 (by decide) (Or.inr (by decide))⟩,
    ⟨rfl,
      (init_video_input_fatal_or_returns no_video_build platform32 host64
        (settings_named (lit "sdl")) state0 state0 no_video_build.video_sdl
        (mk_input (lit "sdl")) rfl rfl rfl).1 rfl⟩⟩

/-- C14: after `init_video_input` returns, with `cfg` the descriptor resolved
from the configured input name: if the video backend's `init` left an input
backend in `driver.input`, then `driver.input` and `driver.input_data` are
the pair it left and no input backend's `init` was called; if it left `NULL`,
then `driver.input` is `cfg`, `driver.input_data` is the non-null result of
`cfg`'s `init`, and that `init` is the only input `init` called, once. -/
theorem init_video_input_input_backend (b : Build) (p : Platform) (h : Host)
    (g : settings_t) (s s1 : State) (hret : init_video_input b p h g s = .ret s1) :
    ∃ s0 v cfg,
      (init_video_input.prepare b p h g s = .ret s0
        ∧ find_video_driver (video_drivers b) g s0
          = .ret { s0 with driver.video := some v }
        ∧ find_input_driver (input_drivers b) (video_drivers b) g
            { s0 with driver.video := some v }
          = .ret { s0 with driver.video := some v, driver.input := some cfg })
      ∧ (s1.driver.video = some v
        ∧ s1.driver.video_data
          = (init_video_input.video_result g v
              { s0 with driver.video := some v, driver.input := some cfg }).1
        ∧ s1.driver.video_data ≠ 0)
      ∧ (∀ d, (init_video_input.video_result g v
            { s0 with driver.video := some v, driver.input := some cfg }).2.1 = some d →
          s1.driver.input = some d
          ∧ s1.driver.input_data
            = (init_video_input.video_result g v
                { s0 with driver.video := some v, driver.input := some cfg }).2.2
          ∧ input_init_calls (s1.trace.drop s.trace.length) = [])
      ∧ ((init_video_input.video_result g v
            { s0 with driver.video := some v, driver.input := some cfg }).2.1 = none →
          s1.driver.input = some cfg
          ∧ s1.driver.input_data = cfg.init
          ∧ s1.driver.input_data ≠ 0
          ∧ input_init_calls (s1.trace.drop s.trace.length) = [.input_init cfg.ident]) := by
  obtain ⟨s0, v, cfg, hprep, hv, hi⟩ := init_video_input_ret_resolved b p h g s s1 hret
  obtain ⟨-, ev, hev, hq⟩ := prepare_quiet b p h g s s0 hprep
  rw [init_video_input_resolved b p h g s s0 v cfg hprep hv hi] at hret
  have h0 : (init_video_input.video_result g v
      { s0 with driver.video := some v, driver.input := some cfg }).1 ≠ 0 := by
    intro hz
    obtain ⟨s2, hs2⟩ := open_exit_of_no_video g v _ hz
    rw [hs2] at hret
    exact Outcome.noConfusion hret
  have hfilter : ∀ l : List Event, input_init_calls (ev ++ l) = input_init_calls l := by
    intro l
    simp only [input_init_calls, List.filter_append] at hq ⊢
    rw [hq]; rfl
  refine ⟨s0, v, cfg, ⟨hprep, hv, hi⟩, ?_, ?_, ?_⟩
  · cases hr : (init_video_input.video_result g v
        { s0 with driver.video := some v, driver.input := some cfg }).2.1 with
    | some d =>
      rw [open_ret_of_supplied g v _ d h0 hr, Outcome.ret.injEq] at hret
      subst hret
      exact ⟨rfl, rfl, h0⟩
    | none =>
      by_cases hz : cfg.init = 0
      · obtain ⟨s2, hs2⟩ := (open_fallback g v _ cfg rfl h0 hr).1 hz
        rw [hs2] at hret
        exact Outcome.noConfusion hret
      · obtain ⟨s2, hs2, hd2, -, -⟩ := (open_fallback g v _ cfg rfl h0 hr).2 hz
        rw [hs2, Outcome.ret.injEq] at hret
        subst hret
        rw [hd2]
        exact ⟨rfl, rfl, h0⟩
  · intro d hr
    rw [open_ret_of_supplied g v _ d h0 hr, Outcome.ret.injEq] at hret
    subst hret
    refine ⟨hr, rfl, ?_⟩
    rw [(open_video_spec g v _).2.2]
    change input_init_calls ((s0.trace ++ _).drop s.trace.length) = []
    rw [hev, List.append_assoc, List.drop_left, hfilter]
    rfl
  · intro hr
    by_cases hz : cfg.init = 0
    · obtain ⟨s2, hs2⟩ := (open_fallback g v _ cfg rfl h0 hr).1 hz
      rw [hs2] at hret
      exact Outcome.noConfusion hret
    · obtain ⟨s2, hs2, hd2, -, ht2⟩ := (open_fallback g v _ cfg rfl h0 hr).2 hz
      rw [hs2, Outcome.ret.injEq] at hret
      subst hret
      rw [hd2, ht2]
      refine ⟨rfl, rfl, hz, ?_⟩
      change input_init_calls ((s0.trace ++ _).drop s.trace.length) = _
      rw [hev, List.append_assoc, List.drop_left, hfilter]
      rfl

/-- On the SDL-only build the video backend leaves no input backend, and the
configured `"sdl"` input backend is initialised once, giving `0x4000`; on the
build whose video backend brings its own input backend, that pair is kept
and no input `init` is called. -/
theorem init_video_input_input_backend_witness :
    (init_video_input supplying_build platform32 host64 (settings_named (lit "sdl")) state0
        = .ret (init_video_input supplying_build platform32 host64
            (settings_named (lit "sdl")) state0).state
      ∧ (init_video_input supplying_build platform32 host64 (settings_named (lit "sdl"))
          state0).state.driver.input = some own_input
      ∧ (init_video_input supplying_build platform32 host64 (settings_named (lit "sdl"))
          state0).state.driver.input_data = 0x3000
      ∧ input_init_calls
          ((init_video_input supplying_build platform32 host64 (settings_named (lit "sdl"))
            state0).state.trace.drop state0.trace.length) = [])
    ∧ init_video_input sdl_build platform32 host64 (settings_named (lit "sdl")) state0
      = .ret (init_video_input sdl_build platform32 host64 (settings_named (lit "sdl"))
          state0).state
    ∧ (init_video_input sdl_build platform32 host64 (settings_named (lit "sdl"))
        state0).state.driver.input = some (mk_input (lit "sdl"))
    ∧ (init_video_input sdl_build platform32 host64 (settings_named (lit "sdl"))
        state0).state.driver.input_data = (mk_input (lit "sdl")).init
    ∧ (init_video_input sdl_build platform32 host64 (settings_named (lit "sdl"))
        state0).state.driver.input_data ≠ 0
    ∧ input_init_calls
        ((init_video_input sdl_build platform32 host64 (settings_named (lit "sdl"))
          state0).state.trace.drop state0.trace.length)
      = [.input_init (mk_input (lit "sdl")).ident] :=
  ⟨⟨rfl, by
      obtain ⟨s0, v, cfg, ⟨hp, hv, hi⟩, -, hsup, -⟩ :=
        init_video_input_input_backend supplying_build platform32 host64
          (settings_named (lit "sdl")) state0 _ rfl
      have e0 : state0 = s0 := Outcome.ret.inj hp
      subst e0
      have e1 : supplying_build.video_sdl = v :=
        Option.some.inj (congrArg (fun t => t.driver.video) (Outcome.ret.inj hv))
      subst e1
      have e2 : mk_input (lit "sdl") = cfg :=
        Option.some.inj (congrArg (fun t => t.driver.input) (Outcome.ret.inj hi))
      subst e2
      exact hsup own_input rfl⟩,
    rfl, by
    obtain ⟨s0, v, cfg, ⟨hp, hv, hi⟩, -, -, hfall⟩ :=
      init_video_input_input_backend sdl_build platform32 host64
        (settings_named (lit "sdl")) state0 _ rfl
    have e0 : state0 = s0 := Outcome.ret.inj hp
    subst e0
    have e1 : mk_video (lit "sdl") = v :=
      Option.some.inj (congrArg (fun t => t.driver.video) (Outcome.ret.inj hv))
    subst e1
    have e2 : mk_input (lit "sdl") = cfg :=
      Option.some.inj (congrArg (fun t => t.driver.input) (Outcome.ret.inj hi))
    subst e2
    exact hfall rfl⟩

/-! ## Sample quantization -/

theorem round_scaled_bounds (v : ℚ) (hlo : -1 ≤ v) (hhi : v ≤ 1) :
    -32768 ≤ round (v * 32768) ∧ round (v * 32768) ≤ 32768 := by
  have habs := abs_sub_round (v * 32768)
  rw [abs_le] at habs
  constructor
  · have h1 : (-32769 : ℚ) < ((round (v * 32768) : ℤ) : ℚ) := by linarith [habs.2]
    have h2 : (-32769 : ℤ) < round (v * 32768) := by exact_mod_cast h1
    omega
  · have h1 : ((round (v * 32768) : ℤ) : ℚ) < 32769 := by linarith [habs.1]
    have h2 : round (v * 32768) < (32769 : ℤ) := by exact_mod_cast h1
    omega

/-- C18: for a sample `v` in `[-1, 1]`, the quantized value lies in
`[-32768, 32767]`, it is the nearest integer to `v * 32768` whenever that
integer is in range (and the clamped bound otherwise), and converting it back
gives a sample within `1/32768` of `v`. -/
theorem quantize_round_trip (v : ℚ) (hlo : -1 ≤ v) (hhi : v ≤ 1) :
    (-32768 ≤ quantize v ∧ quantize v ≤ 32767)
    ∧ (round (v * 32768) ≤ 32767 →
        quantize v = round (v * 32768) ∧ |v * 32768 - (quantize v : ℚ)| ≤ 1 / 2)
    ∧ (32767 < round (v * 32768) → quantize v = 32767)
    ∧ |v - dequantize (quantize v)| ≤ 1 / 32768 := by
  obtain ⟨hr1, hr2⟩ := round_scaled_bounds v hlo hhi
  have habs := abs_sub_round (v * 32768)
  have hrange : -32768 ≤ quantize v ∧ quantize v ≤ 32767 := by
    unfold quantize
    constructor
    · exact le_max_left _ _
    · exact max_le (by norm_num) (min_le_left _ _)
  have hin : round (v * 32768) ≤ 32767 → quantize v = round (v * 32768) := by
    intro hle
    unfold quantize
    rw [min_eq_right hle, max_eq_right hr1]
  have hout : 32767 < round (v * 32768) → quantize v = 32767 := by
    intro hlt
    unfold quantize
    rw [min_eq_left (le_of_lt hlt)]
    norm_num
  refine ⟨hrange, fun hle => ⟨hin hle, by rw [hin hle]; exact habs⟩, hout, ?_⟩
  unfold dequantize
  rw [abs_le] at habs ⊢
  by_cases hle : round (v * 32768) ≤ 32767
  · rw [hin hle]
    constructor
    · have := habs.1
      have e : v - ((round (v * 32768) : ℤ) : ℚ) / 32768
          = (v * 32768 - ((round (v * 32768) : ℤ) : ℚ)) / 32768 := by ring
      rw [e, le_div_iff₀ (by norm_num)]
      linarith
    · have := habs.2
      have e : v - ((round (v * 32768) : ℤ) : ℚ) / 32768
          = (v * 32768 - ((round (v * 32768) : ℤ) : ℚ)) / 32768 := by ring
      rw [e, div_le_iff₀ (by norm_num)]
      linarith
  · have hq : quantize v = 32767 := hout (by omega)
    have hreq : round (v * 32768) = 32768 := by omega
    rw [hq]
    rw [hreq] at habs
    push_cast at habs ⊢
    constructor <;> linarith [habs.1, habs.2]

/-- The full-scale sample `1` is clamped to `32767` and comes back as
`32767/32768`, exactly `1/32768` away. -/
theorem quantize_round_trip_witness :
    (-1 : ℚ) ≤ 1 ∧ (1 : ℚ) ≤ 1
    ∧ quantize 1 = 32767
    ∧ |(1 : ℚ) - dequantize (quantize 1)| ≤ 1 / 32768 :=
  ⟨by norm_num, le_refl _,
    (quantize_round_trip 1 (by norm_num) (le_refl _)).2.2.1
      (by rw [one_mul, round_ofNat]; norm_num),
    (quantize_round_trip 1 (by norm_num) (le_refl _)).2.2.2⟩

/-! ## The audio pipeline: the backend call and the active flag -/

theorem allocate_state_keeps (p : Platform) (g : settings_t) (s : State) :
    (init_audio.allocate p g s).state.g_ext.audio_active = s.g_ext.audio_active
    ∧ (init_audio.allocate p g s).state.driver = s.driver := by
  unfold init_audio.allocate
  dsimp only
  split_ifs <;> exact ⟨rfl, rfl⟩

theorem find_audio_driver_state_active (A : List audio_driver_t) (g : settings_t)
    (s : State) :
    (find_audio_driver A g s).state.g_ext.audio_active = s.g_ext.audio_active := by
  unfold find_audio_driver
  cases A.find? (fun d => decide (strcasecmp g.audio.driver d.ident = 0)) <;> rfl

theorem init_audio_active_of_active (p : Platform) (A : List audio_driver_t)
    (g : settings_t) (s : State)
    (h : (init_audio p A g s).state.g_ext.audio_active = true) :
    s.g_ext.audio_active = true := by
  by_cases hen : g.audio.enable = true
  · rw [init_audio_enabled p A g s hen] at h
    cases hf : A.find? (fun d => decide (strcasecmp g.audio.driver d.ident = 0)) with
    | none =>
      rw [hf] at h
      simp only [] at h
      rw [find_audio_driver_state_active] at h
      exact h
    | some d =>
      rw [hf] at h
      simp only [] at h
      rw [(allocate_state_keeps p g _).1, (before_allocate_spec p g d _).2.1] at h
      simp only [Bool.and_eq_true] at h
      exact h.1.1
  · simp [init_audio, hen, Outcome.state] at h

theorem audio_init_calls_append (t u : List Event) :
    audio_init_calls (t ++ u) = audio_init_calls t ++ audio_init_calls u := by
  simp [audio_init_calls]

theorem device_none_iff (g : settings_t) :
    init_audio.device g = if c_str g.audio.device = [] then none else some g.audio.device := by
  unfold init_audio.device strlen
  by_cases h : c_str g.audio.device = []
  · simp [h]
  · simp [h]

/-- C25: `init_audio` never turns audio on.  For every platform, registry,
configuration and state, and whether the call returns, leaves through `exit`
or stops at an assertion: if `g_extern.audio_active` is true in the state the
call ends in, it was true before the call; so from a state with
`audio_active = false` the call ends with `audio_active = false`, whatever
the backend's `init` returned. -/
theorem init_audio_never_activates (p : Platform) (A : List audio_driver_t)
    (g : settings_t) (s : State) :
    ((init_audio p A g s).state.g_ext.audio_active = true → s.g_ext.audio_active = true)
    ∧ (s.g_ext.audio_active = false →
        (init_audio p A g s).state.g_ext.audio_active = false) := by
  refine ⟨init_audio_active_of_active p A g s, fun hoff => ?_⟩
  cases hafter : (init_audio p A g s).state.g_ext.audio_active with
  | false => rfl
  | true =>
    rw [init_audio_active_of_active p A g s hafter] at hoff
    exact absurd hoff (by simp)

/-- On the SDL-only build, from a state with audio marked inactive, the
backend's `init` gives the instance `0x1000`, the call returns, and audio is
still marked inactive. -/
theorem init_audio_never_activates_witness :
    inactive_state.g_ext.audio_active = false
    ∧ (init_audio platform32 (audio_drivers sdl_build) (settings_named (lit "sdl"))
        inactive_state).returns
    ∧ (init_audio platform32 (audio_drivers sdl_build) (settings_named (lit "sdl"))
        inactive_state).state.driver.audio_data = 0x1000
    ∧ (init_audio platform32 (audio_drivers sdl_build) (settings_named (lit "sdl"))
        inactive_state).state.g_ext.audio_active = false :=
  ⟨rfl, trivial, rfl,
    (init_audio_never_activates platform32 (audio_drivers sdl_build)
      (settings_named (lit "sdl")) inactive_state).2 rfl⟩

/-- C24: with audio enabled and the configured name resolved to the backend
`d`, `init_audio` calls a backend `init` exactly once, whether or not it goes
on to return: the call is to `d`, its device argument is `NULL` when the
configured device is the empty string and the configured device otherwise,
its rate and latency arguments are the configured `out_rate` and `latency`,
and `driver.audio_data` is what `d`'s `init` gives for these arguments. -/
theorem init_audio_device_argument (p : Platform) (A : List audio_driver_t)
    (g : settings_t) (s : State) (d : audio_driver_t) (henable : g.audio.enable = true)
    (hres : find_audio_driver A g s = .ret { s with driver.audio := some d }) :
    audio_init_calls ((init_audio p A g s).state.trace.drop s.trace.length)
      = [.audio_init d.ident
          (if c_str g.audio.device = [] then none else some g.audio.device)
          g.audio.out_rate g.audio.latency]
    ∧ (init_audio p A g s).state.driver.audio_data
      = d.init (if c_str g.audio.device = [] then none else some g.audio.device)
          g.audio.out_rate g.audio.latency := by
  constructor
  · obtain ⟨ms, hpre, ht⟩ := init_audio_state_trace p A g s d henable hres
    have hms : audio_init_calls ms = [] := by
      obtain ⟨r, hr⟩ := hpre
      match ms, hr with
      | [], _ => rfl
      | [a], hr =>
        simp only [List.cons_append, List.nil_append, List.cons.injEq] at hr
        rw [hr.1]; rfl
      | [a, b], hr =>
        simp only [List.cons_append, List.nil_append, List.cons.injEq] at hr
        rw [hr.1, hr.2.1]; rfl
      | [a, b, c], hr =>
        simp only [List.cons_append, List.nil_append, List.cons.injEq] at hr
        rw [hr.1, hr.2.1, hr.2.2.1]; rfl
      | a :: b :: c :: e :: l, hr => simp at hr
    rw [ht]
    simp only [List.append_assoc, List.drop_left, audio_init_calls_append, hms,
      device_none_iff]
    split_ifs <;> rfl
  · rw [init_audio_enabled p A g s henable, find_audio_driver_ret A g s d hres]
    simp only []
    rw [(allocate_state_keeps p g _).2, (before_allocate_spec p g d _).1]
    simp only [init_audio.backend_instance, device_none_iff]

/-- On the SDL-only build: with the device `"hw:0"` configured the one `init`
call carries that name, and with the empty device it carries `NULL`; the rate
is 48000 and the latency 64 in both. -/
theorem init_audio_device_argument_witness :
    (device_settings.audio.enable = true
      ∧ audio_init_calls
          (init_audio platform32 (audio_drivers sdl_build) device_settings state0).state.trace
        = [.audio_init (lit "sdl") (some (lit "hw:0")) 48000 64])
    ∧ audio_init_calls
        (init_audio platform32 (audio_drivers sdl_build) (settings_named (lit "sdl"))
          state0).state.trace
      = [.audio_init (lit "sdl") none 48000 64] :=
  ⟨⟨rfl, (init_audio_device_argument platform32 (audio_drivers sdl_build) device_settings
      state0 (mk_audio (lit "sdl") 0x1000 none) rfl rfl).1⟩,
    (init_audio_device_argument platform32 (audio_drivers sdl_build)
      (settings_named (lit "sdl")) state0 (mk_audio (lit "sdl") 0x1000 none) rfl rfl).1⟩

/-! ## The image filter: teardown, channel expansion, colormap inversion -/

theorem spec_rep_eq (v : Nat) (hv : v < 32) : spec_rep v = 8 * v + v / 4 := by
  unfold spec_rep
  have h : v >>> 2 < 2 ^ 3 := by rw [Nat.shiftRight_eq_div_pow]; omega
  rw [Nat.shiftLeft_eq, Nat.mul_comm, ← Nat.mul_add_lt_is_or h, Nat.shiftRight_eq_div_pow]

theorem and_31_eq_mod (x : Nat) : x &&& 31 = x % 32 := by
  simpa using Nat.and_pow_two_sub_one_eq_mod x 5

theorem packed_eq_add (r g b : Nat) (hg : g < 256) (hb : b < 256) :
    r <<< 24 ||| g <<< 16 ||| b <<< 8 = r * 16777216 + g * 65536 + b * 256 := by
  have h1 : g <<< 16 < 2 ^ 24 := by rw [Nat.shiftLeft_eq]; omega
  have h2 : b <<< 8 < 2 ^ 16 := by rw [Nat.shiftLeft_eq]; omega
  have e1 : r <<< 24 ||| g <<< 16 = 2 ^ 16 * (r * 256 + g) := by
    rw [Nat.shiftLeft_eq r, Nat.mul_comm r, ← Nat.mul_add_lt_is_or h1, Nat.shiftLeft_eq]
    omega
  rw [e1, ← Nat.mul_add_lt_is_or h2, Nat.shiftLeft_eq]
  omega

theorem index_eq_add (r g b : Nat) (hg : g < 32) (hb : b < 32) :
    r <<< 10 ||| g <<< 5 ||| b = r * 1024 + g * 32 + b := by
  have h1 : g <<< 5 < 2 ^ 10 := by rw [Nat.shiftLeft_eq]; omega
  have h2 : b < 2 ^ 5 := by omega
  have e1 : r <<< 10 ||| g <<< 5 = 2 ^ 5 * (r * 32 + g) := by
    rw [Nat.shiftLeft_eq r, Nat.mul_comm r, ← Nat.mul_add_lt_is_or h1, Nat.shiftLeft_eq]
    omega
  rw [e1, ← Nat.mul_add_lt_is_or h2]
  omega

theorem colormap_entry_arith (i : Nat) :
    init_filter.colormap_entry i
      = (8 * (i / 1024 % 32) + i / 1024 % 32 / 4) * 16777216
        + (8 * (i / 32 % 32) + i / 32 % 32 / 4) * 65536
        + (8 * (i % 32) + i % 32 / 4) * 256 := by
  rw [colormap_entry_eq_spec]
  unfold spec_colormap_entry
  rw [packed_eq_add _ _ _ (spec_rep_lt _ (channel_lt _)) (spec_rep_lt _ (channel_lt _)),
    spec_rep_eq _ (channel_lt _), spec_rep_eq _ (channel_lt _), spec_rep_eq _ (channel_lt _)]
  simp only [and_31_eq_mod, Nat.shiftRight_eq_div_pow]

theorem div_of_split (x k n rest : Nat) (hn : 0 < n) (hx : x = n * k + rest) (hr : rest < n) :
    x / n = k := by
  rw [hx, Nat.mul_add_div hn, Nat.div_eq_of_lt hr, Nat.add_zero]

theorem packed_channels (r g b : Nat) (hr : r < 32) (hg : g < 32) (hb : b < 32) :
    ((8 * r + r / 4) * 16777216 + (8 * g + g / 4) * 65536 + (8 * b + b / 4) * 256)
        / 2 ^ 27 % 32 = r
    ∧ ((8 * r + r / 4) * 16777216 + (8 * g + g / 4) * 65536 + (8 * b + b / 4) * 256)
        / 2 ^ 19 % 32 = g
    ∧ ((8 * r + r / 4) * 16777216 + (8 * g + g / 4) * 65536 + (8 * b + b / 4) * 256)
        / 2 ^ 11 % 32 = b := by
  have h1 := div_of_split
    ((8 * r + r / 4) * 16777216 + (8 * g + g / 4) * 65536 + (8 * b + b / 4) * 256) r (2 ^ 27)
    (r / 4 * 16777216 + (8 * g + g / 4) * 65536 + (8 * b + b / 4) * 256)
    (by decide) (by omega) (by omega)
  have h2 := div_of_split
    ((8 * r + r / 4) * 16777216 + (8 * g + g / 4) * 65536 + (8 * b + b / 4) * 256)
    ((8 * r + r / 4) * 32 + g) (2 ^ 19)
    (g / 4 * 65536 + (8 * b + b / 4) * 256)
    (by decide) (by omega) (by omega)
  have h3 := div_of_split
    ((8 * r + r / 4) * 16777216 + (8 * g + g / 4) * 65536 + (8 * b + b / 4) * 256)
    ((8 * r + r / 4) * 8192 + (8 * g + g / 4) * 32 + b) (2 ^ 11)
    (b / 4 * 256)
    (by decide) (by omega) (by omega)
  rw [h1, h2, h3]
  refine ⟨?_, ?_, ?_⟩ <;> omega

theorem colormap_decode (i : Nat) (hi : i < 32768) :
    (((init_filter.colormap_entry i >>> 27) &&& 31) <<< 10)
        ||| (((init_filter.colormap_entry i >>> 19) &&& 31) <<< 5)
        ||| ((init_filter.colormap_entry i >>> 11) &&& 31) = i := by
  rw [index_eq_add _ _ _ (channel_lt _) (channel_lt _), colormap_entry_arith]
  simp only [and_31_eq_mod, Nat.shiftRight_eq_div_pow]
  have key : i / 1024 % 32 * 1024 + i / 32 % 32 * 32 + i % 32 = i := by omega
  obtain ⟨er, eg, eb⟩ := packed_channels (i / 1024 % 32) (i / 32 % 32) (i % 32)
    (Nat.mod_lt _ (by decide)) (Nat.mod_lt _ (by decide)) (Nat.mod_lt _ (by decide))
  rw [er, eg, eb]
  exact key

theorem colormap_table_getElem? (i c : Nat) (hc : init_filter.colormap_table[i]? = some c) :
    i < 32768 ∧ c = init_filter.colormap_entry i := by
  have hlt : i < init_filter.colormap_table.length := by
    by_contra hge
    rw [List.getElem?_eq_none (not_lt.mp hge)] at hc
    exact Option.noConfusion hc
  rw [colormap_table_spec.1] at hlt
  refine ⟨hlt, ?_⟩
  have h := colormap_table_spec.2 i hlt
  rw [hc, ← colormap_entry_eq_spec] at h
  exact Option.some.inj h

/-- C28: `deinit_filter` is idempotent.  After one call `filter.active` is
false; a second call leaves the state as the first one left it, the trace
included, so it makes no `dylib_close` and no `free` call; and on a state
whose filter is not active the first call already changes nothing. -/
theorem deinit_filter_idempotent (s : State) :
    (deinit_filter s).g_ext.filter.active = false
    ∧ deinit_filter (deinit_filter s) = deinit_filter s
    ∧ (deinit_filter (deinit_filter s)).trace = (deinit_filter s).trace
    ∧ (s.g_ext.filter.active = false → deinit_filter s = s) := by
  have hoff : ∀ t : State, t.g_ext.filter.active = false → deinit_filter t = t := by
    intro t ht
    unfold deinit_filter
    simp [ht]
  have h1 : (deinit_filter s).g_ext.filter.active = false := by
    rw [(deinit_filter_spec s).2.2.2.2.1]
    by_cases h : s.g_ext.filter.active = true
    · simp [h]
    · simp only [h, if_false]
      simpa using h
  exact ⟨h1, hoff _ h1, by rw [hoff _ h1], hoff s⟩

/-- After a filter was activated on the 64-bit host, the first call closes
the module and frees the two buffers; the second call adds nothing; and on
the state before anything ran the call changes nothing. -/
theorem deinit_filter_idempotent_witness :
    (init_filter platform32 host64 filter_settings state0).state.g_ext.filter.active = true
    ∧ (deinit_filter (init_filter platform32 host64 filter_settings state0).state).trace.drop
        (init_filter platform32 host64 filter_settings state0).state.trace.length
      = [.dylib_close 0x5000, .free 0x110000, .free 0x30000]
    ∧ deinit_filter (deinit_filter (init_filter platform32 host64 filter_settings state0).state)
      = deinit_filter (init_filter platform32 host64 filter_settings state0).state
    ∧ deinit_filter state0 = state0 :=
  ⟨rfl, by decide,
    (deinit_filter_idempotent (init_filter platform32 host64 filter_settings state0).state).2.1,
    (deinit_filter_idempotent state0).2.2.2 rfl⟩

/-- C30: the colormap loop expands each channel by
`rep v = (v << 3) | (v >> 2)`: entry `i` is
`(rep r << 24) | (rep g << 16) | (rep b << 8)` for the 5-bit channels `r`,
`g`, `b` of `i`.  For every 5-bit `v`, `rep v` lies in `[0, 255]` and
`rep v >> 3 = v`; `rep` is strictly increasing on `[0, 31]`, sends 0 to 0 and
31 to 255. -/
theorem channel_expansion :
    (∀ i, init_filter.colormap_entry i
        = (spec_rep ((i >>> 10) &&& 31) <<< 24) ||| (spec_rep ((i >>> 5) &&& 31) <<< 16)
          ||| (spec_rep (i &&& 31) <<< 8))
    ∧ (∀ v, v < 32 → spec_rep v ≤ 255 ∧ spec_rep v >>> 3 = v)
    ∧ (∀ v w, v < w → w < 32 → spec_rep v < spec_rep w)
    ∧ spec_rep 0 = 0
    ∧ spec_rep 31 = 255 := by
  refine ⟨fun i => colormap_entry_eq_spec i, fun v hv => ?_, fun v w hvw hw => ?_,
    by decide, by decide⟩
  · rw [spec_rep_eq v hv, Nat.shiftRight_eq_div_pow]
    omega
  · rw [spec_rep_eq v (by omega), spec_rep_eq w hw]
    omega

/-- The channel values 0, 16, 17 and 31 expand to 0, 132, 140 and 255, and
shifting these right by 3 gives the channel values back. -/
theorem channel_expansion_witness :
    (spec_rep 16 ≤ 255 ∧ spec_rep 16 >>> 3 = 16)
    ∧ spec_rep 16 < spec_rep 17
    ∧ spec_rep 16 = 132 ∧ spec_rep 17 = 140 :=
  ⟨channel_expansion.2.1 16 (by decide), channel_expansion.2.2.1 16 17 (by decide) (by decide),
    by decide, by decide⟩

/-- C29: the colormap is invertible on its domain.  If entry `i` of the table
the loop of lines 268 to 278 writes is `c`, then `i` is below 32768, `c` is
the value the loop body computes for `i`, and
`i = (((c >> 27) & 31) << 10) | (((c >> 19) & 31) << 5) | ((c >> 11) & 31)`;
hence any index whose entry is also `c` is `i`. -/
theorem colormap_invertible (i c : Nat) (hc : init_filter.colormap_table[i]? = some c) :
    i < 32768
    ∧ c = init_filter.colormap_entry i
    ∧ i = (((c >>> 27) &&& 31) <<< 10) ||| (((c >>> 19) &&& 31) <<< 5) ||| ((c >>> 11) &&& 31)
    ∧ ∀ j, init_filter.colormap_table[j]? = some c → j = i := by
  obtain ⟨hi, hci⟩ := colormap_table_getElem? i c hc
  refine ⟨hi, hci, ?_, fun j hj => ?_⟩
  · rw [hci]; exact (colormap_decode i hi).symm
  · obtain ⟨hjl, hcj⟩ := colormap_table_getElem? j c hj
    rw [← colormap_decode i hi, ← colormap_decode j hjl, ← hci, ← hcj]

/-- Entry 12345 of the colormap is `0x6308CE00`, and decoding that value gives
12345 back. -/
theorem colormap_invertible_witness :
    init_filter.colormap_table[12345]? = some 0x6308CE00
    ∧ 12345 = (((0x6308CE00 >>> 27) &&& 31) <<< 10) ||| (((0x6308CE00 >>> 19) &&& 31) <<< 5)
        ||| ((0x6308CE00 >>> 11) &&& 31) :=
  ⟨(colormap_table_spec.2 12345 (by decide)).trans (by decide),
    (colormap_invertible 12345 0x6308CE00
      ((colormap_table_spec.2 12345 (by decide)).trans (by decide))).2.2.1⟩

/-! ## The calls made by `init_video_input` -/

theorem plain_step_refl (s : State) : plain_step s s :=
  ⟨[], by simp, rfl⟩

theorem plain_step_trans (s t u : State) (h1 : plain_step s t) (h2 : plain_step t u) :
    plain_step s u := by
  obtain ⟨e1, ht1, hq1⟩ := h1
  obtain ⟨e2, ht2, hq2⟩ := h2
  refine ⟨e1 ++ e2, ?_, ?_⟩
  · rw [ht2, ht1, List.append_assoc]
  · rw [List.all_append, hq1, hq2]; rfl

theorem plain_step_of (s t : State) (ev : List Event) (ht : t.trace = s.trace ++ ev)
    (hq : ev.all plain_event = true) : plain_step s t :=
  ⟨ev, ht, hq⟩

theorem plain_no_video_init (ev : List Event) (h : ev.all plain_event = true) :
    video_init_calls ev = [] ∧ input_init_calls ev = [] ∧ cannot_find_input ∉ ev := by
  induction ev with
  | nil => exact ⟨rfl, rfl, by simp⟩
  | cons e es ih =>
    rw [List.all_cons, Bool.and_eq_true] at h
    obtain ⟨h1, h2, h3⟩ := ih h.2
    have he := h.1
    refine ⟨?_, ?_, ?_⟩
    · cases e <;> first | exact h1 | exact absurd he (by simp [plain_event])
    · cases e <;> first | exact h2 | exact absurd he (by simp [plain_event])
    · intro hmem
      rcases List.mem_cons.mp hmem with heq | hin
      · rw [← heq] at he
        exact absurd he (by decide)
      · exact h3 hin

theorem video_init_calls_append (t u : List Event) :
    video_init_calls (t ++ u) = video_init_calls t ++ video_init_calls u := by
  simp [video_init_calls]

theorem init_filter_plain (p : Platform) (h : Host) (g : settings_t) (s : State) :
    plain_step s (init_filter p h g s).state := by
  have q1 : plain_step s (init_filter.load h g s) :=
    plain_step_of _ _ _ (filter_load_spec h g s).2.2 rfl
  have q2 : ∀ t, plain_step t (init_filter.resolve h t) := fun t =>
    plain_step_of _ _ _ (filter_resolve_spec h t).2.2 rfl
  have q3 : ∀ t, plain_step t (init_filter.unload t) := fun t =>
    plain_step_of _ _ _ (filter_unload_spec t).2.2 rfl
  have q4 : ∀ t, plain_step t (init_filter.geometry p h t) := fun t =>
    plain_step_of _ _ _ (filter_geometry_spec p h t).2.2 rfl
  have q5 : ∀ t, plain_step t (init_filter.alloc_buffer p h t) := fun t =>
    plain_step_of _ _ _ (filter_alloc_buffer_spec p h t).2.2 rfl
  have q6 : ∀ t, plain_step t (init_filter.alloc_colormap p t) := fun t =>
    plain_step_of _ _ _ (filter_alloc_colormap_spec p t).2.2 rfl
  have q7 : ∀ t, plain_step t (init_filter.fill_colormap t) := fun t =>
    plain_step_of _ _ [] (by rw [(filter_fill_colormap_spec t).2.2]; simp) rfl
  have q8 : ∀ t : State, ∀ e : Event, [e].all plain_event = true →
      plain_step t (t.emit [e]) := fun t e he => plain_step_of _ _ _ rfl he
  have q12 := plain_step_trans _ _ _ q1 (q2 _)
  have q15 := plain_step_trans _ _ _ (plain_step_trans _ _ _ q12 (q4 _)) (q5 _)
  have q16 := plain_step_trans _ _ _ q15 (q6 _)
  unfold init_filter
  dsimp only
  split_ifs
  · exact plain_step_refl s
  · exact plain_step_refl s
  · exact plain_step_trans _ _ _ q1 (q8 _ _ rfl)
  · exact plain_step_trans _ _ _ q12 (q3 _)
  · exact q15
  · exact q16
  · exact plain_step_trans _ _ _ q16 (q7 _)

theorem init_shader_dir_plain (h : Host) (g : settings_t) (s : State) :
    plain_step s (init_shader_dir h g s) := by
  have hlog : ∀ l : List CStr,
      (l.map (fun e => Event.ssnes_log "Found shader \"%s\"\n" e)).all plain_event = true := by
    intro l
    induction l with
    | nil => rfl
    | cons e es ih =>
      rw [List.map_cons, List.all_cons, ih]
      rfl
  unfold init_shader_dir
  by_cases hp : g.video.shader_dir.headD 0 = 0
  · simp only [hp, if_true]; exact plain_step_refl s
  · simp only [hp, if_false]
    cases hd : h.dir_list_new g.video.shader_dir ".shader" with
    | none => exact plain_step_of _ _ _ rfl rfl
    | some found =>
      refine plain_step_of _ _ ([.dir_list_new g.video.shader_dir ".shader"]
        ++ found.map (fun e => .ssnes_log "Found shader \"%s\"\n" e)) ?_ ?_
      · simp [State.emit]
      · rw [List.all_append, hlog]; rfl

theorem prepare_plain (b : Build) (p : Platform) (h : Host) (g : settings_t) (s : State) :
    plain_step s (init_video_input.prepare b p h g s).state := by
  unfold init_video_input.prepare
  have qs : ∀ t, plain_step t (if b.HAVE_XML = true then init_shader_dir h g t else t) := by
    intro t
    split_ifs
    · exact init_shader_dir_plain h g t
    · exact plain_step_refl t
  by_cases hf : b.HAVE_FILTER = true
  · simp only [hf, if_true]
    have qf := init_filter_plain p h g s
    cases ho : init_filter p h g s with
    | ret s1 =>
      rw [ho] at qf
      exact plain_step_trans _ _ _ qf (qs s1)
    | exit c s1 => rw [ho] at qf; exact qf
    | assert_fail a s1 => rw [ho] at qf; exact qf
    | undefined s1 => rw [ho] at qf; exact qf
  · simp only [hf, if_false, Bool.false_eq_true]
    exact qs s

theorem listing_plain {α : Type} (fmt : String) (ident : α → CStr) (l : List α) :
    (l.map (fun d => Event.fprintf_stderr fmt (some (ident d)))).all plain_event = true := by
  induction l with
  | nil => rfl
  | cons e es ih =>
    rw [List.map_cons, List.all_cons, ih]
    rfl

theorem find_video_driver_plain (V : List video_driver_t) (g : settings_t) (s : State) :
    plain_step s (find_video_driver V g s).state := by
  unfold find_video_driver
  cases V.find? (fun d => decide (strcasecmp g.video.driver d.ident = 0)) with
  | some d => exact plain_step_refl s
  | none =>
    refine plain_step_of _ _ _ rfl ?_
    rw [List.all_append, listing_plain]
    rfl

theorem find_input_driver_build (b : Build) (g : settings_t) (s : State) :
    find_input_driver (input_drivers b) (video_drivers b) g s
      = match (input_drivers b).find?
            (fun d => decide (strcasecmp g.input.driver d.ident = 0)) with
        | some d => .ret { s with driver.input := some d }
        | none =>
          .exit 1 (s.emit
            ([.ssnes_err "Couldn't find any input driver named \"%s\"\n" g.input.driver,
              .fprintf_stderr "Available input drivers are:\n" none]
              ++ ((video_drivers b).take (input_drivers b).length).map
                  (fun d => .fprintf_stderr "\t%s\n" (some d.ident)))) := by
  unfold find_input_driver
  rw [read_each_range _ _ (input_drivers_length_le b)]
  cases (input_drivers b).find? (fun d => decide (strcasecmp g.input.driver d.ident = 0)) with
  | some d => rfl
  | none => simp [State.emit]

theorem find_input_driver_plain (b : Build) (g : settings_t) (s : State) :
    plain_step s (find_input_driver (input_drivers b) (video_drivers b) g s).state := by
  rw [find_input_driver_build]
  cases (input_drivers b).find? (fun d => decide (strcasecmp g.input.driver d.ident = 0)) with
  | some d => exact plain_step_refl s
  | none =>
    refine plain_step_of _ _ _ rfl ?_
    rw [List.all_append, listing_plain]
    rfl

theorem open_state_spec (g : settings_t) (v : video_driver_t) (s : State) :
    (init_video_input.open g v s).state.g_ext = s.g_ext
    ∧ (init_video_input.open g v s).state.driver.video_data
      = (init_video_input.video_result g v s).1
    ∧ ∃ rest, (init_video_input.open g v s).state.trace
        = s.trace ++ .video_init v.ident (init_video_input.video_info g s) :: rest
      ∧ video_init_calls rest = []
      ∧ (s.driver.input ≠ none → cannot_find_input ∉ rest) := by
  have ht := (open_video_spec g v s).2.2
  unfold init_video_input.open
  dsimp only
  by_cases hvd : (init_video_input.open_video g v s).driver.video_data = 0
  · rw [if_pos hvd]
    refine ⟨rfl, rfl, [.ssnes_err_plain "Cannot open video driver... Exiting ...\n"],
      ?_, rfl, fun _ => by decide⟩
    simp [Outcome.state, State.emit, ht]
  · rw [if_neg hvd]
    unfold init_video_input.fallback_input
    cases hin : (init_video_input.open_video g v s).driver.input with
    | some d =>
      refine ⟨rfl, rfl, [], ?_, rfl, fun _ => by simp⟩
      simp [Outcome.state, ht]
    | none =>
      dsimp only
      cases hcfg : s.driver.input with
      | none =>
        refine ⟨rfl, rfl, [.ssnes_err_plain "Cannot find input driver. Exiting ...\n"],
          ?_, rfl, fun hne => absurd rfl hne⟩
        simp [Outcome.state, State.emit, ht]
      | some cfg =>
        dsimp only
        by_cases hz : cfg.init = 0
        · rw [if_pos hz]
          refine ⟨rfl, rfl, [.input_init cfg.ident,
            .ssnes_err_plain "Cannot init input driver. Exiting ...\n"],
            ?_, rfl, fun _ => by simp [cannot_find_input]⟩
          simp [Outcome.state, State.emit, ht]
        · rw [if_neg hz]
          refine ⟨rfl, rfl, [.input_init cfg.ident], ?_, rfl,
            fun _ => by simp [cannot_find_input]⟩
          simp [Outcome.state, State.emit, ht]

theorem plain_step_drop (s t : State) (h : plain_step s t) :
    ∃ ev, t.trace = s.trace ++ ev ∧ video_init_calls ev = [] ∧ input_init_calls ev = []
      ∧ cannot_find_input ∉ ev := by
  obtain ⟨ev, ht, hall⟩ := h
  exact ⟨ev, ht, plain_no_video_init ev hall⟩

theorem init_video_input_resolved_state (b : Build) (p : Platform) (h : Host)
    (g : settings_t) (s s0 : State) (v : video_driver_t) (cfg : input_driver_t)
    (hprep : init_video_input.prepare b p h g s = .ret s0)
    (hv : find_video_driver (video_drivers b) g s0 = .ret { s0 with driver.video := some v })
    (hi : find_input_driver (input_drivers b) (video_drivers b) g
        { s0 with driver.video := some v }
      = .ret { s0 with driver.video := some v, driver.input := some cfg }) :
    (init_video_input b p h g s).state.g_ext = s0.g_ext
    ∧ (init_video_input b p h g s).state.driver.video_data
      = (v.init (init_video_input.video_info g s0) (some cfg) s0.driver.input_data).1
    ∧ ∃ ev,
        (init_video_input b p h g s).state.trace = s.trace ++ ev
        ∧ video_init_calls ev = [.video_init v.ident (init_video_input.video_info g s0)]
        ∧ cannot_find_input ∉ ev := by
  have hp := prepare_plain b p h g s
  rw [hprep] at hp
  obtain ⟨ev0, h0, hv0, -, hn0⟩ := plain_step_drop _ _ hp
  rw [init_video_input_resolved b p h g s s0 v cfg hprep hv hi]
  obtain ⟨hg, hvd, rest, ht, hvr, hnr⟩ := open_state_spec g v
    { s0 with driver.video := some v, driver.input := some cfg }
  refine ⟨hg, hvd, ev0 ++ .video_init v.ident (init_video_input.video_info g s0) :: rest,
    ?_, ?_, ?_⟩
  · rw [ht]
    change s0.trace ++ _ = _
    have h0' : s0.trace = s.trace ++ ev0 := h0
    rw [h0', List.append_assoc]
    rfl
  · rw [video_init_calls_append, hv0, List.nil_append]
    have hcons : video_init_calls
          (.video_init v.ident (init_video_input.video_info g s0) :: rest)
        = .video_init v.ident (init_video_input.video_info g s0) :: video_init_calls rest :=
      rfl
    rw [hcons, hvr]
  · intro hmem
    rcases List.mem_append.mp hmem with h1 | h1
    · exact hn0 h1
    · rcases List.mem_cons.mp h1 with h2 | h2
      · exact absurd h2 (by simp [cannot_find_input])
      · exact hnr (by simp) h2

theorem init_video_input_no_report (b : Build) (p : Platform) (h : Host) (g : settings_t)
    (s : State) :
    ∃ ev, (init_video_input b p h g s).state.trace = s.trace ++ ev
      ∧ cannot_find_input ∉ ev := by
  have hp := prepare_plain b p h g s
  have drop3 : ∀ t : State, plain_step s t →
      ∃ ev, t.trace = s.trace ++ ev ∧ cannot_find_input ∉ ev := by
    intro t ht
    obtain ⟨ev, h1, -, -, h4⟩ := plain_step_drop s t ht
    exact ⟨ev, h1, h4⟩
  cases hprep : init_video_input.prepare b p h g s with
  | ret s0 =>
    rw [hprep] at hp
    have hp0 : plain_step s s0 := hp
    have hvp := find_video_driver_plain (video_drivers b) g s0
    cases hv : find_video_driver (video_drivers b) g s0 with
    | ret sv =>
      obtain ⟨v, hsv⟩ := find_video_driver_ret _ g s0 sv hv
      subst hsv
      have hip := find_input_driver_plain b g { s0 with driver.video := some v }
      cases hi : find_input_driver (input_drivers b) (video_drivers b) g
          { s0 with driver.video := some v } with
      | ret si =>
        obtain ⟨cfg, hsi⟩ := find_input_driver_ret _ _ g _ si hi
        subst hsi
        obtain ⟨-, -, ev, h1, -, h3⟩ :=
          init_video_input_resolved_state b p h g s s0 v cfg hprep hv hi
        exact ⟨ev, h1, h3⟩
      | exit c si =>
        rw [hi] at hip
        have e : init_video_input b p h g s = .exit c si := by
          unfold init_video_input; simp only [hprep, hv, hi]
        rw [e]
        exact drop3 _ (plain_step_trans _ _ _ hp0 hip)
      | assert_fail a si =>
        rw [hi] at hip
        have e : init_video_input b p h g s = .assert_fail a si := by
          unfold init_video_input; simp only [hprep, hv, hi]
        rw [e]
        exact drop3 _ (plain_step_trans _ _ _ hp0 hip)
      | undefined si =>
        rw [hi] at hip
        have e : init_video_input b p h g s = .undefined si := by
          unfold init_video_input; simp only [hprep, hv, hi]
        rw [e]
        exact drop3 _ (plain_step_trans _ _ _ hp0 hip)
    | exit c sv =>
      rw [hv] at hvp
      have e : init_video_input b p h g s = .exit c sv := by
        unfold init_video_input; simp only [hprep, hv]
      rw [e]
      exact drop3 _ (plain_step_trans _ _ _ hp0 hvp)
    | assert_fail a sv =>
      rw [hv] at hvp
      have e : init_video_input b p h g s = .assert_fail a sv := by
        unfold init_video_input; simp only [hprep, hv]
      rw [e]
      exact drop3 _ (plain_step_trans _ _ _ hp0 hvp)
    | undefined sv =>
      rw [hv] at hvp
      have e : init_video_input b p h g s = .undefined sv := by
        unfold init_video_input; simp only [hprep, hv]
      rw [e]
      exact drop3 _ (plain_step_trans _ _ _ hp0 hvp)
  | exit c s0 =>
    rw [hprep] at hp
    have e : init_video_input b p h g s = .exit c s0 := by
      unfold init_video_input; simp only [hprep]
    rw [e]
    exact drop3 _ hp
  | assert_fail a s0 =>
    rw [hprep] at hp
    have e : init_video_input b p h g s = .assert_fail a s0 := by
      unfold init_video_input; simp only [hprep]
    rw [e]
    exact drop3 _ hp
  | undefined s0 =>
    rw [hprep] at hp
    have e : init_video_input b p h g s = .undefined s0 := by
      unfold init_video_input; simp only [hprep]
    rw [e]
    exact drop3 _ hp

/-! ## Video and input bring-up: the block passed, the input name -/

/-- C22: when the set-up of lines 322 to 328 returns in the state `s0` and
the configured video and input names resolve to `v` and `cfg`,
`init_video_input` calls a video backend's `init` exactly once, on `v`, with
a block `info` for which: `input_scale = 2` and `rgb32 = false` when no
filter is active in `s0`, and `input_scale` is the filter's scale and
`rgb32 = true` when a filter is active; `driver.video_data` is what `v`'s
`init` gives for this block, and the filter state is not touched after
`s0`. -/
theorem init_video_input_video_info (b : Build) (p : Platform) (h : Host)
    (g : settings_t) (s s0 : State) (v : video_driver_t) (cfg : input_driver_t)
    (hprep : init_video_input.prepare b p h g s = .ret s0)
    (hv : find_video_driver (video_drivers b) g s0 = .ret { s0 with driver.video := some v })
    (hi : find_input_driver (input_drivers b) (video_drivers b) g
        { s0 with driver.video := some v }
      = .ret { s0 with driver.video := some v, driver.input := some cfg }) :
    ∃ info,
      video_init_calls ((init_video_input b p h g s).state.trace.drop s.trace.length)
        = [.video_init v.ident info]
      ∧ (init_video_input b p h g s).state.driver.video_data
        = (v.init info (some cfg) s0.driver.input_data).1
      ∧ (s0.g_ext.filter.active = false → info.input_scale = 2 ∧ info.rgb32 = false)
      ∧ (s0.g_ext.filter.active = true →
          info.input_scale = s0.g_ext.filter.scale ∧ info.rgb32 = true)
      ∧ (init_video_input b p h g s).state.g_ext.filter = s0.g_ext.filter := by
  obtain ⟨hg, hvd, ev, ht, hcalls, -⟩ :=
    init_video_input_resolved_state b p h g s s0 v cfg hprep hv hi
  refine ⟨init_video_input.video_info g s0, ?_, hvd, fun hoff => ?_, fun hon => ?_, ?_⟩
  · rw [ht, List.drop_left, hcalls]
  · simp [init_video_input.video_info, hoff]
  · simp [init_video_input.video_info, hon]
  · rw [hg]

/-- On the SDL-only build no filter is active and the block carries
`input_scale = 2`, `rgb32 = false`; on the build with the filter compiled in
and a module reporting 1000 by 600, the filter is active with scale 4 and the
block carries `input_scale = 4`, `rgb32 = true`. -/
theorem init_video_input_video_info_witness :
    (state0.g_ext.filter.active = false
      ∧ ∃ info, video_init_calls
            (init_video_input sdl_build platform32 host64 (settings_named (lit "sdl"))
              state0).state.trace
          = [.video_init (lit "sdl") info]
        ∧ info.input_scale = 2 ∧ info.rgb32 = false)
    ∧ ((init_video_input.prepare filter_build platform32 host_large filter_settings
          state0).state.g_ext.filter.active = true
      ∧ (init_video_input.prepare filter_build platform32 host_large filter_settings
          state0).state.g_ext.filter.scale = 4
      ∧ ∃ info, video_init_calls
            (init_video_input filter_build platform32 host_large filter_settings
              state0).state.trace
          = [.video_init (lit "sdl") info]
        ∧ info.input_scale = 4 ∧ info.rgb32 = true) := by
  refine ⟨⟨rfl, ?_⟩, rfl, rfl, ?_⟩
  · obtain ⟨info, hcalls, -, hoff, -, -⟩ :=
      init_video_input_video_info sdl_build platform32 host64 (settings_named (lit "sdl"))
        state0 state0 (mk_video (lit "sdl")) (mk_input (lit "sdl")) rfl rfl rfl
    exact ⟨info, hcalls, hoff rfl⟩
  · obtain ⟨info, hcalls, -, -, hon, -⟩ :=
      init_video_input_video_info filter_build platform32 host_large filter_settings
        state0
        (init_video_input.prepare filter_build platform32 host_large filter_settings
          state0).state
        (mk_video (lit "sdl")) (mk_input (lit "sdl")) rfl rfl rfl
    exact ⟨info, hcalls, hon rfl⟩

/-- C27: the branch of line 374 is unreachable.  Over the tables of any
build, `find_input_driver` either returns with a registered descriptor stored
in `driver.input`, or leaves through `exit(1)`; so the `tmp` saved at line
350 is never `NULL`.  The fallback of lines 360 to 377 would make the report
"Cannot find input driver" when called with `tmp = NULL` and no supplied
input backend; and whatever `init_video_input` does, and however it ends,
none of the calls it makes is that report. -/
theorem cannot_find_input_unreachable (b : Build) (p : Platform) (h : Host)
    (g : settings_t) (s : State) :
    (∀ s0,
      (∃ d, d ∈ input_drivers b
          ∧ find_input_driver (input_drivers b) (video_drivers b) g s0
            = .ret { s0 with driver.input := some d })
        ∨ ∃ s1, find_input_driver (input_drivers b) (video_drivers b) g s0 = .exit 1 s1)
    ∧ (∀ s0, s0.driver.input = none →
        init_video_input.fallback_input none s0 = .exit 1 (s0.emit [cannot_find_input]))
    ∧ ∃ ev, (init_video_input b p h g s).state.trace = s.trace ++ ev
        ∧ cannot_find_input ∉ ev := by
  refine ⟨fun s0 => ?_, fun s0 hnone => ?_, init_video_input_no_report b p h g s⟩
  · rw [find_input_driver_build]
    cases hf : (input_drivers b).find?
        (fun d => decide (strcasecmp g.input.driver d.ident = 0)) with
    | some d => exact Or.inl ⟨d, List.mem_of_find?_eq_some hf, rfl⟩
    | none => exact Or.inr ⟨_, rfl⟩
  · obtain ⟨⟨a, vd, inp, ad, vdat, idat⟩, ge, tr⟩ := s0
    simp only at hnone
    subst hnone
    rfl

/-- On the SDL-only build with an unregistered input name the call leaves
through `exit(1)` in `find_input_driver`, and its calls, the two header lines
and one listing line, do not include the report of line 374. -/
theorem cannot_find_input_unreachable_witness :
    (∃ s1, init_video_input sdl_build platform32 host64 unknown_input_settings state0
        = .exit 1 s1)
    ∧ (init_video_input sdl_build platform32 host64 unknown_input_settings
        state0).state.trace.length = 3
    ∧ ∃ ev, (init_video_input sdl_build platform32 host64 unknown_input_settings
          state0).state.trace = state0.trace ++ ev
        ∧ cannot_find_input ∉ ev :=
  ⟨⟨_, rfl⟩, rfl,
    (cannot_find_input_unreachable sdl_build platform32 host64 unknown_input_settings
      state0).2.2⟩

/-- C21, as stated, fails: on the build whose `"sdl"` video backend supplies
its own input backend and instance whatever it is passed, with the
unregistered input name `"x11"` configured, `init_video_input` leaves through
`exit(1)` in `find_input_driver`, before any video backend's `init` is
called. -/
theorem init_video_input_unknown_input_exits :
    (∀ info input data,
        supplying_build.video_sdl.init info input data = (0x3000, some own_input, 0x3000))
    ∧ find_video_driver (video_drivers supplying_build) unknown_input_settings state0
      = .ret { state0 with driver.video := some supplying_build.video_sdl }
    ∧ (∀ d ∈ input_drivers supplying_build,
        ¬ eq_ignore_case unknown_input_settings.input.driver d.ident)
    ∧ (∃ s1, init_video_input supplying_build platform32 host64 unknown_input_settings state0
        = .exit 1 s1)
    ∧ ¬ (init_video_input supplying_build platform32 host64 unknown_input_settings
        state0).returns
    ∧ video_init_calls
        (init_video_input supplying_build platform32 host64 unknown_input_settings
          state0).state.trace = [] :=
  ⟨fun _ _ _ => rfl, rfl, by decide, ⟨_, rfl⟩, fun hr => hr, rfl⟩

/-- C21 (amended): the configured input name is resolved before the video
backend's `init` is called, whether or not that `init` would supply an input
backend.  When the set-up of lines 322 to 328 returns and the video name
resolves to `v`: if no registered input ident equals the configured input
name ignoring case, `init_video_input` leaves through `exit(1)` and no video
backend's `init` is called; if the name resolves to `cfg` and `v`'s `init`
returns an instance together with an input backend `d` of its own, the call
returns with `d` and the instance `v` supplied for it in the facade, and no
input backend's `init` is called. -/
theorem init_video_input_resolves_input_first (b : Build) (p : Platform) (h : Host)
    (g : settings_t) (s s0 : State) (v : video_driver_t)
    (hprep : init_video_input.prepare b p h g s = .ret s0)
    (hv : find_video_driver (video_drivers b) g s0
      = .ret { s0 with driver.video := some v }) :
    ((∀ d ∈ input_drivers b, ¬ eq_ignore_case g.input.driver d.ident) →
        (∃ s1, init_video_input b p h g s = .exit 1 s1)
        ∧ video_init_calls ((init_video_input b p h g s).state.trace.drop s.trace.length)
          = [])
    ∧ (∀ cfg d,
        find_input_driver (input_drivers b) (video_drivers b) g
            { s0 with driver.video := some v }
          = .ret { s0 with driver.video := some v, driver.input := some cfg } →
        (init_video_input.video_result g v
            { s0 with driver.video := some v, driver.input := some cfg }).1 ≠ 0 →
        (init_video_input.video_result g v
            { s0 with driver.video := some v, driver.input := some cfg }).2.1 = some d →
        ∃ s1, init_video_input b p h g s = .ret s1
          ∧ s1.driver.input = some d
          ∧ s1.driver.input_data
            = (init_video_input.video_result g v
                { s0 with driver.video := some v, driver.input := some cfg }).2.2
          ∧ input_init_calls (s1.trace.drop s.trace.length) = []) := by
  have hp := prepare_plain b p h g s
  rw [hprep] at hp
  have hp0 : plain_step s s0 := hp
  constructor
  · intro hnone
    have hf := (scan_none_iff (fun d : input_driver_t => d.ident) g.input.driver
      (input_drivers b)).mpr hnone
    have hip := find_input_driver_plain b g { s0 with driver.video := some v }
    have hfi := find_input_driver_build b g { s0 with driver.video := some v }
    rw [hf] at hfi
    simp only [] at hfi
    have e : init_video_input b p h g s
        = find_input_driver (input_drivers b) (video_drivers b) g
            { s0 with driver.video := some v } := by
      unfold init_video_input
      simp only [hprep, hv, hfi]
    rw [e]
    obtain ⟨ev, ht, hvi, -, -⟩ := plain_step_drop _ _ (plain_step_trans _ _ _ hp0 hip)
    refine ⟨⟨_, hfi⟩, ?_⟩
    rw [ht, List.drop_left, hvi]
  · intro cfg d hi h0 hd
    obtain ⟨ev0, ht0, -, hi0, -⟩ := plain_step_drop _ _ hp0
    rw [init_video_input_resolved b p h g s s0 v cfg hprep hv hi,
      open_ret_of_supplied g v _ d h0 hd]
    refine ⟨_, rfl, hd, rfl, ?_⟩
    rw [(open_video_spec g v _).2.2]
    change input_init_calls ((s0.trace ++ _).drop s.trace.length) = []
    rw [ht0, List.append_assoc, List.drop_left]
    simp only [input_init_calls, List.filter_append] at hi0 ⊢
    rw [hi0]
    rfl

/-- On the build whose video backend supplies its own input backend: with the
unregistered input name the call leaves through `exit(1)` without a video
`init`; with the registered name `"sdl"` it returns with the supplied
backend and its instance `0x3000`. -/
theorem init_video_input_resolves_input_first_witness :
    ((∃ s1, init_video_input supplying_build platform32 host64 unknown_input_settings state0
          = .exit 1 s1)
      ∧ video_init_calls
          ((init_video_input supplying_build platform32 host64 unknown_input_settings
            state0).state.trace.drop state0.trace.length) = [])
    ∧ ∃ s1, init_video_input supplying_build platform32 host64 (settings_named (lit "sdl"))
          state0 = .ret s1
        ∧ s1.driver.input = some own_input
        ∧ s1.driver.input_data = 0x3000
        ∧ input_init_calls (s1.trace.drop state0.trace.length) = [] :=
  ⟨(init_video_input_resolves_input_first supplying_build platform32 host64
      unknown_input_settings state0 state0 supplying_build.video_sdl rfl rfl).1 (by decide),
    (init_video_input_resolves_input_first supplying_build platform32 host64
      (settings_named (lit "sdl")) state0 state0 supplying_build.video_sdl rfl rfl).2
      (mk_input (lit "sdl")) own_input rfl (by decide) rfl⟩

/-! ## The image filter: failed loads, small sizes -/

theorem dylib_close_calls_append (t u : List Event) :
    dylib_close_calls (t ++ u) = dylib_close_calls t ++ dylib_close_calls u := by
  simp [dylib_close_calls]

theorem init_filter_unopenable (p : Platform) (h : Host) (g : settings_t) (s : State)
    (hin : s.g_ext.filter.active = false) (hpath : g.video.filter_path.headD 0 ≠ 0)
    (hload : h.dylib_load g.video.filter_path = 0) :
    init_filter p h g s
      = .ret ((init_filter.load h g s).emit
          [.ssnes_err "Failed to load filter \"%s\"\n" g.video.filter_path]) := by
  have hlib : (init_filter.load h g s).g_ext.filter.lib = 0 := by
    rw [(filter_load_spec h g s).2.1]; exact hload
  unfold init_filter
  simp only [hin, Bool.false_eq_true, if_false, hpath, hlib, if_true]

theorem init_filter_missing_entry (p : Platform) (h : Host) (g : settings_t) (s : State)
    (hin : s.g_ext.filter.active = false) (hpath : g.video.filter_path.headD 0 ≠ 0)
    (hload : h.dylib_load g.video.filter_path ≠ 0)
    (hproc : h.dylib_proc (h.dylib_load g.video.filter_path) "filter_size" = 0
      ∨ h.dylib_proc (h.dylib_load g.video.filter_path) "filter_render" = 0) :
    init_filter p h g s
      = .ret (init_filter.unload (init_filter.resolve h (init_filter.load h g s))) := by
  have hlib : (init_filter.load h g s).g_ext.filter.lib ≠ 0 := by
    rw [(filter_load_spec h g s).2.1]; exact hload
  have hps : (init_filter.resolve h (init_filter.load h g s)).g_ext.filter.psize
      = h.dylib_proc (h.dylib_load g.video.filter_path) "filter_size" := by
    rw [(filter_resolve_spec h _).2.1, (filter_load_spec h g s).2.1]
  have hpr : (init_filter.resolve h (init_filter.load h g s)).g_ext.filter.prender
      = h.dylib_proc (h.dylib_load g.video.filter_path) "filter_render" := by
    rw [(filter_resolve_spec h _).2.1, (filter_load_spec h g s).2.1]
  unfold init_filter
  simp only [hin, Bool.false_eq_true, if_false, hpath, hlib]
  rw [if_pos (by rw [hps, hpr]; exact hproc)]

/-- C23: `init_filter` fails soft.  Called with no filter active and a
non-empty module path: if the module cannot be opened, or lacks `filter_size`
or `filter_render`, `init_filter` returns with `filter.active = false` and
`filter.lib = NULL`, makes no `malloc` call and leaves the pixel buffer and
the colormap as they were; it makes no `dylib_close` call when the module
did not open, and exactly one, on the handle `dylib_load` gave, when an entry
point is missing. -/
theorem init_filter_fails_soft (p : Platform) (h : Host) (g : settings_t) (s : State)
    (hin : s.g_ext.filter.active = false) (hpath : g.video.filter_path.headD 0 ≠ 0)
    (hfail : h.dylib_load g.video.filter_path = 0
      ∨ h.dylib_proc (h.dylib_load g.video.filter_path) "filter_size" = 0
      ∨ h.dylib_proc (h.dylib_load g.video.filter_path) "filter_render" = 0) :
    ∃ s1, init_filter p h g s = .ret s1
      ∧ s1.g_ext.filter.active = false
      ∧ s1.g_ext.filter.lib = 0
      ∧ malloc_sizes (s1.trace.drop s.trace.length) = []
      ∧ (s1.g_ext.filter.buffer = s.g_ext.filter.buffer
        ∧ s1.g_ext.filter.colormap = s.g_ext.filter.colormap
        ∧ s1.g_ext.filter.colormap_mem = s.g_ext.filter.colormap_mem)
      ∧ (h.dylib_load g.video.filter_path = 0 →
          dylib_close_calls (s1.trace.drop s.trace.length) = [])
      ∧ (h.dylib_load g.video.filter_path ≠ 0 →
          dylib_close_calls (s1.trace.drop s.trace.length)
            = [.dylib_close (h.dylib_load g.video.filter_path)]) := by
  by_cases hload : h.dylib_load g.video.filter_path = 0
  · rw [init_filter_unopenable p h g s hin hpath hload]
    have ht : ((init_filter.load h g s).emit
          [.ssnes_err "Failed to load filter \"%s\"\n" g.video.filter_path]).trace
        = s.trace ++ [.ssnes_log "Loading bSNES filter from \"%s\"\n" g.video.filter_path,
            .dylib_load g.video.filter_path,
            .ssnes_err "Failed to load filter \"%s\"\n" g.video.filter_path] := by
      simp [State.emit, init_filter.load]
    refine ⟨_, rfl, hin, hload, ?_, ⟨rfl, rfl, rfl⟩, fun _ => ?_, fun hne => absurd hload hne⟩
    · rw [ht, List.drop_left]; rfl
    · rw [ht, List.drop_left]; rfl
  · have hproc : h.dylib_proc (h.dylib_load g.video.filter_path) "filter_size" = 0
        ∨ h.dylib_proc (h.dylib_load g.video.filter_path) "filter_render" = 0 := by
      rcases hfail with h0 | h0
      · exact absurd h0 hload
      · exact h0
    rw [init_filter_missing_entry p h g s hin hpath hload hproc]
    have ht : (init_filter.unload (init_filter.resolve h (init_filter.load h g s))).trace
        = s.trace ++ [.ssnes_log "Loading bSNES filter from \"%s\"\n" g.video.filter_path,
            .dylib_load g.video.filter_path,
            .dylib_proc (h.dylib_load g.video.filter_path) "filter_size",
            .dylib_proc (h.dylib_load g.video.filter_path) "filter_render",
            .ssnes_err_plain "Failed to find functions in filter...\n",
            .dylib_close (h.dylib_load g.video.filter_path)] := by
      simp [State.emit, init_filter.load, init_filter.resolve, init_filter.unload]
    refine ⟨_, rfl, hin, rfl, ?_, ⟨rfl, rfl, rfl⟩, fun h0 => absurd h0 hload, fun _ => ?_⟩
    · rw [ht, List.drop_left]; rfl
    · rw [ht, List.drop_left]; rfl

/-- On the host where no module opens, the call returns with the filter
inactive, no handle, no allocation and no `dylib_close`; on the host whose
module lacks `filter_render`, it returns likewise after closing the handle
`0x5000` once. -/
theorem init_filter_fails_soft_witness :
    (∃ s1, init_filter platform32 host_unopenable filter_settings state0 = .ret s1
      ∧ s1.g_ext.filter.active = false ∧ s1.g_ext.filter.lib = 0
      ∧ malloc_sizes s1.trace = [] ∧ dylib_close_calls s1.trace = [])
    ∧ ∃ s1, init_filter platform32 host_no_render filter_settings state0 = .ret s1
      ∧ s1.g_ext.filter.active = false ∧ s1.g_ext.filter.lib = 0
      ∧ malloc_sizes s1.trace = [] ∧ dylib_close_calls s1.trace = [.dylib_close 0x5000] := by
  constructor
  · obtain ⟨s1, hret, ha, hlib, hm, -, hc, -⟩ :=
      init_filter_fails_soft platform32 host_unopenable filter_settings state0 rfl
        (by decide) (Or.inl rfl)
    exact ⟨s1, hret, ha, hlib, hm, hc rfl⟩
  · obtain ⟨s1, hret, ha, hlib, hm, -, -, hc⟩ :=
      init_filter_fails_soft platform32 host_no_render filter_settings state0 rfl
        (by decide) (Or.inr (Or.inr rfl))
    exact ⟨s1, hret, ha, hlib, hm, hc (by decide)⟩

theorem next_pow2_ge_256_iff (n : Nat) : 256 ≤ next_pow2 n ↔ 128 < n := by
  obtain ⟨m, hm, hle, hmin⟩ := next_pow2_spec n
  rw [hm]
  constructor
  · intro h256
    by_contra hn
    have h7 : m ≤ 7 := hmin 7 (by omega)
    have h2 : 2 ^ m ≤ 2 ^ 7 := Nat.pow_le_pow_right (by decide) h7
    omega
  · intro hn
    have h1 : 2 ^ 7 < 2 ^ m := by omega
    have h2 : 7 < m := (Nat.pow_lt_pow_iff_right (by decide)).mp h1
    have h3 : 2 ^ 8 ≤ 2 ^ m := Nat.pow_le_pow_right (by decide) h2
    omega

theorem scale_of_small (p : Platform) (w hh : Nat) (hw : w ≤ 128) (hhh : hh ≤ 128) :
    init_filter.scale_of p w hh = 0 := by
  have h1 : next_pow2 w < 256 := by
    by_contra hge
    have := (next_pow2_ge_256_iff w).mp (by omega)
    omega
  have h2 : next_pow2 hh < 256 := by
    by_contra hge
    have := (next_pow2_ge_256_iff hh).mp (by omega)
    omega
  have m1 : next_pow2 w % 2 ^ p.uint_bits < 256 := lt_of_le_of_lt (Nat.mod_le _ _) h1
  have m2 : next_pow2 hh % 2 ^ p.uint_bits < 256 := lt_of_le_of_lt (Nat.mod_le _ _) h2
  unfold init_filter.scale_of
  dsimp only
  split_ifs
  · exact Nat.div_eq_of_lt m1
  · exact Nat.div_eq_of_lt m2

theorem buffer_bytes_zero (p : Platform) (h : Host) :
    init_filter.buffer_bytes p h 0 = 0 ∧ init_filter.pitch_of p h 0 = 0 := by
  simp [init_filter.buffer_bytes, init_filter.pitch_of]

/-- C26, as stated, fails on a 32-bit `unsigned`: for a reported size of
2147483649 by 1 the larger dimension exceeds 128, the least power of two not
below it is `2 ^ 32`, which wraps to 0 in `pow2_x`, and the scale is
`1 / 256 = 0`. -/
theorem init_filter_scale_wraps :
    state0.g_ext.filter.active = false
    ∧ init_filter.loadable host_wide filter_settings
    ∧ init_filter.reported_size host_wide filter_settings = (2147483649, 1)
    ∧ 2147483649 < 2 ^ platform32.uint_bits
    ∧ 128 < max 2147483649 1
    ∧ next_pow2 2147483649 = 2 ^ 32
    ∧ (init_filter platform32 host_wide filter_settings state0).state.g_ext.filter.scale
      = 0 :=
  ⟨rfl, by decide, rfl, by decide, by decide, by decide, by decide⟩

/-- C26 (amended): for a filter module that is activated and reports the size
`(w, hh)`, with `P = next_pow2` giving the least power of two not below its
argument: provided `P w` and `P hh` fit in `unsigned`, the scale `init_filter`
sets is at least 1 exactly when the larger of `w` and `hh` exceeds 128; and
when both `w` and `hh` are at most 128, the scale is 0, the first `malloc`
request, the one for the pixel buffer, is for 0 bytes, and the pitch is 0. -/
theorem init_filter_scale_zero (p : Platform) (h : Host) (g : settings_t) (s : State)
    (w hh : Nat) (hin : s.g_ext.filter.active = false) (hl : init_filter.loadable h g)
    (hrep : init_filter.reported_size h g = (w, hh)) :
    ((∃ a, next_pow2 w = 2 ^ a ∧ w ≤ 2 ^ a ∧ ∀ j, w ≤ 2 ^ j → a ≤ j)
      ∧ ∃ b, next_pow2 hh = 2 ^ b ∧ hh ≤ 2 ^ b ∧ ∀ j, hh ≤ 2 ^ j → b ≤ j)
    ∧ (next_pow2 w < 2 ^ p.uint_bits → next_pow2 hh < 2 ^ p.uint_bits →
        (1 ≤ (init_filter p h g s).state.g_ext.filter.scale ↔ 128 < max w hh))
    ∧ (w ≤ 128 → hh ≤ 128 →
        (init_filter p h g s).state.g_ext.filter.scale = 0
        ∧ (∃ rest, malloc_sizes ((init_filter p h g s).state.trace.drop s.trace.length)
            = 0 :: rest)
        ∧ (init_filter p h g s).state.g_ext.filter.buffer = p.malloc 0
        ∧ (init_filter p h g s).state.g_ext.filter.pitch = 0) := by
  obtain ⟨hsc, hpitch, hbuf, rest, hm⟩ := init_filter_state_loadable p h g s hin hl
  have hscale : init_filter.scale p h g = init_filter.scale_of p w hh := by
    unfold init_filter.scale
    rw [hrep]
  rw [hscale] at hsc hpitch hbuf hm
  refine ⟨⟨next_pow2_spec w, next_pow2_spec hh⟩, fun hx hy => ?_, fun hw hhh => ?_⟩
  · rw [hsc, scale_of_no_wrap p w hh hx hy, Nat.le_div_iff_mul_le (by decide), le_max_iff,
      lt_max_iff, one_mul, next_pow2_ge_256_iff, next_pow2_ge_256_iff]
  · have h0 := scale_of_small p w hh hw hhh
    rw [h0] at hsc hpitch hbuf hm
    rw [(buffer_bytes_zero p h).1] at hbuf hm
    rw [(buffer_bytes_zero p h).2] at hpitch
    exact ⟨hsc, ⟨rest, hm⟩, hbuf, hpitch⟩

/-- A reported size of 1000 by 600 gives the scale 4, which is at least 1,
the larger dimension exceeding 128; a reported size of 100 by 128 gives the
scale 0, a request for 0 bytes and the pitch 0. -/
theorem init_filter_scale_zero_witness :
    (init_filter.reported_size host_large filter_settings = (1000, 600)
      ∧ (init_filter platform32 host_large filter_settings state0).state.g_ext.filter.scale
        = 4
      ∧ (1 ≤ (init_filter platform32 host_large filter_settings
            state0).state.g_ext.filter.scale ↔ 128 < max 1000 600))
    ∧ init_filter.reported_size host_small filter_settings = (100, 128)
    ∧ (init_filter platform32 host_small filter_settings state0).state.g_ext.filter.scale = 0
    ∧ (∃ rest, malloc_sizes
          ((init_filter platform32 host_small filter_settings state0).state.trace.drop
            state0.trace.length) = 0 :: rest)
    ∧ (init_filter platform32 host_small filter_settings state0).state.g_ext.filter.buffer
      = platform32.malloc 0
    ∧ (init_filter platform32 host_small filter_settings state0).state.g_ext.filter.pitch
      = 0 :=
  ⟨⟨rfl, by decide,
      (init_filter_scale_zero platform32 host_large filter_settings state0 1000 600 rfl
        (by decide) rfl).2.1 (by decide) (by decide)⟩,
    rfl,
    (init_filter_scale_zero platform32 host_small filter_settings state0 100 128 rfl
      (by decide) rfl).2.2 (by decide) (by decide)⟩

end Driver
